import Mathlib

/-! # Cedrus VC-1 frame setup (`drivers/staging/media/sunxi/cedrus/cedrus_vc1.c`)

A shallow embedding of the VC-1 part of the Cedrus VPU driver: the frame
setup, the interrupt operations and the scratch buffers of a session.  Machine
integers are natural numbers (`unsigned int`, `u32`, `__u8`) or integers
(`int`), with the 32-bit wrap-around written out where the C arithmetic can
wrap.  The register macros of `cedrus_regs.h` and the flag constants of the
V4L2 VC-1 control header are not part of the sources at hand; they enter as
the parameter records `CedrusRegs` and `V4L2Flags`.
-/

namespace Cedrus

/-! ## Constants of `cedrus_vc1.c` -/

def VC1_PROFILE_SIMPLE : Nat := 0
def VC1_PROFILE_MAIN : Nat := 1
def VC1_PROFILE_COMPLEX : Nat := 2
def VC1_PROFILE_ADVANCED : Nat := 3

def VC1_PICTURE_TYPE_I : Nat := 0
def VC1_PICTURE_TYPE_P : Nat := 1
def VC1_PICTURE_TYPE_B : Nat := 2
def VC1_PICTURE_TYPE_BI : Nat := 3
def VC1_PICTURE_TYPE_SKIPPED : Nat := 4

def VC1_FCM_PROGRESSIVE : Nat := 0
def VC1_FCM_INTERLACED_FRAME : Nat := 1
def VC1_FCM_INTERLACED_FIELD : Nat := 2

def VC1_MVMODE_1MV_HPEL_BILIN : Nat := 0
def VC1_MVMODE_1MV : Nat := 1
def VC1_MVMODE_1MV_HPEL : Nat := 2
def VC1_MVMODE_MIXED_MV : Nat := 3
def VC1_MVMODE_INTENSITY_COMP : Nat := 4

def VC1_BITPLANE_OFFSET_ACPRED : Nat := 0x0000
def VC1_BITPLANE_OFFSET_OVERFLAGS : Nat := 0x0400
def VC1_BITPLANE_OFFSET_MVTYPEMB : Nat := 0x0800
def VC1_BITPLANE_OFFSET_SKIPMB : Nat := 0x0C00
def VC1_BITPLANE_OFFSET_DIRECTMB : Nat := 0x1000
def VC1_BITPLANE_OFFSET_FIELDTX : Nat := 0x1400
def VC1_BITPLANE_OFFSET_FORWARDMB : Nat := 0x1800

/-- The macro `FRACTION(num, denom)`: `((num) * 256) / (denom)` in C integer
arithmetic. -/
def FRACTION (num denom : Nat) : Nat := (num * 256) / denom

/-- The table `vc1_fractions[]`. -/
def vc1_fractions : List Nat :=
  [ FRACTION 1 2,
    FRACTION 1 3,
    FRACTION 2 3,
    FRACTION 1 4,
    FRACTION 3 4,
    FRACTION 1 5,
    FRACTION 2 5,
    FRACTION 3 5,
    FRACTION 4 5,
    FRACTION 1 6,
    FRACTION 5 6,
    FRACTION 1 7,
    FRACTION 2 7,
    FRACTION 3 7,
    FRACTION 4 7,
    FRACTION 5 7,
    FRACTION 6 7,
    FRACTION 1 8,
    FRACTION 3 8,
    FRACTION 5 8,
    FRACTION 7 8,
    0xff,
    0 ]

/-- The table `vc1_mvmode_map[]`. -/
def vc1_mvmode_map : List Nat := [3, 0, 2, 1]

/-- The function `cedrus_vc1_get_fraction`: the guarded table lookup. -/
def cedrus_vc1_get_fraction (index : Nat) : Nat :=
  if h : index ≥ vc1_fractions.length then 0
  else vc1_fractions.get ⟨index, Nat.lt_of_not_le h⟩

/-- The lookup `vc1_mvmode_map[mvmode & 3]` of `cedrus_vc1_setup`. -/
def vc1_mvmode_map_lookup (mvmode : Nat) : Nat :=
  vc1_mvmode_map.get ⟨mvmode &&& 3, Nat.lt_succ_of_le Nat.and_le_right⟩

/-! ## Parameters: the missing headers -/

/-- The flag constants of the V4L2 VC-1 stateless control header that
`cedrus_vc1.c` tests.  The header is not among the sources, so the constants
are parameters. -/
structure V4L2Flags where
  V4L2_VC1_PICTURE_LAYER_FLAG_SECOND_FIELD : Nat
  V4L2_VC1_PICTURE_LAYER_FLAG_TFF : Nat
  V4L2_VC1_PICTURE_LAYER_FLAG_REFFIELD : Nat
  V4L2_VC1_PICTURE_LAYER_FLAG_RANGEREDFRM : Nat
  V4L2_VC1_PICTURE_LAYER_FLAG_TRANSDCTAB : Nat
  V4L2_VC1_PICTURE_LAYER_FLAG_RNDCTRL : Nat
  V4L2_VC1_PICTURE_LAYER_FLAG_TTMBF : Nat
  V4L2_VC1_PICTURE_LAYER_FLAG_HALFQP : Nat
  V4L2_VC1_PICTURE_LAYER_FLAG_PQUANTIZER : Nat
  V4L2_VC1_PICTURE_LAYER_FLAG_INTCOMP : Nat
  V4L2_VC1_PICTURE_LAYER_FLAG_NUMREF : Nat
  V4L2_VC1_ENTRYPOINT_HEADER_FLAG_LOOPFILTER : Nat
  V4L2_VC1_ENTRYPOINT_HEADER_FLAG_FASTUVMC : Nat
  V4L2_VC1_ENTRYPOINT_HEADER_FLAG_EXTENDED_DMV : Nat
  V4L2_VC1_ENTRYPOINT_HEADER_FLAG_VSTRANSFORM : Nat
  V4L2_VC1_ENTRYPOINT_HEADER_FLAG_OVERLAP : Nat
  V4L2_VC1_METADATA_FLAG_MULTIRES : Nat
  V4L2_VC1_METADATA_FLAG_RANGERED : Nat
  V4L2_VC1_METADATA_FLAG_SYNCMARKER : Nat
  V4L2_VC1_SEQUENCE_FLAG_FINTERPFLAG : Nat
  V4L2_VC1_VOPDQUANT_FLAG_DQUANTFRM : Nat
  V4L2_VC1_VOPDQUANT_FLAG_DQBILEVEL : Nat
  V4L2_VC1_RAW_CODING_FLAG_OVERFLAGS : Nat
  V4L2_VC1_RAW_CODING_FLAG_SKIPMB : Nat
  V4L2_VC1_RAW_CODING_FLAG_DIRECTMB : Nat
  V4L2_VC1_RAW_CODING_FLAG_FIELDTX : Nat
  V4L2_VC1_RAW_CODING_FLAG_FORWARDMB : Nat
  V4L2_VC1_BITPLANE_FLAG_MVTYPEMB : Nat
  V4L2_VC1_BITPLANE_FLAG_DIRECTMB : Nat
  V4L2_VC1_BITPLANE_FLAG_SKIPMB : Nat
  V4L2_VC1_BITPLANE_FLAG_FIELDTX : Nat
  V4L2_VC1_BITPLANE_FLAG_FORWARDMB : Nat
  V4L2_VC1_BITPLANE_FLAG_ACPRED : Nat
  V4L2_VC1_BITPLANE_FLAG_OVERFLAGS : Nat

/-- The VC-1 register macros of `cedrus_regs.h` that `cedrus_vc1.c` uses:
register offsets, single-flag constants and field macros (functions of the
field value).  The header is not among the sources, so every macro is a
parameter; no bit position is assumed.  Register values are built from the
macros as natural numbers and reduced modulo 2^32 where the C code holds them
in a `u32`: when read back and when passed to `cedrus_write`. -/
structure CedrusRegs where
  VE_DEC_VC1_DCACPRED_ADDR : Nat
  VE_DEC_VC1_BITPLANE_ADDR : Nat
  VE_DEC_VC1_MVINFO_ADDR : Nat
  VE_DEC_VC1_BITS_ADDR : Nat
  VE_DEC_VC1_BITS_END_ADDR : Nat
  VE_DEC_VC1_BITS_OFFSET : Nat
  VE_DEC_VC1_BITS_LEN : Nat
  VE_DEC_VC1_STATUS : Nat
  VE_DEC_VC1_TRIGGER_TYPE : Nat
  VE_DEC_VC1_ROT_CTRL : Nat
  VE_DEC_VC1_PICHDRLEN : Nat
  VE_DEC_VC1_EPHS : Nat
  VE_DEC_VC1_PICCTRL : Nat
  VE_DEC_VC1_PICQP : Nat
  VE_DEC_VC1_PICMV : Nat
  VE_DEC_VC1_PICINTENCOMP : Nat
  VE_DEC_VC1_PICINTERLACE : Nat
  VE_DEC_VC1_FSIZE : Nat
  VE_DEC_VC1_PICSIZE : Nat
  VE_DEC_VC1_REC_LUMA : Nat
  VE_DEC_VC1_REC_CHROMA : Nat
  VE_DEC_VC1_ROT_LUMA_ADDR : Nat
  VE_DEC_VC1_ROT_CHROMA_ADDR : Nat
  VE_DEC_VC1_FWD_REF_LUMA_ADDR : Nat
  VE_DEC_VC1_FWD_REF_CHROMA_ADDR : Nat
  VE_DEC_VC1_BWD_REF_LUMA_ADDR : Nat
  VE_DEC_VC1_BWD_REF_CHROMA_ADDR : Nat
  VE_DEC_VC1_CTRL : Nat
  VE_DEC_VC1_BITS_ADDR_BASE : Nat → Nat
  VE_DEC_VC1_BITS_ADDR_VALID_SLICE_DATA : Nat
  VE_DEC_VC1_BITS_ADDR_LAST_SLICE_DATA : Nat
  VE_DEC_VC1_BITS_ADDR_FIRST_SLICE_DATA : Nat
  VE_DEC_VC1_STATUS_INT_MASK : Nat
  VE_DEC_VC1_STATUS_ERROR : Nat
  VE_DEC_VC1_STATUS_VLD_DATA_REQ : Nat
  VE_DEC_VC1_STATUS_SUCCESS : Nat
  VE_DEC_VC1_TRIGGER_TYPE_INIT_SWDEC : Nat
  VE_DEC_VC1_TRIGGER_TYPE_DECODE : Nat
  VE_DEC_VC1_PICHDRLEN_LENGTH : Nat → Nat
  VE_DEC_VC1_EPHS_PROFILE : Nat → Nat
  VE_DEC_VC1_EPHS_LOOPFILTER : Nat
  VE_DEC_VC1_EPHS_MULTIRES : Nat
  VE_DEC_VC1_EPHS_FASTUVMC : Nat
  VE_DEC_VC1_EPHS_EXTENDEDMV : Nat
  VE_DEC_VC1_EPHS_DQUANT : Nat → Nat
  VE_DEC_VC1_EPHS_VSTRANSFORM : Nat
  VE_DEC_VC1_EPHS_OVERLAP : Nat
  VE_DEC_VC1_EPHS_QUANTIZER : Nat → Nat
  VE_DEC_VC1_EPHS_RANGERED : Nat
  VE_DEC_VC1_EPHS_FINTERPFLAG : Nat
  VE_DEC_VC1_EPHS_SYNCMARKER : Nat
  VE_DEC_VC1_EPHS_STARTCODE_DET_EN : Nat
  VE_DEC_VC1_EPHS_EPTB_DET_BYPASS : Nat
  VE_DEC_VC1_PICCTRL_PTYPE : Nat → Nat
  VE_DEC_VC1_PICCTRL_FCM : Nat → Nat
  VE_DEC_VC1_PICCTRL_BOTTOM_FIELD : Nat
  VE_DEC_VC1_PICCTRL_SECOND_FIELD : Nat
  VE_DEC_VC1_PICCTRL_RANGEREDFRM : Nat
  VE_DEC_VC1_PICCTRL_FWD_RANGEREDFRM : Nat
  VE_DEC_VC1_PICCTRL_BWD_RANGEREDFRM : Nat
  VE_DEC_VC1_PICCTRL_TRANSACFRM : Nat → Nat
  VE_DEC_VC1_PICCTRL_TRANSACFRM2 : Nat → Nat
  VE_DEC_VC1_PICCTRL_TRANSDCTAB : Nat
  VE_DEC_VC1_PICCTRL_RNDCTRL : Nat
  VE_DEC_VC1_PICCTRL_CONDOVER : Nat → Nat
  VE_DEC_VC1_PICCTRL_OVERFLAGS_RAW : Nat
  VE_DEC_VC1_PICCTRL_CBPTAB : Nat → Nat
  VE_DEC_VC1_PICCTRL_SKIPMB_RAW : Nat
  VE_DEC_VC1_PICCTRL_TTMBF : Nat
  VE_DEC_VC1_PICCTRL_TTFRM : Nat → Nat
  VE_DEC_VC1_PICCTRL_DIRECTMB_RAW : Nat
  VE_DEC_VC1_PICCTRL_DIRECT_REF_INTRA : Nat
  VE_DEC_VC1_PICCTRL_BITPL_CODING : Nat
  VE_DEC_VC1_PICQP_PQINDEX : Nat → Nat
  VE_DEC_VC1_PICQP_HALFQP : Nat
  VE_DEC_VC1_PICQP_PQUANTIZER : Nat
  VE_DEC_VC1_PICQP_DQPPROFILE : Nat → Nat
  VE_DEC_VC1_PICQP_DQSBEDGE : Nat → Nat
  VE_DEC_VC1_PICQP_DQDBEDGE : Nat → Nat
  VE_DEC_VC1_PICQP_ALTPQUANT : Nat → Nat
  VE_DEC_VC1_PICQP_DQUANTFRM : Nat
  VE_DEC_VC1_PICQP_DQBILEVEL : Nat
  VE_DEC_VC1_PICMV_BFRACTION : Nat → Nat
  VE_DEC_VC1_PICMV_BFRAC_LESS_THAN_HALF : Nat
  VE_DEC_VC1_PICMV_MVRANGE : Nat → Nat
  VE_DEC_VC1_PICMV_MVMODE : Nat → Nat
  VE_DEC_VC1_PICMV_INTENSITY_COMP_EN : Nat
  VE_DEC_VC1_PICMV_MVTAB : Nat → Nat
  VE_DEC_VC1_PICINTENCOMP_LUMASCALE1 : Nat → Nat
  VE_DEC_VC1_PICINTENCOMP_LUMASHIFT1 : Nat → Nat
  VE_DEC_VC1_PICINTENCOMP_LUMASCALE2 : Nat → Nat
  VE_DEC_VC1_PICINTENCOMP_LUMASHIFT2 : Nat → Nat
  VE_DEC_VC1_PICINTERLACE_FIELDTX_RAW : Nat
  VE_DEC_VC1_PICINTERLACE_DMVRANGE : Nat → Nat
  VE_DEC_VC1_PICINTERLACE_4MVSWITCH : Nat
  VE_DEC_VC1_PICINTERLACE_MBMODETAB : Nat → Nat
  VE_DEC_VC1_PICINTERLACE_IMVTAB : Nat → Nat
  VE_DEC_VC1_PICINTERLACE_ICBPTAB : Nat → Nat
  VE_DEC_VC1_PICINTERLACE_INTENCOMP : Nat
  VE_DEC_VC1_PICINTERLACE_2MVBPTAB : Nat → Nat
  VE_DEC_VC1_PICINTERLACE_4MVBPTAB : Nat → Nat
  VE_DEC_VC1_PICINTERLACE_FRFD : Nat → Nat
  VE_DEC_VC1_PICINTERLACE_BRFD : Nat → Nat
  VE_DEC_VC1_PICINTERLACE_REFFIELD : Nat
  VE_DEC_VC1_PICINTERLACE_INTENCOMPFLD : Nat → Nat
  VE_DEC_VC1_PICINTERLACE_FORWARD_RAW : Nat
  VE_DEC_VC1_PICINTERLACE_FWD_INTERLACE : Nat
  VE_DEC_VC1_PICINTERLACE_BWD_INTERLACE : Nat
  VE_DEC_VC1_PICINTERLACE_NUMREF : Nat
  VE_DEC_VC1_FSIZE_WIDTH : Nat → Nat
  VE_DEC_VC1_FSIZE_HEIGHT : Nat → Nat
  VE_DEC_VC1_PICSIZE_WIDTH : Nat → Nat
  VE_DEC_VC1_PICSIZE_HEIGHT : Nat → Nat
  VE_DEC_VC1_CTRL_FINISH_IRQ_EN : Nat
  VE_DEC_VC1_CTRL_ERROR_IRQ_EN : Nat
  VE_DEC_VC1_CTRL_VLD_DATA_REQ_IRQ_EN : Nat
  VE_DEC_VC1_CTRL_MCRI_CACHE_EN : Nat
  VE_DEC_VC1_CTRL_IRQ_MASK : Nat

/-! ## Data model -/

/-- The members of `struct v4l2_vc1_sequence` read by the driver. -/
structure v4l2_vc1_sequence where
  profile : Nat
  flags : Nat

/-- The members of `struct v4l2_vc1_entrypoint_header` read by the driver. -/
structure v4l2_vc1_entrypoint_header where
  flags : Nat
  dquant : Nat
  quantizer : Nat
  coded_width : Nat
  coded_height : Nat

/-- The members of `struct v4l2_vc1_picture_layer` read by the driver. -/
structure v4l2_vc1_picture_layer where
  ptype : Nat
  fcm : Nat
  flags : Nat
  transacfrm : Nat
  transacfrm2 : Nat
  condover : Nat
  cbptab : Nat
  ttfrm : Nat
  pqindex : Nat
  bfraction : Nat
  mvrange : Nat
  mvmode : Nat
  mvmode2 : Nat
  mvtab : Nat
  lumscale : Nat
  lumshift : Nat
  lumscale2 : Nat
  lumshift2 : Nat
  refdist : Nat
  dmvrange : Nat
  mbmodetab : Nat
  imvtab : Nat
  icbptab : Nat
  twomvbptab : Nat
  fourmvbptab : Nat
  intcompfield : Nat

/-- The members of `struct v4l2_vc1_vopdquant` read by the driver. -/
structure v4l2_vc1_vopdquant where
  dqprofile : Nat
  dqsbedge : Nat
  dqdbedge : Nat
  altpquant : Nat
  flags : Nat

/-- The members of `struct v4l2_vc1_metadata` read by the driver. -/
structure v4l2_vc1_metadata where
  flags : Nat

/-- The members of `struct v4l2_ctrl_vc1_slice_params` read by the driver. -/
structure v4l2_ctrl_vc1_slice_params where
  sequence : v4l2_vc1_sequence
  entrypoint_header : v4l2_vc1_entrypoint_header
  picture_layer : v4l2_vc1_picture_layer
  vopdquant : v4l2_vc1_vopdquant
  metadata : v4l2_vc1_metadata
  raw_coding_flags : Nat
  data_bit_offset : Nat
  forward_ref_ts : Nat
  backward_ref_ts : Nat

/-- The control `struct v4l2_ctrl_vc1_bitplanes`: the flags word and the
seven planes, each a byte array read by offset. -/
structure v4l2_ctrl_vc1_bitplanes where
  bitplane_flags : Nat
  mvtypemb : Nat → Nat
  directmb : Nat → Nat
  skipmb : Nat → Nat
  fieldtx : Nat → Nat
  forwardmb : Nat → Nat
  acpred : Nat → Nat
  overflags : Nat → Nat

/-- The `codec.vc1` member of `struct cedrus_buffer` (declared in `cedrus.h`,
which is not among the sources): the output frame attributes, the three
flags held as booleans. -/
structure cedrus_vc1_buffer where
  rangeredfrm : Bool
  interlaced : Bool
  ptype : Nat
  compen : Bool
deriving DecidableEq, Repr

/-- The parts of `struct cedrus_ctx` the VC-1 code reads or writes: the DMA
addresses of the three scratch buffers, the source format size and the
content of the bitplane scratch buffer, a byte per offset. -/
structure cedrus_ctx where
  mv_buf_addr : Nat
  acdc_buf_addr : Nat
  bitplanes_buf_addr : Nat
  src_fmt_width : Nat
  src_fmt_height : Nat
  bitplanes_buf : Nat → Nat

/-- The parts of `struct cedrus_run` the VC-1 code reads: the two controls,
the DMA address and payload of the source buffer, and the destination
buffer, named by its index in the capture queue. -/
structure cedrus_run where
  slice_params : v4l2_ctrl_vc1_slice_params
  bitplanes : Option v4l2_ctrl_vc1_bitplanes
  src_dma_addr : Nat
  src_payload : Nat
  dst : Nat

/-- The external collaborators of `cedrus_vc1_setup`: the lookup of a capture
buffer by timestamp (`vb2_find_buffer`, absent when nothing matches) and the
DMA address of a plane of a possibly absent buffer (`cedrus_dst_buf_addr`). -/
structure Extern where
  vb2_find_buffer : Nat → Option Nat
  cedrus_dst_buf_addr : Option Nat → Nat → Nat

/-- What the driver does to the hardware, in order: `cedrus_engine_enable`
and `cedrus_write(dev, reg, val)`. -/
inductive hw_op where
  | engine_enable
  | write (reg val : Nat)
deriving DecidableEq, Repr

/-! ## C idioms -/

/-- The truth value of the C expression `x & flag`. -/
def flag_set (x flag : Nat) : Bool := (x &&& flag) != 0

/-- The statement `if (c) reg |= bits;`. -/
def or_if (c : Bool) (reg bits : Nat) : Nat := if c then reg ||| bits else reg

/-- Conversion of an integer to `unsigned int` (reduction modulo 2^32). -/
def to_u32 (i : Int) : Nat := (i % 4294967296).toNat

/-- Conversion of an `unsigned int` value to `int` (two's complement). -/
def to_s32 (n : Nat) : Int :=
  if n % 4294967296 < 2147483648 then (n % 4294967296 : Nat)
  else ((n % 4294967296 : Nat) : Int) - 4294967296

/-- The test `buf && buf->codec.vc1.<flag>` on a possibly absent buffer. -/
def buf_flag (bufs : Nat → cedrus_vc1_buffer) (buf : Option Nat)
    (flag : cedrus_vc1_buffer → Bool) : Bool :=
  match buf with
  | some b => flag (bufs b)
  | none => false

/-- The C library `memcpy(dst + off, src, n)` on byte memories. -/
def memcpy (dst : Nat → Nat) (off : Nat) (src : Nat → Nat) (n : Nat) : Nat → Nat :=
  fun i => if off ≤ i ∧ i < off + n then src (i - off) else dst i

/-- The kernel macro `DIV_ROUND_UP(n, d)`. -/
def DIV_ROUND_UP (n d : Nat) : Nat := (n + d - 1) / d

/-- The call `cedrus_write(dev, reg, val)`; `val` is a `u32`. -/
def cedrus_write (reg val : Nat) : hw_op := hw_op.write reg (val % 4294967296)

/-- Assignment through a buffer pointer: the store with buffer `i` replaced. -/
def set_buf (bufs : Nat → cedrus_vc1_buffer) (i : Nat) (b : cedrus_vc1_buffer) :
    Nat → cedrus_vc1_buffer :=
  fun j => if j = i then b else bufs j

/-! ## `cedrus_vc1_bitplanes_setup` -/

/-- The function `cedrus_vc1_bitplanes_setup`: the new content of the bitplane
scratch buffer, and whether the size warning was printed.  The last store to
`plane_size` (line 111) replaces the computed size by 1024. -/
def cedrus_vc1_bitplanes_setup (V : V4L2Flags) (ctx : cedrus_ctx)
    (entrypoint : v4l2_vc1_entrypoint_header) (bitplanes : v4l2_ctrl_vc1_bitplanes) :
    (Nat → Nat) × Bool :=
  let mb_num := (DIV_ROUND_UP entrypoint.coded_width 16 *
    DIV_ROUND_UP entrypoint.coded_height 16) % 4294967296
  let plane_size := DIV_ROUND_UP mb_num 8
  let warned := decide (plane_size > 1024)
  let plane_size := if plane_size > 1024 then 1024 else plane_size
  let plane_size := Function.const Nat 1024 plane_size
  let buf := ctx.bitplanes_buf
  let buf := if flag_set bitplanes.bitplane_flags V.V4L2_VC1_BITPLANE_FLAG_MVTYPEMB then
    memcpy buf VC1_BITPLANE_OFFSET_MVTYPEMB bitplanes.mvtypemb plane_size else buf
  let buf := if flag_set bitplanes.bitplane_flags V.V4L2_VC1_BITPLANE_FLAG_DIRECTMB then
    memcpy buf VC1_BITPLANE_OFFSET_DIRECTMB bitplanes.directmb plane_size else buf
  let buf := if flag_set bitplanes.bitplane_flags V.V4L2_VC1_BITPLANE_FLAG_SKIPMB then
    memcpy buf VC1_BITPLANE_OFFSET_SKIPMB bitplanes.skipmb plane_size else buf
  let buf := if flag_set bitplanes.bitplane_flags V.V4L2_VC1_BITPLANE_FLAG_FIELDTX then
    memcpy buf VC1_BITPLANE_OFFSET_FIELDTX bitplanes.fieldtx plane_size else buf
  let buf := if flag_set bitplanes.bitplane_flags V.V4L2_VC1_BITPLANE_FLAG_FORWARDMB then
    memcpy buf VC1_BITPLANE_OFFSET_FORWARDMB bitplanes.forwardmb plane_size else buf
  let buf := if flag_set bitplanes.bitplane_flags V.V4L2_VC1_BITPLANE_FLAG_ACPRED then
    memcpy buf VC1_BITPLANE_OFFSET_ACPRED bitplanes.acpred plane_size else buf
  let buf := if flag_set bitplanes.bitplane_flags V.V4L2_VC1_BITPLANE_FLAG_OVERFLAGS then
    memcpy buf VC1_BITPLANE_OFFSET_OVERFLAGS bitplanes.overflags plane_size else buf
  (buf, warned)

/-! ## `cedrus_vc1_setup`, piece by piece

Each definition below is one segment of the body of `cedrus_vc1_setup`;
`cedrus_vc1_setup` at the end puts them together in source order. -/

/-- The local `second_field` (line 202). -/
def setup_second_field (V : V4L2Flags) (picture : v4l2_vc1_picture_layer) : Bool :=
  flag_set picture.flags V.V4L2_VC1_PICTURE_LAYER_FLAG_SECOND_FIELD

/-- The local `top_field_first` (line 203). -/
def setup_top_field_first (V : V4L2Flags) (picture : v4l2_vc1_picture_layer) : Bool :=
  flag_set picture.flags V.V4L2_VC1_PICTURE_LAYER_FLAG_TFF

/-- The local `progressive` (line 204). -/
def setup_progressive (picture : v4l2_vc1_picture_layer) : Bool :=
  picture.fcm == VC1_FCM_PROGRESSIVE

/-- The local `ref_field` (line 205). -/
def setup_ref_field (V : V4L2Flags) (picture : v4l2_vc1_picture_layer) : Bool :=
  flag_set picture.flags V.V4L2_VC1_PICTURE_LAYER_FLAG_REFFIELD

/-- The stores to `out_buf->codec.vc1` at lines 219-223: the buffer store
after the range-reduction flag, the interlaced flag and the picture type of
the destination buffer have been recorded. -/
def setup_record_attrs (V : V4L2Flags) (picture : v4l2_vc1_picture_layer)
    (bufs : Nat → cedrus_vc1_buffer) (dst : Nat) : Nat → cedrus_vc1_buffer :=
  set_buf bufs dst
    { rangeredfrm := flag_set picture.flags V.V4L2_VC1_PICTURE_LAYER_FLAG_RANGEREDFRM,
      interlaced := !setup_progressive picture,
      ptype := picture.ptype,
      compen := (bufs dst).compen }

/-- The test `bitplanes && bitplanes->bitplane_flags`. -/
def bitplanes_in_use (bitplanes : Option v4l2_ctrl_vc1_bitplanes) : Bool :=
  match bitplanes with
  | some b => b.bitplane_flags != 0
  | none => false

/-- The value written to `VE_DEC_VC1_EPHS` (lines 264-289). -/
def setup_ephs (R : CedrusRegs) (V : V4L2Flags) (slice : v4l2_ctrl_vc1_slice_params) : Nat :=
  let sequence := slice.sequence
  let entrypoint := slice.entrypoint_header
  let metadata := slice.metadata
  let reg := R.VE_DEC_VC1_EPHS_PROFILE sequence.profile
  let reg := or_if (flag_set entrypoint.flags V.V4L2_VC1_ENTRYPOINT_HEADER_FLAG_LOOPFILTER)
    reg R.VE_DEC_VC1_EPHS_LOOPFILTER
  let reg := or_if (flag_set metadata.flags V.V4L2_VC1_METADATA_FLAG_MULTIRES)
    reg R.VE_DEC_VC1_EPHS_MULTIRES
  let reg := or_if (flag_set entrypoint.flags V.V4L2_VC1_ENTRYPOINT_HEADER_FLAG_FASTUVMC)
    reg R.VE_DEC_VC1_EPHS_FASTUVMC
  let reg := or_if (flag_set entrypoint.flags V.V4L2_VC1_ENTRYPOINT_HEADER_FLAG_EXTENDED_DMV)
    reg R.VE_DEC_VC1_EPHS_EXTENDEDMV
  let reg := reg ||| R.VE_DEC_VC1_EPHS_DQUANT entrypoint.dquant
  let reg := or_if (flag_set entrypoint.flags V.V4L2_VC1_ENTRYPOINT_HEADER_FLAG_VSTRANSFORM)
    reg R.VE_DEC_VC1_EPHS_VSTRANSFORM
  let reg := or_if (flag_set entrypoint.flags V.V4L2_VC1_ENTRYPOINT_HEADER_FLAG_OVERLAP)
    reg R.VE_DEC_VC1_EPHS_OVERLAP
  let reg := reg ||| R.VE_DEC_VC1_EPHS_QUANTIZER entrypoint.quantizer
  let reg := or_if (flag_set metadata.flags V.V4L2_VC1_METADATA_FLAG_RANGERED)
    reg R.VE_DEC_VC1_EPHS_RANGERED
  let reg := or_if (flag_set sequence.flags V.V4L2_VC1_SEQUENCE_FLAG_FINTERPFLAG)
    reg R.VE_DEC_VC1_EPHS_FINTERPFLAG
  let reg := or_if (flag_set metadata.flags V.V4L2_VC1_METADATA_FLAG_SYNCMARKER)
    reg R.VE_DEC_VC1_EPHS_SYNCMARKER
  if sequence.profile == VC1_PROFILE_ADVANCED then
    reg ||| R.VE_DEC_VC1_EPHS_STARTCODE_DET_EN
  else
    reg ||| R.VE_DEC_VC1_EPHS_EPTB_DET_BYPASS

/-- The value written to `VE_DEC_VC1_PICCTRL` (lines 291-328).  `bufs` is the
buffer store after `setup_record_attrs`; `fwd_buf` and `bwd_buf` are the
results of the two reference lookups. -/
def setup_picctrl (R : CedrusRegs) (V : V4L2Flags) (slice : v4l2_ctrl_vc1_slice_params)
    (bitplanes : Option v4l2_ctrl_vc1_bitplanes) (bufs : Nat → cedrus_vc1_buffer)
    (fwd_buf bwd_buf : Option Nat) : Nat :=
  let picture := slice.picture_layer
  let raw_coding := slice.raw_coding_flags
  let second_field := setup_second_field V picture
  let top_field_first := setup_top_field_first V picture
  let progressive := setup_progressive picture
  let reg := R.VE_DEC_VC1_PICCTRL_PTYPE picture.ptype
  let reg := reg ||| R.VE_DEC_VC1_PICCTRL_FCM (if picture.fcm != 0 then picture.fcm + 1 else 0)
  let reg := or_if (!progressive && !(xor top_field_first second_field))
    reg R.VE_DEC_VC1_PICCTRL_BOTTOM_FIELD
  let reg := or_if second_field reg R.VE_DEC_VC1_PICCTRL_SECOND_FIELD
  let reg := or_if (flag_set picture.flags V.V4L2_VC1_PICTURE_LAYER_FLAG_RANGEREDFRM)
    reg R.VE_DEC_VC1_PICCTRL_RANGEREDFRM
  let reg := or_if (buf_flag bufs fwd_buf cedrus_vc1_buffer.rangeredfrm)
    reg R.VE_DEC_VC1_PICCTRL_FWD_RANGEREDFRM
  let reg := or_if (buf_flag bufs bwd_buf cedrus_vc1_buffer.rangeredfrm)
    reg R.VE_DEC_VC1_PICCTRL_BWD_RANGEREDFRM
  let reg := reg ||| R.VE_DEC_VC1_PICCTRL_TRANSACFRM picture.transacfrm
  let reg := reg ||| R.VE_DEC_VC1_PICCTRL_TRANSACFRM2 picture.transacfrm2
  let reg := or_if (flag_set picture.flags V.V4L2_VC1_PICTURE_LAYER_FLAG_TRANSDCTAB)
    reg R.VE_DEC_VC1_PICCTRL_TRANSDCTAB
  let reg := or_if (flag_set picture.flags V.V4L2_VC1_PICTURE_LAYER_FLAG_RNDCTRL)
    reg R.VE_DEC_VC1_PICCTRL_RNDCTRL
  let reg := reg ||| R.VE_DEC_VC1_PICCTRL_CONDOVER
    (if picture.condover != 0 then picture.condover + 1 else 0)
  let reg := or_if (flag_set raw_coding V.V4L2_VC1_RAW_CODING_FLAG_OVERFLAGS)
    reg R.VE_DEC_VC1_PICCTRL_OVERFLAGS_RAW
  let reg := reg ||| R.VE_DEC_VC1_PICCTRL_CBPTAB picture.cbptab
  let reg := or_if (flag_set raw_coding V.V4L2_VC1_RAW_CODING_FLAG_SKIPMB)
    reg R.VE_DEC_VC1_PICCTRL_SKIPMB_RAW
  let reg := or_if (flag_set picture.flags V.V4L2_VC1_PICTURE_LAYER_FLAG_TTMBF)
    reg R.VE_DEC_VC1_PICCTRL_TTMBF
  let reg := reg ||| R.VE_DEC_VC1_PICCTRL_TTFRM picture.ttfrm
  let reg := or_if (flag_set raw_coding V.V4L2_VC1_RAW_CODING_FLAG_DIRECTMB)
    reg R.VE_DEC_VC1_PICCTRL_DIRECTMB_RAW
  let reg := or_if (picture.ptype != VC1_PICTURE_TYPE_P)
    reg R.VE_DEC_VC1_PICCTRL_DIRECT_REF_INTRA
  let reg := or_if (bitplanes_in_use bitplanes) reg R.VE_DEC_VC1_PICCTRL_BITPL_CODING
  reg

/-- The value written to `VE_DEC_VC1_PICQP` (lines 330-343). -/
def setup_picqp (R : CedrusRegs) (V : V4L2Flags) (slice : v4l2_ctrl_vc1_slice_params) : Nat :=
  let picture := slice.picture_layer
  let vopdquant := slice.vopdquant
  let reg := R.VE_DEC_VC1_PICQP_PQINDEX picture.pqindex
  let reg := or_if (flag_set picture.flags V.V4L2_VC1_PICTURE_LAYER_FLAG_HALFQP)
    reg R.VE_DEC_VC1_PICQP_HALFQP
  let reg := or_if (flag_set picture.flags V.V4L2_VC1_PICTURE_LAYER_FLAG_PQUANTIZER)
    reg R.VE_DEC_VC1_PICQP_PQUANTIZER
  let reg := reg ||| R.VE_DEC_VC1_PICQP_DQPPROFILE vopdquant.dqprofile
  let reg := reg ||| R.VE_DEC_VC1_PICQP_DQSBEDGE vopdquant.dqsbedge
  let reg := reg ||| R.VE_DEC_VC1_PICQP_DQDBEDGE vopdquant.dqdbedge
  let reg := reg ||| R.VE_DEC_VC1_PICQP_ALTPQUANT vopdquant.altpquant
  let reg := or_if (flag_set vopdquant.flags V.V4L2_VC1_VOPDQUANT_FLAG_DQUANTFRM)
    reg R.VE_DEC_VC1_PICQP_DQUANTFRM
  let reg := or_if (flag_set vopdquant.flags V.V4L2_VC1_VOPDQUANT_FLAG_DQBILEVEL)
    reg R.VE_DEC_VC1_PICQP_DQBILEVEL
  reg

/-- The local `bfraction` (line 345). -/
def setup_bfraction (picture : v4l2_vc1_picture_layer) : Nat :=
  cedrus_vc1_get_fraction picture.bfraction

/-- The local `mvmode` (lines 351-355). -/
def setup_mvmode (picture : v4l2_vc1_picture_layer) : Nat :=
  if picture.ptype == VC1_PICTURE_TYPE_P && picture.mvmode == VC1_MVMODE_INTENSITY_COMP then
    picture.mvmode2
  else
    picture.mvmode

/-- The condition of the `if` at lines 357-358. -/
def setup_intensity_comp_cond (V : V4L2Flags) (picture : v4l2_vc1_picture_layer)
    (bufs : Nat → cedrus_vc1_buffer) (fwd_buf : Option Nat) : Bool :=
  (picture.ptype == VC1_PICTURE_TYPE_B && buf_flag bufs fwd_buf cedrus_vc1_buffer.compen) ||
  (picture.ptype != VC1_PICTURE_TYPE_B &&
    flag_set picture.flags V.V4L2_VC1_PICTURE_LAYER_FLAG_INTCOMP)

/-- The variable `reg` of the `VE_DEC_VC1_PICMV` block after line 360, where
the output compensation flag is read from it; the variable is a `u32`, so the
value read is this one modulo 2^32. -/
def setup_picmv_head (R : CedrusRegs) (V : V4L2Flags) (picture : v4l2_vc1_picture_layer)
    (bufs : Nat → cedrus_vc1_buffer) (fwd_buf : Option Nat) : Nat :=
  let bfraction := setup_bfraction picture
  let reg := R.VE_DEC_VC1_PICMV_BFRACTION bfraction
  let reg := or_if (decide (bfraction < FRACTION 1 2)) reg R.VE_DEC_VC1_PICMV_BFRAC_LESS_THAN_HALF
  let reg := reg ||| R.VE_DEC_VC1_PICMV_MVRANGE picture.mvrange
  let reg := reg ||| R.VE_DEC_VC1_PICMV_MVMODE (vc1_mvmode_map_lookup (setup_mvmode picture))
  let reg := or_if (setup_intensity_comp_cond V picture bufs fwd_buf)
    reg R.VE_DEC_VC1_PICMV_INTENSITY_COMP_EN
  reg

/-- The stores to `out_buf->codec.vc1.compen` at lines 361-364. -/
def setup_record_compen (R : CedrusRegs) (V : V4L2Flags) (picture : v4l2_vc1_picture_layer)
    (bufs : Nat → cedrus_vc1_buffer) (fwd_buf : Option Nat) (dst : Nat) :
    Nat → cedrus_vc1_buffer :=
  if picture.ptype == VC1_PICTURE_TYPE_P then
    set_buf bufs dst { bufs dst with
      compen := flag_set (setup_picmv_head R V picture bufs fwd_buf % 4294967296)
        R.VE_DEC_VC1_PICMV_INTENSITY_COMP_EN }
  else if picture.ptype == VC1_PICTURE_TYPE_I then
    set_buf bufs dst { bufs dst with compen := false }
  else
    bufs

/-- The value written to `VE_DEC_VC1_PICMV` (lines 345-368). -/
def setup_picmv (R : CedrusRegs) (V : V4L2Flags) (picture : v4l2_vc1_picture_layer)
    (bufs : Nat → cedrus_vc1_buffer) (fwd_buf : Option Nat) : Nat :=
  setup_picmv_head R V picture bufs fwd_buf ||| R.VE_DEC_VC1_PICMV_MVTAB picture.mvtab

/-- The value written to `VE_DEC_VC1_PICINTENCOMP` (lines 370-374). -/
def setup_picintencomp (R : CedrusRegs) (picture : v4l2_vc1_picture_layer) : Nat :=
  let reg := R.VE_DEC_VC1_PICINTENCOMP_LUMASCALE1 picture.lumscale
  let reg := reg ||| R.VE_DEC_VC1_PICINTENCOMP_LUMASHIFT1 picture.lumshift
  let reg := reg ||| R.VE_DEC_VC1_PICINTENCOMP_LUMASCALE2 picture.lumscale2
  let reg := reg ||| R.VE_DEC_VC1_PICINTENCOMP_LUMASHIFT2 picture.lumshift2
  reg

/-- The local `frfd` after lines 376-379, before the clamp: an
`unsigned int`. -/
def setup_frfd_unclamped (picture : v4l2_vc1_picture_layer) : Nat :=
  if picture.ptype == VC1_PICTURE_TYPE_B then
    ((setup_bfraction picture * picture.refdist) % 4294967296) >>> 8
  else
    picture.refdist % 4294967296

/-- The local `brfd` after line 380, before the clamp: the difference is
taken in `unsigned int` and stored in an `int`. -/
def setup_brfd_unclamped (picture : v4l2_vc1_picture_layer) : Int :=
  to_s32 (to_u32 ((picture.refdist : Int) - (setup_frfd_unclamped picture : Int) - 1))

/-- The local `frfd` after the clamp of lines 382-383. -/
def setup_frfd (picture : v4l2_vc1_picture_layer) : Nat :=
  if setup_frfd_unclamped picture > 3 then 3 else setup_frfd_unclamped picture

/-- The local `brfd` after the clamp of lines 384-387. -/
def setup_brfd (picture : v4l2_vc1_picture_layer) : Int :=
  if setup_brfd_unclamped picture < 0 then 0
  else if setup_brfd_unclamped picture > 3 then 3
  else setup_brfd_unclamped picture

/-- The value written to `VE_DEC_VC1_PICINTERLACE` (lines 389-419).  `bufs` is
the buffer store at that point of the function. -/
def setup_picinterlace (R : CedrusRegs) (V : V4L2Flags) (slice : v4l2_ctrl_vc1_slice_params)
    (bufs : Nat → cedrus_vc1_buffer) (fwd_buf bwd_buf : Option Nat) : Nat :=
  let picture := slice.picture_layer
  let raw_coding := slice.raw_coding_flags
  let second_field := setup_second_field V picture
  let progressive := setup_progressive picture
  let ref_field := setup_ref_field V picture
  let mvmode := setup_mvmode picture
  let reg := 0
  let reg := or_if (flag_set raw_coding V.V4L2_VC1_RAW_CODING_FLAG_FIELDTX)
    reg R.VE_DEC_VC1_PICINTERLACE_FIELDTX_RAW
  let reg := reg ||| R.VE_DEC_VC1_PICINTERLACE_DMVRANGE picture.dmvrange
  let reg := or_if (mvmode == VC1_MVMODE_MIXED_MV) reg R.VE_DEC_VC1_PICINTERLACE_4MVSWITCH
  let reg := reg ||| R.VE_DEC_VC1_PICINTERLACE_MBMODETAB picture.mbmodetab
  let reg := reg ||| R.VE_DEC_VC1_PICINTERLACE_IMVTAB picture.imvtab
  let reg := reg ||| R.VE_DEC_VC1_PICINTERLACE_ICBPTAB picture.icbptab
  let reg := or_if (flag_set picture.flags V.V4L2_VC1_PICTURE_LAYER_FLAG_INTCOMP)
    reg R.VE_DEC_VC1_PICINTERLACE_INTENCOMP
  let reg := reg ||| R.VE_DEC_VC1_PICINTERLACE_2MVBPTAB picture.twomvbptab
  let reg := reg ||| R.VE_DEC_VC1_PICINTERLACE_4MVBPTAB picture.fourmvbptab
  let reg := reg ||| R.VE_DEC_VC1_PICINTERLACE_FRFD (setup_frfd picture)
  let reg := reg ||| R.VE_DEC_VC1_PICINTERLACE_BRFD (to_u32 (setup_brfd picture))
  let reg := or_if (!(xor second_field ref_field)) reg R.VE_DEC_VC1_PICINTERLACE_REFFIELD
  let reg := reg ||| R.VE_DEC_VC1_PICINTERLACE_INTENCOMPFLD picture.intcompfield
  let reg := or_if (flag_set raw_coding V.V4L2_VC1_RAW_CODING_FLAG_FORWARDMB)
    reg R.VE_DEC_VC1_PICINTERLACE_FORWARD_RAW
  let reg := or_if (buf_flag bufs fwd_buf cedrus_vc1_buffer.interlaced ||
      (fwd_buf.isNone && !progressive))
    reg R.VE_DEC_VC1_PICINTERLACE_FWD_INTERLACE
  let reg := or_if (buf_flag bufs bwd_buf cedrus_vc1_buffer.interlaced ||
      (bwd_buf.isNone && !progressive))
    reg R.VE_DEC_VC1_PICINTERLACE_BWD_INTERLACE
  let reg := or_if (flag_set picture.flags V.V4L2_VC1_PICTURE_LAYER_FLAG_NUMREF)
    reg R.VE_DEC_VC1_PICINTERLACE_NUMREF
  reg

/-- What `cedrus_vc1_setup` leaves behind: its return value, the hardware
operations in order, the buffer store, the bitplane scratch buffer and
whether the bitplane size warning was printed. -/
structure setup_result where
  ret : Int
  ops : List hw_op
  bufs : Nat → cedrus_vc1_buffer
  bitplanes_buf : Nat → Nat
  warned : Bool

/-- The function `cedrus_vc1_setup`. -/
def cedrus_vc1_setup (R : CedrusRegs) (V : V4L2Flags) (E : Extern) (ctx : cedrus_ctx)
    (run : cedrus_run) (bufs : Nat → cedrus_vc1_buffer) : setup_result :=
  let slice := run.slice_params
  let bitplanes := run.bitplanes
  let entrypoint := slice.entrypoint_header
  let picture := slice.picture_layer
  let forward_vb2 := E.vb2_find_buffer slice.forward_ref_ts
  let fwd_buf := forward_vb2
  let backward_vb2 := E.vb2_find_buffer slice.backward_ref_ts
  let bwd_buf := backward_vb2
  let out_buf := run.dst
  let bufs₁ := setup_record_attrs V picture bufs out_buf
  let src_buf_addr := run.src_dma_addr
  let bufs₂ := setup_record_compen R V picture bufs₁ fwd_buf out_buf
  let dst_luma_addr := E.cedrus_dst_buf_addr (some run.dst) 0
  let dst_chroma_addr := E.cedrus_dst_buf_addr (some run.dst) 1
  let staged := if bitplanes_in_use bitplanes then
      match bitplanes with
      | some b => cedrus_vc1_bitplanes_setup V ctx entrypoint b
      | none => (ctx.bitplanes_buf, false)
    else (ctx.bitplanes_buf, false)
  { ret := 0,
    ops :=
      [ hw_op.engine_enable,
        cedrus_write R.VE_DEC_VC1_DCACPRED_ADDR ctx.acdc_buf_addr,
        cedrus_write R.VE_DEC_VC1_BITPLANE_ADDR ctx.bitplanes_buf_addr,
        cedrus_write R.VE_DEC_VC1_MVINFO_ADDR ctx.mv_buf_addr,
        cedrus_write R.VE_DEC_VC1_BITS_ADDR (R.VE_DEC_VC1_BITS_ADDR_BASE src_buf_addr),
        cedrus_write R.VE_DEC_VC1_BITS_END_ADDR (src_buf_addr + run.src_payload),
        cedrus_write R.VE_DEC_VC1_BITS_OFFSET slice.data_bit_offset,
        cedrus_write R.VE_DEC_VC1_BITS_LEN (run.src_payload * 8),
        cedrus_write R.VE_DEC_VC1_BITS_ADDR
          (R.VE_DEC_VC1_BITS_ADDR_BASE src_buf_addr |||
           R.VE_DEC_VC1_BITS_ADDR_VALID_SLICE_DATA |||
           R.VE_DEC_VC1_BITS_ADDR_LAST_SLICE_DATA |||
           R.VE_DEC_VC1_BITS_ADDR_FIRST_SLICE_DATA),
        cedrus_write R.VE_DEC_VC1_STATUS R.VE_DEC_VC1_STATUS_INT_MASK,
        cedrus_write R.VE_DEC_VC1_TRIGGER_TYPE R.VE_DEC_VC1_TRIGGER_TYPE_INIT_SWDEC,
        cedrus_write R.VE_DEC_VC1_ROT_CTRL 0,
        cedrus_write R.VE_DEC_VC1_PICHDRLEN (R.VE_DEC_VC1_PICHDRLEN_LENGTH 0),
        cedrus_write R.VE_DEC_VC1_EPHS (setup_ephs R V slice),
        cedrus_write R.VE_DEC_VC1_PICCTRL
          (setup_picctrl R V slice bitplanes bufs₁ fwd_buf bwd_buf),
        cedrus_write R.VE_DEC_VC1_PICQP (setup_picqp R V slice),
        cedrus_write R.VE_DEC_VC1_PICMV (setup_picmv R V picture bufs₁ fwd_buf),
        cedrus_write R.VE_DEC_VC1_PICINTENCOMP (setup_picintencomp R picture),
        cedrus_write R.VE_DEC_VC1_PICINTERLACE
          (setup_picinterlace R V slice bufs₂ fwd_buf bwd_buf),
        cedrus_write R.VE_DEC_VC1_FSIZE
          (R.VE_DEC_VC1_FSIZE_WIDTH ctx.src_fmt_width |||
           R.VE_DEC_VC1_FSIZE_HEIGHT ctx.src_fmt_height),
        cedrus_write R.VE_DEC_VC1_PICSIZE
          (R.VE_DEC_VC1_PICSIZE_WIDTH ctx.src_fmt_width |||
           R.VE_DEC_VC1_PICSIZE_HEIGHT ctx.src_fmt_height),
        cedrus_write R.VE_DEC_VC1_REC_LUMA dst_luma_addr,
        cedrus_write R.VE_DEC_VC1_REC_CHROMA dst_chroma_addr,
        cedrus_write R.VE_DEC_VC1_ROT_LUMA_ADDR dst_luma_addr,
        cedrus_write R.VE_DEC_VC1_ROT_CHROMA_ADDR dst_chroma_addr,
        cedrus_write R.VE_DEC_VC1_FWD_REF_LUMA_ADDR (E.cedrus_dst_buf_addr forward_vb2 0),
        cedrus_write R.VE_DEC_VC1_FWD_REF_CHROMA_ADDR (E.cedrus_dst_buf_addr forward_vb2 1),
        cedrus_write R.VE_DEC_VC1_BWD_REF_LUMA_ADDR (E.cedrus_dst_buf_addr backward_vb2 0),
        cedrus_write R.VE_DEC_VC1_BWD_REF_CHROMA_ADDR (E.cedrus_dst_buf_addr backward_vb2 1),
        cedrus_write R.VE_DEC_VC1_CTRL
          (R.VE_DEC_VC1_CTRL_FINISH_IRQ_EN |||
           R.VE_DEC_VC1_CTRL_ERROR_IRQ_EN |||
           R.VE_DEC_VC1_CTRL_VLD_DATA_REQ_IRQ_EN |||
           R.VE_DEC_VC1_CTRL_MCRI_CACHE_EN) ],
    bufs := bufs₂,
    bitplanes_buf := staged.1,
    warned := staged.2 }

/-! ## An example layout

The kernel macros `BIT`, `GENMASK` and the `SHIFT_AND_MASK_BITS` of
`cedrus_regs.h`, and one assignment of the parameters built from them.  The
theorems below hold for every layout that meets their hypotheses; this one
shows that the hypotheses can be met. -/

/-- The kernel macro `BIT(n)`. -/
def BIT (n : Nat) : Nat := 1 <<< n

/-- The kernel macro `GENMASK(h, l)`: the bits `l` to `h`. -/
def GENMASK (h l : Nat) : Nat := ((1 <<< (h + 1 - l)) - 1) <<< l

/-- The macro `SHIFT_AND_MASK_BITS(v, h, l)`: `((v) << (l)) & GENMASK(h, l)`. -/
def SHIFT_AND_MASK_BITS (v h l : Nat) : Nat := (v <<< l) &&& GENMASK h l

/-- An example assignment of the V4L2 flag constants: consecutive bits in
each flags word. -/
def example_flags : V4L2Flags where
  V4L2_VC1_PICTURE_LAYER_FLAG_SECOND_FIELD := BIT 0
  V4L2_VC1_PICTURE_LAYER_FLAG_TFF := BIT 1
  V4L2_VC1_PICTURE_LAYER_FLAG_REFFIELD := BIT 2
  V4L2_VC1_PICTURE_LAYER_FLAG_RANGEREDFRM := BIT 3
  V4L2_VC1_PICTURE_LAYER_FLAG_TRANSDCTAB := BIT 4
  V4L2_VC1_PICTURE_LAYER_FLAG_RNDCTRL := BIT 5
  V4L2_VC1_PICTURE_LAYER_FLAG_TTMBF := BIT 6
  V4L2_VC1_PICTURE_LAYER_FLAG_HALFQP := BIT 7
  V4L2_VC1_PICTURE_LAYER_FLAG_PQUANTIZER := BIT 8
  V4L2_VC1_PICTURE_LAYER_FLAG_INTCOMP := BIT 9
  V4L2_VC1_PICTURE_LAYER_FLAG_NUMREF := BIT 10
  V4L2_VC1_ENTRYPOINT_HEADER_FLAG_LOOPFILTER := BIT 0
  V4L2_VC1_ENTRYPOINT_HEADER_FLAG_FASTUVMC := BIT 1
  V4L2_VC1_ENTRYPOINT_HEADER_FLAG_EXTENDED_DMV := BIT 2
  V4L2_VC1_ENTRYPOINT_HEADER_FLAG_VSTRANSFORM := BIT 3
  V4L2_VC1_ENTRYPOINT_HEADER_FLAG_OVERLAP := BIT 4
  V4L2_VC1_METADATA_FLAG_MULTIRES := BIT 0
  V4L2_VC1_METADATA_FLAG_RANGERED := BIT 1
  V4L2_VC1_METADATA_FLAG_SYNCMARKER := BIT 2
  V4L2_VC1_SEQUENCE_FLAG_FINTERPFLAG := BIT 0
  V4L2_VC1_VOPDQUANT_FLAG_DQUANTFRM := BIT 0
  V4L2_VC1_VOPDQUANT_FLAG_DQBILEVEL := BIT 1
  V4L2_VC1_RAW_CODING_FLAG_OVERFLAGS := BIT 0
  V4L2_VC1_RAW_CODING_FLAG_SKIPMB := BIT 1
  V4L2_VC1_RAW_CODING_FLAG_DIRECTMB := BIT 2
  V4L2_VC1_RAW_CODING_FLAG_FIELDTX := BIT 3
  V4L2_VC1_RAW_CODING_FLAG_FORWARDMB := BIT 4
  V4L2_VC1_BITPLANE_FLAG_MVTYPEMB := BIT 0
  V4L2_VC1_BITPLANE_FLAG_DIRECTMB := BIT 1
  V4L2_VC1_BITPLANE_FLAG_SKIPMB := BIT 2
  V4L2_VC1_BITPLANE_FLAG_FIELDTX := BIT 3
  V4L2_VC1_BITPLANE_FLAG_FORWARDMB := BIT 4
  V4L2_VC1_BITPLANE_FLAG_ACPRED := BIT 5
  V4L2_VC1_BITPLANE_FLAG_OVERFLAGS := BIT 6

/-- An example assignment of the register macros, in the style of
`cedrus_regs.h`: the fields of each register on disjoint bits. -/
def example_regs : CedrusRegs where
  VE_DEC_VC1_DCACPRED_ADDR := 0x358
  VE_DEC_VC1_BITPLANE_ADDR := 0x35c
  VE_DEC_VC1_MVINFO_ADDR := 0x360
  VE_DEC_VC1_BITS_ADDR := 0x330
  VE_DEC_VC1_BITS_END_ADDR := 0x33c
  VE_DEC_VC1_BITS_OFFSET := 0x334
  VE_DEC_VC1_BITS_LEN := 0x338
  VE_DEC_VC1_STATUS := 0x304
  VE_DEC_VC1_TRIGGER_TYPE := 0x308
  VE_DEC_VC1_ROT_CTRL := 0x364
  VE_DEC_VC1_PICHDRLEN := 0x30c
  VE_DEC_VC1_EPHS := 0x310
  VE_DEC_VC1_PICCTRL := 0x314
  VE_DEC_VC1_PICQP := 0x318
  VE_DEC_VC1_PICMV := 0x31c
  VE_DEC_VC1_PICINTENCOMP := 0x320
  VE_DEC_VC1_PICINTERLACE := 0x324
  VE_DEC_VC1_FSIZE := 0x328
  VE_DEC_VC1_PICSIZE := 0x32c
  VE_DEC_VC1_REC_LUMA := 0x340
  VE_DEC_VC1_REC_CHROMA := 0x344
  VE_DEC_VC1_ROT_LUMA_ADDR := 0x368
  VE_DEC_VC1_ROT_CHROMA_ADDR := 0x36c
  VE_DEC_VC1_FWD_REF_LUMA_ADDR := 0x348
  VE_DEC_VC1_FWD_REF_CHROMA_ADDR := 0x34c
  VE_DEC_VC1_BWD_REF_LUMA_ADDR := 0x350
  VE_DEC_VC1_BWD_REF_CHROMA_ADDR := 0x354
  VE_DEC_VC1_CTRL := 0x300
  VE_DEC_VC1_BITS_ADDR_BASE := fun a => (a &&& 0x0ffffff0) ||| (a >>> 28)
  VE_DEC_VC1_BITS_ADDR_VALID_SLICE_DATA := BIT 28
  VE_DEC_VC1_BITS_ADDR_LAST_SLICE_DATA := BIT 29
  VE_DEC_VC1_BITS_ADDR_FIRST_SLICE_DATA := BIT 30
  VE_DEC_VC1_STATUS_INT_MASK := 0x7
  VE_DEC_VC1_STATUS_ERROR := BIT 1
  VE_DEC_VC1_STATUS_VLD_DATA_REQ := BIT 2
  VE_DEC_VC1_STATUS_SUCCESS := BIT 0
  VE_DEC_VC1_TRIGGER_TYPE_INIT_SWDEC := 7
  VE_DEC_VC1_TRIGGER_TYPE_DECODE := 8
  VE_DEC_VC1_PICHDRLEN_LENGTH := fun x => SHIFT_AND_MASK_BITS x 15 0
  VE_DEC_VC1_EPHS_PROFILE := fun x => SHIFT_AND_MASK_BITS x 1 0
  VE_DEC_VC1_EPHS_LOOPFILTER := BIT 2
  VE_DEC_VC1_EPHS_MULTIRES := BIT 3
  VE_DEC_VC1_EPHS_FASTUVMC := BIT 4
  VE_DEC_VC1_EPHS_EXTENDEDMV := BIT 5
  VE_DEC_VC1_EPHS_DQUANT := fun x => SHIFT_AND_MASK_BITS x 7 6
  VE_DEC_VC1_EPHS_VSTRANSFORM := BIT 8
  VE_DEC_VC1_EPHS_OVERLAP := BIT 9
  VE_DEC_VC1_EPHS_QUANTIZER := fun x => SHIFT_AND_MASK_BITS x 11 10
  VE_DEC_VC1_EPHS_RANGERED := BIT 12
  VE_DEC_VC1_EPHS_FINTERPFLAG := BIT 13
  VE_DEC_VC1_EPHS_SYNCMARKER := BIT 14
  VE_DEC_VC1_EPHS_STARTCODE_DET_EN := BIT 15
  VE_DEC_VC1_EPHS_EPTB_DET_BYPASS := BIT 16
  VE_DEC_VC1_PICCTRL_PTYPE := fun x => SHIFT_AND_MASK_BITS x 2 0
  VE_DEC_VC1_PICCTRL_FCM := fun x => SHIFT_AND_MASK_BITS x 4 3
  VE_DEC_VC1_PICCTRL_BOTTOM_FIELD := BIT 5
  VE_DEC_VC1_PICCTRL_SECOND_FIELD := BIT 6
  VE_DEC_VC1_PICCTRL_RANGEREDFRM := BIT 7
  VE_DEC_VC1_PICCTRL_FWD_RANGEREDFRM := BIT 8
  VE_DEC_VC1_PICCTRL_BWD_RANGEREDFRM := BIT 9
  VE_DEC_VC1_PICCTRL_TRANSACFRM := fun x => SHIFT_AND_MASK_BITS x 11 10
  VE_DEC_VC1_PICCTRL_TRANSACFRM2 := fun x => SHIFT_AND_MASK_BITS x 13 12
  VE_DEC_VC1_PICCTRL_TRANSDCTAB := BIT 14
  VE_DEC_VC1_PICCTRL_RNDCTRL := BIT 15
  VE_DEC_VC1_PICCTRL_CONDOVER := fun x => SHIFT_AND_MASK_BITS x 17 16
  VE_DEC_VC1_PICCTRL_OVERFLAGS_RAW := BIT 18
  VE_DEC_VC1_PICCTRL_CBPTAB := fun x => SHIFT_AND_MASK_BITS x 21 19
  VE_DEC_VC1_PICCTRL_SKIPMB_RAW := BIT 22
  VE_DEC_VC1_PICCTRL_TTMBF := BIT 23
  VE_DEC_VC1_PICCTRL_TTFRM := fun x => SHIFT_AND_MASK_BITS x 25 24
  VE_DEC_VC1_PICCTRL_DIRECTMB_RAW := BIT 26
  VE_DEC_VC1_PICCTRL_DIRECT_REF_INTRA := BIT 27
  VE_DEC_VC1_PICCTRL_BITPL_CODING := BIT 28
  VE_DEC_VC1_PICQP_PQINDEX := fun x => SHIFT_AND_MASK_BITS x 4 0
  VE_DEC_VC1_PICQP_HALFQP := BIT 5
  VE_DEC_VC1_PICQP_PQUANTIZER := BIT 6
  VE_DEC_VC1_PICQP_DQPPROFILE := fun x => SHIFT_AND_MASK_BITS x 8 7
  VE_DEC_VC1_PICQP_DQSBEDGE := fun x => SHIFT_AND_MASK_BITS x 10 9
  VE_DEC_VC1_PICQP_DQDBEDGE := fun x => SHIFT_AND_MASK_BITS x 12 11
  VE_DEC_VC1_PICQP_ALTPQUANT := fun x => SHIFT_AND_MASK_BITS x 17 13
  VE_DEC_VC1_PICQP_DQUANTFRM := BIT 18
  VE_DEC_VC1_PICQP_DQBILEVEL := BIT 19
  VE_DEC_VC1_PICMV_BFRACTION := fun x => SHIFT_AND_MASK_BITS x 7 0
  VE_DEC_VC1_PICMV_BFRAC_LESS_THAN_HALF := BIT 8
  VE_DEC_VC1_PICMV_MVRANGE := fun x => SHIFT_AND_MASK_BITS x 10 9
  VE_DEC_VC1_PICMV_MVMODE := fun x => SHIFT_AND_MASK_BITS x 12 11
  VE_DEC_VC1_PICMV_INTENSITY_COMP_EN := BIT 13
  VE_DEC_VC1_PICMV_MVTAB := fun x => SHIFT_AND_MASK_BITS x 16 14
  VE_DEC_VC1_PICINTENCOMP_LUMASCALE1 := fun x => SHIFT_AND_MASK_BITS x 5 0
  VE_DEC_VC1_PICINTENCOMP_LUMASHIFT1 := fun x => SHIFT_AND_MASK_BITS x 11 6
  VE_DEC_VC1_PICINTENCOMP_LUMASCALE2 := fun x => SHIFT_AND_MASK_BITS x 17 12
  VE_DEC_VC1_PICINTENCOMP_LUMASHIFT2 := fun x => SHIFT_AND_MASK_BITS x 23 18
  VE_DEC_VC1_PICINTERLACE_FIELDTX_RAW := BIT 0
  VE_DEC_VC1_PICINTERLACE_DMVRANGE := fun x => SHIFT_AND_MASK_BITS x 2 1
  VE_DEC_VC1_PICINTERLACE_4MVSWITCH := BIT 3
  VE_DEC_VC1_PICINTERLACE_MBMODETAB := fun x => SHIFT_AND_MASK_BITS x 6 4
  VE_DEC_VC1_PICINTERLACE_IMVTAB := fun x => SHIFT_AND_MASK_BITS x 9 7
  VE_DEC_VC1_PICINTERLACE_ICBPTAB := fun x => SHIFT_AND_MASK_BITS x 12 10
  VE_DEC_VC1_PICINTERLACE_INTENCOMP := BIT 13
  VE_DEC_VC1_PICINTERLACE_2MVBPTAB := fun x => SHIFT_AND_MASK_BITS x 15 14
  VE_DEC_VC1_PICINTERLACE_4MVBPTAB := fun x => SHIFT_AND_MASK_BITS x 17 16
  VE_DEC_VC1_PICINTERLACE_FRFD := fun x => SHIFT_AND_MASK_BITS x 19 18
  VE_DEC_VC1_PICINTERLACE_BRFD := fun x => SHIFT_AND_MASK_BITS x 21 20
  VE_DEC_VC1_PICINTERLACE_REFFIELD := BIT 22
  VE_DEC_VC1_PICINTERLACE_INTENCOMPFLD := fun x => SHIFT_AND_MASK_BITS x 24 23
  VE_DEC_VC1_PICINTERLACE_FORWARD_RAW := BIT 25
  VE_DEC_VC1_PICINTERLACE_FWD_INTERLACE := BIT 26
  VE_DEC_VC1_PICINTERLACE_BWD_INTERLACE := BIT 27
  VE_DEC_VC1_PICINTERLACE_NUMREF := BIT 28
  VE_DEC_VC1_FSIZE_WIDTH := fun x => SHIFT_AND_MASK_BITS x 27 16
  VE_DEC_VC1_FSIZE_HEIGHT := fun x => SHIFT_AND_MASK_BITS x 11 0
  VE_DEC_VC1_PICSIZE_WIDTH := fun x => SHIFT_AND_MASK_BITS x 27 16
  VE_DEC_VC1_PICSIZE_HEIGHT := fun x => SHIFT_AND_MASK_BITS x 11 0
  VE_DEC_VC1_CTRL_FINISH_IRQ_EN := BIT 0
  VE_DEC_VC1_CTRL_ERROR_IRQ_EN := BIT 1
  VE_DEC_VC1_CTRL_VLD_DATA_REQ_IRQ_EN := BIT 2
  VE_DEC_VC1_CTRL_MCRI_CACHE_EN := BIT 10
  VE_DEC_VC1_CTRL_IRQ_MASK := 0x7

/-! ## Register layouts

What the theorems assume of the macros of one register: every field macro
stays within a mask of its own, every flag constant is non-zero, the masks
and flags share no bit, pairwise, and they fit the 32 bits of a register.
Nothing is assumed about where the bits are. -/

/-- A register layout: the field macros, each with its mask, and the flag
constants; the masks and the flags are pairwise disjoint and below 2^32. -/
def RegLayout (fields : List ((Nat → Nat) × Nat)) (flags : List Nat) : Prop :=
  (∀ p ∈ fields, ∀ x, p.1 x &&& p.2 = p.1 x) ∧
  (∀ b ∈ flags, b ≠ 0) ∧
  (fields.map Prod.snd ++ flags).Pairwise (fun a b => a &&& b = 0) ∧
  (∀ m ∈ fields.map Prod.snd ++ flags, m < 4294967296)

/-- The masks of the field macros of `VE_DEC_VC1_PICCTRL`. -/
structure PICCTRL_masks where
  ptype : Nat
  fcm : Nat
  transacfrm : Nat
  transacfrm2 : Nat
  condover : Nat
  cbptab : Nat
  ttfrm : Nat

/-- The layout of `VE_DEC_VC1_PICCTRL`: its field macros with their masks and
its flag constants. -/
def PICCTRL_layout (R : CedrusRegs) (M : PICCTRL_masks) : Prop :=
  RegLayout
    [ (R.VE_DEC_VC1_PICCTRL_PTYPE, M.ptype),
      (R.VE_DEC_VC1_PICCTRL_FCM, M.fcm),
      (R.VE_DEC_VC1_PICCTRL_TRANSACFRM, M.transacfrm),
      (R.VE_DEC_VC1_PICCTRL_TRANSACFRM2, M.transacfrm2),
      (R.VE_DEC_VC1_PICCTRL_CONDOVER, M.condover),
      (R.VE_DEC_VC1_PICCTRL_CBPTAB, M.cbptab),
      (R.VE_DEC_VC1_PICCTRL_TTFRM, M.ttfrm) ]
    [ R.VE_DEC_VC1_PICCTRL_BOTTOM_FIELD,
      R.VE_DEC_VC1_PICCTRL_SECOND_FIELD,
      R.VE_DEC_VC1_PICCTRL_RANGEREDFRM,
      R.VE_DEC_VC1_PICCTRL_FWD_RANGEREDFRM,
      R.VE_DEC_VC1_PICCTRL_BWD_RANGEREDFRM,
      R.VE_DEC_VC1_PICCTRL_TRANSDCTAB,
      R.VE_DEC_VC1_PICCTRL_RNDCTRL,
      R.VE_DEC_VC1_PICCTRL_OVERFLAGS_RAW,
      R.VE_DEC_VC1_PICCTRL_SKIPMB_RAW,
      R.VE_DEC_VC1_PICCTRL_TTMBF,
      R.VE_DEC_VC1_PICCTRL_DIRECTMB_RAW,
      R.VE_DEC_VC1_PICCTRL_DIRECT_REF_INTRA,
      R.VE_DEC_VC1_PICCTRL_BITPL_CODING ]

/-- The masks of the example layout of `VE_DEC_VC1_PICCTRL`. -/
def example_PICCTRL_masks : PICCTRL_masks where
  ptype := GENMASK 2 0
  fcm := GENMASK 4 3
  transacfrm := GENMASK 11 10
  transacfrm2 := GENMASK 13 12
  condover := GENMASK 17 16
  cbptab := GENMASK 21 19
  ttfrm := GENMASK 25 24

/-- The masks of the field macros of `VE_DEC_VC1_PICMV`. -/
structure PICMV_masks where
  bfraction : Nat
  mvrange : Nat
  mvmode : Nat
  mvtab : Nat

/-- The layout of `VE_DEC_VC1_PICMV`: its field macros with their masks and
its flag constants. -/
def PICMV_layout (R : CedrusRegs) (M : PICMV_masks) : Prop :=
  RegLayout
    [ (R.VE_DEC_VC1_PICMV_BFRACTION, M.bfraction),
      (R.VE_DEC_VC1_PICMV_MVRANGE, M.mvrange),
      (R.VE_DEC_VC1_PICMV_MVMODE, M.mvmode),
      (R.VE_DEC_VC1_PICMV_MVTAB, M.mvtab) ]
    [ R.VE_DEC_VC1_PICMV_BFRAC_LESS_THAN_HALF,
      R.VE_DEC_VC1_PICMV_INTENSITY_COMP_EN ]

/-- The masks of the example layout of `VE_DEC_VC1_PICMV`. -/
def example_PICMV_masks : PICMV_masks where
  bfraction := GENMASK 7 0
  mvrange := GENMASK 10 9
  mvmode := GENMASK 12 11
  mvtab := GENMASK 16 14

/-- The masks of the field macros of `VE_DEC_VC1_PICINTERLACE`. -/
structure PICINTERLACE_masks where
  dmvrange : Nat
  mbmodetab : Nat
  imvtab : Nat
  icbptab : Nat
  twomvbptab : Nat
  fourmvbptab : Nat
  frfd : Nat
  brfd : Nat
  intencompfld : Nat

/-- The layout of `VE_DEC_VC1_PICINTERLACE`: its field macros with their masks and
its flag constants. -/
def PICINTERLACE_layout (R : CedrusRegs) (M : PICINTERLACE_masks) : Prop :=
  RegLayout
    [ (R.VE_DEC_VC1_PICINTERLACE_DMVRANGE, M.dmvrange),
      (R.VE_DEC_VC1_PICINTERLACE_MBMODETAB, M.mbmodetab),
      (R.VE_DEC_VC1_PICINTERLACE_IMVTAB, M.imvtab),
      (R.VE_DEC_VC1_PICINTERLACE_ICBPTAB, M.icbptab),
      (R.VE_DEC_VC1_PICINTERLACE_2MVBPTAB, M.twomvbptab),
      (R.VE_DEC_VC1_PICINTERLACE_4MVBPTAB, M.fourmvbptab),
      (R.VE_DEC_VC1_PICINTERLACE_FRFD, M.frfd),
      (R.VE_DEC_VC1_PICINTERLACE_BRFD, M.brfd),
      (R.VE_DEC_VC1_PICINTERLACE_INTENCOMPFLD, M.intencompfld) ]
    [ R.VE_DEC_VC1_PICINTERLACE_FIELDTX_RAW,
      R.VE_DEC_VC1_PICINTERLACE_4MVSWITCH,
      R.VE_DEC_VC1_PICINTERLACE_INTENCOMP,
      R.VE_DEC_VC1_PICINTERLACE_REFFIELD,
      R.VE_DEC_VC1_PICINTERLACE_FORWARD_RAW,
      R.VE_DEC_VC1_PICINTERLACE_FWD_INTERLACE,
      R.VE_DEC_VC1_PICINTERLACE_BWD_INTERLACE,
      R.VE_DEC_VC1_PICINTERLACE_NUMREF ]

/-- The masks of the example layout of `VE_DEC_VC1_PICINTERLACE`. -/
def example_PICINTERLACE_masks : PICINTERLACE_masks where
  dmvrange := GENMASK 2 1
  mbmodetab := GENMASK 6 4
  imvtab := GENMASK 9 7
  icbptab := GENMASK 12 10
  twomvbptab := GENMASK 15 14
  fourmvbptab := GENMASK 17 16
  frfd := GENMASK 19 18
  brfd := GENMASK 21 20
  intencompfld := GENMASK 24 23


/-! ## The specification's formulas -/

/-- The unclamped forward reference distance as the specification gives it:
`(fraction * refdist) >> 8` for a B picture and `refdist` otherwise, in exact
arithmetic. -/
def spec_forward_distance (picture : v4l2_vc1_picture_layer) : Nat :=
  if picture.ptype = VC1_PICTURE_TYPE_B then
    (cedrus_vc1_get_fraction picture.bfraction * picture.refdist) >>> 8
  else
    picture.refdist

/-- The unclamped backward reference distance as the specification gives it:
`refdist - forward_distance - 1`, an integer. -/
def spec_backward_distance (picture : v4l2_vc1_picture_layer) : Int :=
  (picture.refdist : Int) - (spec_forward_distance picture : Int) - 1

/-- Clamping of an integer to the closed range from `lo` to `hi`. -/
def clamp (x lo hi : Int) : Int := if x < lo then lo else if x > hi then hi else x

/-- The effective motion-vector mode as the specification gives it: the
secondary mode for a P picture whose raw mode signals intensity compensation,
the primary mode otherwise. -/
def spec_effective_mvmode (picture : v4l2_vc1_picture_layer) : Nat :=
  if picture.ptype = VC1_PICTURE_TYPE_P ∧ picture.mvmode = VC1_MVMODE_INTENSITY_COMP then
    picture.mvmode2
  else
    picture.mvmode

/-! ## Example inputs -/

/-- A picture layer with the given picture type, frame-coding mode, flags,
B-fraction code, reference distance and motion-vector modes; every other
member is 0. -/
def example_picture (ptype fcm flags bfraction refdist mvmode mvmode2 : Nat) :
    v4l2_vc1_picture_layer where
  ptype := ptype
  fcm := fcm
  flags := flags
  transacfrm := 0
  transacfrm2 := 0
  condover := 0
  cbptab := 0
  ttfrm := 0
  pqindex := 0
  bfraction := bfraction
  mvrange := 0
  mvmode := mvmode
  mvmode2 := mvmode2
  mvtab := 0
  lumscale := 0
  lumshift := 0
  lumscale2 := 0
  lumshift2 := 0
  refdist := refdist
  dmvrange := 0
  mbmodetab := 0
  imvtab := 0
  icbptab := 0
  twomvbptab := 0
  fourmvbptab := 0
  intcompfield := 0

/-- A run for the given picture layer, reference timestamps and destination
buffer: main profile, a 720x576 entry point, no bitplanes. -/
def example_run (picture : v4l2_vc1_picture_layer) (forward_ref_ts backward_ref_ts dst : Nat) :
    cedrus_run where
  slice_params :=
    { sequence := { profile := VC1_PROFILE_MAIN, flags := 0 },
      entrypoint_header :=
        { flags := 0, dquant := 0, quantizer := 0, coded_width := 720, coded_height := 576 },
      picture_layer := picture,
      vopdquant := { dqprofile := 0, dqsbedge := 0, dqdbedge := 0, altpquant := 0, flags := 0 },
      metadata := { flags := 0 },
      raw_coding_flags := 0,
      data_bit_offset := 0,
      forward_ref_ts := forward_ref_ts,
      backward_ref_ts := backward_ref_ts }
  bitplanes := none
  src_dma_addr := 0x48000000
  src_payload := 4096
  dst := dst

/-- A decoding context: scratch buffers at fixed addresses, a 720x576 source
format, a zeroed bitplane buffer. -/
def example_ctx : cedrus_ctx where
  mv_buf_addr := 0x4a000000
  acdc_buf_addr := 0x4a010000
  bitplanes_buf_addr := 0x4a014000
  src_fmt_width := 720
  src_fmt_height := 576
  bitplanes_buf := fun _ => 0

/-- A capture queue of four buffers whose timestamps are 1 to 4: timestamp
`t` finds buffer `t - 1`, any other timestamp finds nothing. -/
def example_extern : Extern where
  vb2_find_buffer := fun ts => if 1 ≤ ts ∧ ts ≤ 4 then some (ts - 1) else none
  cedrus_dst_buf_addr := fun buf plane =>
    match buf with
    | some b => 0x50000000 + 0x100000 * b + 0x80000 * plane
    | none => 0

/-- A buffer store: buffer 0 holds an interlaced P frame with intensity
compensation, every other buffer a progressive I frame without. -/
def example_bufs : Nat → cedrus_vc1_buffer :=
  fun b =>
    if b = 0 then { rangeredfrm := false, interlaced := true, ptype := 1, compen := true }
    else { rangeredfrm := false, interlaced := false, ptype := 0, compen := false }

/-- The scaled fraction values as the documentation lists them, for the
codes 0 to 21. -/
def documented_fractions : List Nat :=
  [128, 85, 170, 64, 192, 51, 102, 153, 204, 42, 213, 36, 73, 109, 146, 182,
   219, 32, 96, 160, 224, 0xff]

/-- The fractions (numerator, denominator) the first 21 codes stand for. -/
def documented_ratios : List (Nat × Nat) :=
  [(1, 2), (1, 3), (2, 3), (1, 4), (3, 4), (1, 5), (2, 5), (3, 5), (4, 5),
   (1, 6), (5, 6), (1, 7), (2, 7), (3, 7), (4, 7), (5, 7), (6, 7), (1, 8),
   (3, 8), (5, 8), (7, 8)]

/-- The inverse of the motion-vector mode remap named by the specification,
written as a table. -/
def remap_inverse : List Nat := [1, 3, 2, 0]

/-! ## The effects of `cedrus_vc1_setup` in source order -/

/-- One effect of `cedrus_vc1_setup`: a store to a member of `codec.vc1` of a
buffer, a hardware operation, or the call of `cedrus_vc1_bitplanes_setup`. -/
inductive setup_event where
  | store_rangeredfrm (buf : Nat) (v : Bool)
  | store_interlaced (buf : Nat) (v : Bool)
  | store_ptype (buf : Nat) (v : Nat)
  | store_compen (buf : Nat) (v : Bool)
  | hw (op : hw_op)
  | bitplanes_setup
deriving DecidableEq, Repr

/-- The hardware operation of an effect, if it is one. -/
def setup_event.hw_part : setup_event → Option hw_op
  | setup_event.hw op => some op
  | _ => none

/-- Whether an effect is a store to a buffer attribute. -/
def setup_event.is_store : setup_event → Bool
  | setup_event.store_rangeredfrm _ _ => true
  | setup_event.store_interlaced _ _ => true
  | setup_event.store_ptype _ _ => true
  | setup_event.store_compen _ _ => true
  | _ => false

/-- The buffer store after one effect. -/
def setup_event.apply (bufs : Nat → cedrus_vc1_buffer) : setup_event → (Nat → cedrus_vc1_buffer)
  | setup_event.store_rangeredfrm b v => set_buf bufs b { bufs b with rangeredfrm := v }
  | setup_event.store_interlaced b v => set_buf bufs b { bufs b with interlaced := v }
  | setup_event.store_ptype b v => set_buf bufs b { bufs b with ptype := v }
  | setup_event.store_compen b v => set_buf bufs b { bufs b with compen := v }
  | _ => bufs

/-- The buffer store after a list of effects. -/
def replay_stores (bufs : Nat → cedrus_vc1_buffer) (events : List setup_event) :
    Nat → cedrus_vc1_buffer :=
  events.foldl setup_event.apply bufs

/-- The effects of `cedrus_vc1_setup`, statement by statement, in source
order: the three attribute stores of lines 220-223, `cedrus_engine_enable`
(line 225), the register writes of lines 229-343, the store of the
compensation flag (lines 361-364), the register writes of lines 368-452, the
bitplane staging (lines 456-457) and the write of the control register
(line 459). -/
def cedrus_vc1_setup_events (R : CedrusRegs) (V : V4L2Flags) (E : Extern) (ctx : cedrus_ctx)
    (run : cedrus_run) (bufs : Nat → cedrus_vc1_buffer) : List setup_event :=
  let slice := run.slice_params
  let bitplanes := run.bitplanes
  let picture := slice.picture_layer
  let forward_vb2 := E.vb2_find_buffer slice.forward_ref_ts
  let fwd_buf := forward_vb2
  let backward_vb2 := E.vb2_find_buffer slice.backward_ref_ts
  let bwd_buf := backward_vb2
  let out_buf := run.dst
  let bufs₁ := setup_record_attrs V picture bufs out_buf
  let bufs₂ := setup_record_compen R V picture bufs₁ fwd_buf out_buf
  let src_buf_addr := run.src_dma_addr
  let dst_luma_addr := E.cedrus_dst_buf_addr (some run.dst) 0
  let dst_chroma_addr := E.cedrus_dst_buf_addr (some run.dst) 1
  [ setup_event.store_rangeredfrm out_buf
      (flag_set picture.flags V.V4L2_VC1_PICTURE_LAYER_FLAG_RANGEREDFRM),
    setup_event.store_interlaced out_buf (!setup_progressive picture),
    setup_event.store_ptype out_buf picture.ptype,
    setup_event.hw hw_op.engine_enable,
    setup_event.hw (cedrus_write R.VE_DEC_VC1_DCACPRED_ADDR ctx.acdc_buf_addr),
    setup_event.hw (cedrus_write R.VE_DEC_VC1_BITPLANE_ADDR ctx.bitplanes_buf_addr),
    setup_event.hw (cedrus_write R.VE_DEC_VC1_MVINFO_ADDR ctx.mv_buf_addr),
    setup_event.hw
      (cedrus_write R.VE_DEC_VC1_BITS_ADDR (R.VE_DEC_VC1_BITS_ADDR_BASE src_buf_addr)),
    setup_event.hw
      (cedrus_write R.VE_DEC_VC1_BITS_END_ADDR (src_buf_addr + run.src_payload)),
    setup_event.hw (cedrus_write R.VE_DEC_VC1_BITS_OFFSET slice.data_bit_offset),
    setup_event.hw (cedrus_write R.VE_DEC_VC1_BITS_LEN (run.src_payload * 8)),
    setup_event.hw
      (cedrus_write R.VE_DEC_VC1_BITS_ADDR
        (R.VE_DEC_VC1_BITS_ADDR_BASE src_buf_addr |||
         R.VE_DEC_VC1_BITS_ADDR_VALID_SLICE_DATA |||
         R.VE_DEC_VC1_BITS_ADDR_LAST_SLICE_DATA |||
         R.VE_DEC_VC1_BITS_ADDR_FIRST_SLICE_DATA)),
    setup_event.hw (cedrus_write R.VE_DEC_VC1_STATUS R.VE_DEC_VC1_STATUS_INT_MASK),
    setup_event.hw
      (cedrus_write R.VE_DEC_VC1_TRIGGER_TYPE R.VE_DEC_VC1_TRIGGER_TYPE_INIT_SWDEC),
    setup_event.hw (cedrus_write R.VE_DEC_VC1_ROT_CTRL 0),
    setup_event.hw (cedrus_write R.VE_DEC_VC1_PICHDRLEN (R.VE_DEC_VC1_PICHDRLEN_LENGTH 0)),
    setup_event.hw (cedrus_write R.VE_DEC_VC1_EPHS (setup_ephs R V slice)),
    setup_event.hw
      (cedrus_write R.VE_DEC_VC1_PICCTRL
        (setup_picctrl R V slice bitplanes bufs₁ fwd_buf bwd_buf)),
    setup_event.hw (cedrus_write R.VE_DEC_VC1_PICQP (setup_picqp R V slice)) ] ++
  (if picture.ptype == VC1_PICTURE_TYPE_P then
    [ setup_event.store_compen out_buf
        (flag_set (setup_picmv_head R V picture bufs₁ fwd_buf % 4294967296)
          R.VE_DEC_VC1_PICMV_INTENSITY_COMP_EN) ]
  else if picture.ptype == VC1_PICTURE_TYPE_I then
    [ setup_event.store_compen out_buf false ]
  else
    []) ++
  [ setup_event.hw (cedrus_write R.VE_DEC_VC1_PICMV (setup_picmv R V picture bufs₁ fwd_buf)),
    setup_event.hw (cedrus_write R.VE_DEC_VC1_PICINTENCOMP (setup_picintencomp R picture)),
    setup_event.hw
      (cedrus_write R.VE_DEC_VC1_PICINTERLACE
        (setup_picinterlace R V slice bufs₂ fwd_buf bwd_buf)),
    setup_event.hw
      (cedrus_write R.VE_DEC_VC1_FSIZE
        (R.VE_DEC_VC1_FSIZE_WIDTH ctx.src_fmt_width |||
         R.VE_DEC_VC1_FSIZE_HEIGHT ctx.src_fmt_height)),
    setup_event.hw
      (cedrus_write R.VE_DEC_VC1_PICSIZE
        (R.VE_DEC_VC1_PICSIZE_WIDTH ctx.src_fmt_width |||
         R.VE_DEC_VC1_PICSIZE_HEIGHT ctx.src_fmt_height)),
    setup_event.hw (cedrus_write R.VE_DEC_VC1_REC_LUMA dst_luma_addr),
    setup_event.hw (cedrus_write R.VE_DEC_VC1_REC_CHROMA dst_chroma_addr),
    setup_event.hw (cedrus_write R.VE_DEC_VC1_ROT_LUMA_ADDR dst_luma_addr),
    setup_event.hw (cedrus_write R.VE_DEC_VC1_ROT_CHROMA_ADDR dst_chroma_addr),
    setup_event.hw
      (cedrus_write R.VE_DEC_VC1_FWD_REF_LUMA_ADDR (E.cedrus_dst_buf_addr forward_vb2 0)),
    setup_event.hw
      (cedrus_write R.VE_DEC_VC1_FWD_REF_CHROMA_ADDR (E.cedrus_dst_buf_addr forward_vb2 1)),
    setup_event.hw
      (cedrus_write R.VE_DEC_VC1_BWD_REF_LUMA_ADDR (E.cedrus_dst_buf_addr backward_vb2 0)),
    setup_event.hw
      (cedrus_write R.VE_DEC_VC1_BWD_REF_CHROMA_ADDR
        (E.cedrus_dst_buf_addr backward_vb2 1)) ] ++
  (if bitplanes_in_use bitplanes then [setup_event.bitplanes_setup] else []) ++
  [ setup_event.hw
      (cedrus_write R.VE_DEC_VC1_CTRL
        (R.VE_DEC_VC1_CTRL_FINISH_IRQ_EN |||
         R.VE_DEC_VC1_CTRL_ERROR_IRQ_EN |||
         R.VE_DEC_VC1_CTRL_VLD_DATA_REQ_IRQ_EN |||
         R.VE_DEC_VC1_CTRL_MCRI_CACHE_EN)) ]

/-- The register a hardware operation writes, if it is a write. -/
def hw_op.target : hw_op → Option Nat
  | hw_op.engine_enable => none
  | hw_op.write reg _ => some reg

/-! ## The interrupt operations -/

/-- The enumeration `enum cedrus_irq_status` of `cedrus.h`. -/
inductive cedrus_irq_status where
  | CEDRUS_IRQ_NONE
  | CEDRUS_IRQ_ERROR
  | CEDRUS_IRQ_OK
deriving DecidableEq, Repr

/-- The call `cedrus_read(dev, reg)`: the `u32` the register file `regs`
holds at `reg`. -/
def cedrus_read (regs : Nat → Nat) (reg : Nat) : Nat := regs reg % 4294967296

/-- The C operator `~` on a `u32`. -/
def u32_not (x : Nat) : Nat := 4294967295 ^^^ (x % 4294967296)

/-- The function `cedrus_vc1_irq_status`. -/
def cedrus_vc1_irq_status (R : CedrusRegs) (regs : Nat → Nat) : cedrus_irq_status :=
  let reg := cedrus_read regs R.VE_DEC_VC1_STATUS
  if flag_set reg (R.VE_DEC_VC1_STATUS_ERROR ||| R.VE_DEC_VC1_STATUS_VLD_DATA_REQ) then
    cedrus_irq_status.CEDRUS_IRQ_ERROR
  else if flag_set reg R.VE_DEC_VC1_STATUS_SUCCESS then
    cedrus_irq_status.CEDRUS_IRQ_OK
  else
    cedrus_irq_status.CEDRUS_IRQ_NONE

/-- The function `cedrus_vc1_irq_clear`: the hardware operations it performs.
It reads no register. -/
def cedrus_vc1_irq_clear (R : CedrusRegs) : List hw_op :=
  [cedrus_write R.VE_DEC_VC1_STATUS R.VE_DEC_VC1_STATUS_INT_MASK]

/-- The function `cedrus_vc1_irq_disable`: the hardware operations it performs,
given the register file it reads from. -/
def cedrus_vc1_irq_disable (R : CedrusRegs) (regs : Nat → Nat) : List hw_op :=
  let reg := cedrus_read regs R.VE_DEC_VC1_CTRL
  [cedrus_write R.VE_DEC_VC1_CTRL (reg &&& u32_not R.VE_DEC_VC1_CTRL_IRQ_MASK)]

/-- The register file after a list of hardware operations, for registers that
hold what was last written to them. -/
def hw_apply (regs : Nat → Nat) : List hw_op → (Nat → Nat)
  | [] => regs
  | hw_op.engine_enable :: rest => hw_apply regs rest
  | hw_op.write r v :: rest => hw_apply (fun x => if x = r then v else regs x) rest

/-! ## `cedrus_vc1_start` and `cedrus_vc1_stop` -/

/-- The kernel constant `SZ_1K`. -/
def SZ_1K : Nat := 1024

def MV_BUF_SIZE : Nat := 64 * SZ_1K
def ACDC_BUF_SIZE : Nat := 16 * SZ_1K
def BITPLANES_BUF_SIZE : Nat := 16 * SZ_1K

/-- The kernel error number `ENOMEM`. -/
def ENOMEM : Int := 12

/-- What an allocation hands back on success: the CPU pointer and the DMA
address. -/
structure dma_region where
  cpu_addr : Nat
  dma_handle : Nat
deriving DecidableEq, Repr

/-- The calls to the DMA allocator: `dma_alloc_coherent(dev, size, &handle,
GFP_KERNEL)` with its outcome (`none` is the `NULL` return), and
`dma_free_coherent(dev, size, cpu_addr, dma_handle)`. -/
inductive dma_op where
  | alloc (size : Nat) (result : Option dma_region)
  | free (size : Nat) (cpu_addr : Option Nat) (dma_handle : Nat)
deriving DecidableEq, Repr

/-- The pointer and address members of `ctx->codec.vc1` that `cedrus_vc1_start`
fills and `cedrus_vc1_stop` reads; `none` is the `NULL` pointer. -/
structure cedrus_vc1_scratch where
  mv_buf : Option Nat
  mv_buf_addr : Nat
  acdc_buf : Option Nat
  acdc_buf_addr : Nat
  bitplanes_buf : Option Nat
  bitplanes_buf_addr : Nat
deriving DecidableEq, Repr

/-- The CPU pointer an allocation returns. -/
def alloc_ptr (r : Option dma_region) : Option Nat := r.map dma_region.cpu_addr

/-- The DMA address after an allocation: the one handed back, or the old
content of the variable when the allocation failed. -/
def alloc_handle (r : Option dma_region) (old : Nat) : Nat :=
  match r with
  | some x => x.dma_handle
  | none => old

/-- What `cedrus_vc1_start` leaves behind: its return value, the scratch
members of the context and the allocator calls in order. -/
structure start_result where
  ret : Int
  scratch : cedrus_vc1_scratch
  calls : List dma_op
deriving DecidableEq, Repr

/-- The function `cedrus_vc1_start`.  `r1`, `r2`, `r3` are the outcomes the
allocator gives to the first, second and third allocation, should the
function get that far. -/
def cedrus_vc1_start (r1 r2 r3 : Option dma_region) (c : cedrus_vc1_scratch) : start_result :=
  let c := { c with mv_buf := alloc_ptr r1, mv_buf_addr := alloc_handle r1 c.mv_buf_addr }
  let calls := [dma_op.alloc MV_BUF_SIZE r1]
  if c.mv_buf.isNone then
    { ret := -ENOMEM, scratch := c, calls := calls }
  else
    let c := { c with acdc_buf := alloc_ptr r2,
                      acdc_buf_addr := alloc_handle r2 c.acdc_buf_addr }
    let calls := calls ++ [dma_op.alloc ACDC_BUF_SIZE r2]
    if c.acdc_buf.isNone then
      -- `goto err_mv_buf`
      { ret := -ENOMEM, scratch := c,
        calls := calls ++ [dma_op.free MV_BUF_SIZE c.mv_buf c.mv_buf_addr] }
    else
      let c := { c with bitplanes_buf := alloc_ptr r3,
                        bitplanes_buf_addr := alloc_handle r3 c.bitplanes_buf_addr }
      let calls := calls ++ [dma_op.alloc BITPLANES_BUF_SIZE r3]
      if c.bitplanes_buf.isNone then
        -- `goto err_acdc_buf`, falling through to `err_mv_buf`
        { ret := -ENOMEM, scratch := c,
          calls := calls ++
            [dma_op.free ACDC_BUF_SIZE c.acdc_buf c.acdc_buf_addr,
             dma_op.free MV_BUF_SIZE c.mv_buf c.mv_buf_addr] }
      else
        { ret := 0, scratch := c, calls := calls }

/-- The function `cedrus_vc1_stop`: the allocator calls it makes. -/
def cedrus_vc1_stop (c : cedrus_vc1_scratch) : List dma_op :=
  [ dma_op.free MV_BUF_SIZE c.mv_buf c.mv_buf_addr,
    dma_op.free ACDC_BUF_SIZE c.acdc_buf c.acdc_buf_addr,
    dma_op.free BITPLANES_BUF_SIZE c.bitplanes_buf c.bitplanes_buf_addr ]

/-- Whether an allocator call is an allocation. -/
def dma_op.is_alloc : dma_op → Bool
  | dma_op.alloc _ _ => true
  | dma_op.free _ _ _ => false

/-- Whether an allocator call is a release. -/
def dma_op.is_free : dma_op → Bool
  | dma_op.alloc _ _ => false
  | dma_op.free _ _ _ => true

/-- A scratch state with nothing allocated. -/
def example_scratch : cedrus_vc1_scratch where
  mv_buf := none
  mv_buf_addr := 0
  acdc_buf := none
  acdc_buf_addr := 0
  bitplanes_buf := none
  bitplanes_buf_addr := 0

/-! ## `cedrus_vc1_trigger` -/

/-- One effect of `cedrus_vc1_trigger`: the `printk` of a register offset with
the value read there, the closing `printk`, or a hardware operation. -/
inductive trigger_event where
  | print_reg (reg val : Nat)
  | print_eof
  | hw (op : hw_op)
deriving DecidableEq, Repr

/-- The hardware operation of an effect of the trigger, if it is one. -/
def trigger_event.hw_part : trigger_event → Option hw_op
  | trigger_event.hw op => some op
  | _ => none

/-- The loop `for (i = 0x300; i <= 0x324; i+=4) printk(.., i, cedrus_read(dev, i))`
from the value `i` on; `none` when the fuel runs out before the loop ends. -/
def trigger_dump (regs : Nat → Nat) : Nat → Nat → Option (List trigger_event)
  | 0, _ => none
  | fuel + 1, i =>
    if i ≤ 0x324 then
      (trigger_dump regs fuel (i + 4)).map
        (fun rest => trigger_event.print_reg i (cedrus_read regs i) :: rest)
    else
      some []

/-- The function `cedrus_vc1_trigger`: its effects in order, given the
register file it reads from; `none` when the fuel does not cover the loop. -/
def cedrus_vc1_trigger (R : CedrusRegs) (regs : Nat → Nat) (fuel : Nat) :
    Option (List trigger_event) :=
  (trigger_dump regs fuel 0x300).map (fun dump =>
    dump ++
      [ trigger_event.print_eof,
        trigger_event.hw
          (cedrus_write R.VE_DEC_VC1_TRIGGER_TYPE R.VE_DEC_VC1_TRIGGER_TYPE_DECODE) ])

/-! ## The run of one frame -/

/-- The members of `cedrus_dec_ops_vc1`. -/
inductive dec_op where
  | irq_clear
  | irq_disable
  | irq_status
  | setup
  | start
  | stop
  | trigger
deriving DecidableEq, Repr

/-- The function each member of `cedrus_dec_ops_vc1` points to, as the
hardware operations the call performs (for `setup` on the given input, for
`trigger` with the given fuel); `start` and `stop` touch no register and
`irq_status` only reads. -/
def cedrus_dec_ops_vc1 (R : CedrusRegs) (V : V4L2Flags) (E : Extern) (ctx : cedrus_ctx)
    (run : cedrus_run) (bufs : Nat → cedrus_vc1_buffer) (regs : Nat → Nat) (fuel : Nat) :
    dec_op → List hw_op
  | dec_op.irq_clear => cedrus_vc1_irq_clear R
  | dec_op.irq_disable => cedrus_vc1_irq_disable R regs
  | dec_op.irq_status => []
  | dec_op.setup => (cedrus_vc1_setup R V E ctx run bufs).ops
  | dec_op.start => []
  | dec_op.stop => []
  | dec_op.trigger =>
    match cedrus_vc1_trigger R regs fuel with
    | some events => events.filterMap trigger_event.hw_part
    | none => []

/-- The states of the hardware run state machine of the specification. -/
inductive run_state where
  | Idle
  | Armed
  | Triggered
  | Completed
  | Faulted
deriving DecidableEq, Repr

/-- What drives the run state machine: arming a frame, triggering it, an
interrupt (or poll) with the classification of the status it observes, the
watchdog, and the end of the run. -/
inductive run_input where
  | arm
  | trigger
  | interrupt (status : cedrus_irq_status)
  | watchdog
  | finish
deriving DecidableEq, Repr

/-- Modelled from the spec: the hardware run state machine, which lives in the
core of the driver (interrupt handler, watchdog and job scheduling) and is
not among the sources.  `Idle → Armed` runs the frame setup; `Armed →
Triggered` is the trigger; `Triggered → Completed` on an interrupt that
observes success and `Triggered → Faulted` on one that observes an error or a
data request, or on the watchdog; when a run ends, whatever its outcome, the
status interrupts are cleared and the interrupt enables are masked, and the
machine is `Idle` again.  An interrupt that observes none of the status bits
leaves the machine `Triggered`.  The result is the next state with the calls
of `cedrus_dec_ops_vc1` made on the way; `none` when the input has no
transition from the state. -/
def run_step : run_state → run_input → Option (run_state × List dec_op)
  | run_state.Idle, run_input.arm => some (run_state.Armed, [dec_op.setup])
  | run_state.Armed, run_input.trigger => some (run_state.Triggered, [dec_op.trigger])
  | run_state.Triggered, run_input.interrupt cedrus_irq_status.CEDRUS_IRQ_OK =>
    some (run_state.Completed, [dec_op.irq_status])
  | run_state.Triggered, run_input.interrupt cedrus_irq_status.CEDRUS_IRQ_ERROR =>
    some (run_state.Faulted, [dec_op.irq_status])
  | run_state.Triggered, run_input.interrupt cedrus_irq_status.CEDRUS_IRQ_NONE =>
    some (run_state.Triggered, [dec_op.irq_status])
  | run_state.Triggered, run_input.watchdog => some (run_state.Faulted, [])
  | run_state.Completed, run_input.finish =>
    some (run_state.Idle, [dec_op.irq_clear, dec_op.irq_disable])
  | run_state.Faulted, run_input.finish =>
    some (run_state.Idle, [dec_op.irq_clear, dec_op.irq_disable])
  | _, _ => none

/-- Modelled from the spec: the run state machine over a list of inputs, from
a state on: the states entered, in order, and the calls made; `none` when
some input has no transition. -/
def run_trace : run_state → List run_input → Option (List run_state × List dec_op)
  | _, [] => some ([], [])
  | s, i :: rest =>
    match run_step s i with
    | none => none
    | some (s', calls) =>
      match run_trace s' rest with
      | none => none
      | some (states, calls') => some (s' :: states, calls ++ calls')

/-- Modelled from the spec: the hardware operations of a run, that is of the
calls of the members of `cedrus_dec_ops_vc1` that the run state machine
makes, in order; `regs k` is the register file that call number `k` reads
from. -/
def run_hw_ops (R : CedrusRegs) (V : V4L2Flags) (E : Extern) (ctx : cedrus_ctx)
    (run : cedrus_run) (bufs : Nat → cedrus_vc1_buffer) (regs : Nat → Nat → Nat)
    (fuel : Nat) : Nat → List dec_op → List hw_op
  | _, [] => []
  | k, c :: rest =>
    cedrus_dec_ops_vc1 R V E ctx run bufs (regs k) fuel c ++
      run_hw_ops R V E ctx run bufs regs fuel (k + 1) rest

/-- The registers of the VC-1 block that the driver writes, each once, in the
order of their first write by `cedrus_vc1_setup`. -/
def register_offsets (R : CedrusRegs) : List Nat :=
  [ R.VE_DEC_VC1_DCACPRED_ADDR,
    R.VE_DEC_VC1_BITPLANE_ADDR,
    R.VE_DEC_VC1_MVINFO_ADDR,
    R.VE_DEC_VC1_BITS_ADDR,
    R.VE_DEC_VC1_BITS_END_ADDR,
    R.VE_DEC_VC1_BITS_OFFSET,
    R.VE_DEC_VC1_BITS_LEN,
    R.VE_DEC_VC1_STATUS,
    R.VE_DEC_VC1_TRIGGER_TYPE,
    R.VE_DEC_VC1_ROT_CTRL,
    R.VE_DEC_VC1_PICHDRLEN,
    R.VE_DEC_VC1_EPHS,
    R.VE_DEC_VC1_PICCTRL,
    R.VE_DEC_VC1_PICQP,
    R.VE_DEC_VC1_PICMV,
    R.VE_DEC_VC1_PICINTENCOMP,
    R.VE_DEC_VC1_PICINTERLACE,
    R.VE_DEC_VC1_FSIZE,
    R.VE_DEC_VC1_PICSIZE,
    R.VE_DEC_VC1_REC_LUMA,
    R.VE_DEC_VC1_REC_CHROMA,
    R.VE_DEC_VC1_ROT_LUMA_ADDR,
    R.VE_DEC_VC1_ROT_CHROMA_ADDR,
    R.VE_DEC_VC1_FWD_REF_LUMA_ADDR,
    R.VE_DEC_VC1_FWD_REF_CHROMA_ADDR,
    R.VE_DEC_VC1_BWD_REF_LUMA_ADDR,
    R.VE_DEC_VC1_BWD_REF_CHROMA_ADDR,
    R.VE_DEC_VC1_CTRL ]

end Cedrus

/-! # The colour space conversion of the display engine (`drivers/gpu/drm/sun4i/sun8i_csc.c`) -/

namespace Sun8iCsc

/-! ## Enumerations

The values of `enum drm_color_encoding`, `enum drm_color_range`, `enum
hdmi_eotf` and of the media bus formats come from kernel headers that are not
among the sources; the tables below are indexed with them. -/

def DRM_COLOR_YCBCR_BT601 : Nat := 0
def DRM_COLOR_YCBCR_BT709 : Nat := 1
def DRM_COLOR_YCBCR_BT2020 : Nat := 2

def DRM_COLOR_YCBCR_LIMITED_RANGE : Nat := 0
def DRM_COLOR_YCBCR_FULL_RANGE : Nat := 1

def HDMI_EOTF_TRADITIONAL_GAMMA_SDR : Nat := 0
def HDMI_EOTF_SMPTE_ST2084 : Nat := 2

def MEDIA_BUS_FMT_RGB888_1X24 : Nat := 0x100a
def MEDIA_BUS_FMT_RGB101010_1X30 : Nat := 0x1018

/-- The enumeration `enum format_type`; `FORMAT_TYPE_OTHER` stands for every
value that reaches the `default` label of a `switch`. -/
inductive format_type where
  | FORMAT_TYPE_RGB
  | FORMAT_TYPE_YUV
  | FORMAT_TYPE_YVU
  | FORMAT_TYPE_OTHER
deriving DecidableEq, Repr

/-- The enumeration `enum conversion_type` of `sun50i_cdc.h`. -/
inductive conversion_type where
  | SDR_TO_WCG_RGB
  | SDR_TO_HDR_RGB
  | WCG_TO_SDR_YUV
  | HDR_TO_SDR_YUV
deriving DecidableEq, Repr

/-! ## The coefficient tables -/

/-- The table `yuv2rgb[2][2][12]`: range, then encoding, then coefficient. -/
def yuv2rgb : List (List (List Nat)) :=
  [ [ [ 0x000004A8, 0x00000000, 0x00000662, 0xFFFC8451,
        0x000004A8, 0xFFFFFE6F, 0xFFFFFCC0, 0x00021E4D,
        0x000004A8, 0x00000811, 0x00000000, 0xFFFBACA9 ],
      [ 0x000004A8, 0x00000000, 0x0000072B, 0xFFFC1F99,
        0x000004A8, 0xFFFFFF26, 0xFFFFFDDF, 0x00013383,
        0x000004A8, 0x00000873, 0x00000000, 0xFFFB7BEF ] ],
    [ [ 0x00000400, 0x00000000, 0x0000059B, 0xFFFD322E,
        0x00000400, 0xFFFFFEA0, 0xFFFFFD25, 0x00021DD5,
        0x00000400, 0x00000716, 0x00000000, 0xFFFC74BD ],
      [ 0x00000400, 0x00000000, 0x0000064C, 0xFFFCD9B4,
        0x00000400, 0xFFFFFF41, 0xFFFFFE21, 0x00014F96,
        0x00000400, 0x0000076C, 0x00000000, 0xFFFC49EF ] ] ]

/-- The table `yuv2rgb_de3[2][3][12]`: range, then encoding, then coefficient. -/
def yuv2rgb_de3 : List (List (List Nat)) :=
  [ [ [ 0x0002542A, 0x00000000, 0x0003312A, 0xFFC00000,
        0x0002542A, 0xFFFF376B, 0xFFFE5FC3, 0xFE000000,
        0x0002542A, 0x000408D2, 0x00000000, 0xFE000000 ],
      [ 0x0002542A, 0x00000000, 0x000395E2, 0xFFC00000,
        0x0002542A, 0xFFFF92D2, 0xFFFEEF27, 0xFE000000,
        0x0002542A, 0x0004398C, 0x00000000, 0xFE000000 ],
      [ 0x0002542A, 0x00000000, 0x00035B7B, 0xFFC00000,
        0x0002542A, 0xFFFFA017, 0xFFFEB2FC, 0xFE000000,
        0x0002542A, 0x00044896, 0x00000000, 0xFE000000 ] ],
    [ [ 0x00020000, 0x00000000, 0x0002CDD2, 0x00000000,
        0x00020000, 0xFFFF4FCE, 0xFFFE925D, 0xFE000000,
        0x00020000, 0x00038B43, 0x00000000, 0xFE000000 ],
      [ 0x00020000, 0x00000000, 0x0003264C, 0x00000000,
        0x00020000, 0xFFFFA018, 0xFFFF1053, 0xFE000000,
        0x00020000, 0x0003B611, 0x00000000, 0xFE000000 ],
      [ 0x00020000, 0x00000000, 0x0002F2FE, 0x00000000,
        0x00020000, 0xFFFFABC0, 0xFFFEDB78, 0xFE000000,
        0x00020000, 0x0003C346, 0x00000000, 0xFE000000 ] ] ]

/-- The table `rgb2yuv_de3[3][12]`: encoding, then coefficient. -/
def rgb2yuv_de3 : List (List Nat) :=
  [ [ 0x0000837A, 0x0001021D, 0x00003221, 0x00000040,
      0xFFFFB41C, 0xFFFF6B03, 0x0000E0E1, 0x00000200,
      0x0000E0E1, 0xFFFF43B1, 0xFFFFDB6E, 0x00000200 ],
    [ 0x00005D7C, 0x00013A7C, 0x00001FBF, 0x00000040,
      0xFFFFCC78, 0xFFFF52A7, 0x0000E0E1, 0x00000200,
      0x0000E0E1, 0xFFFF33BE, 0xFFFFEB61, 0x00000200 ],
    [ 0x00007384, 0x00012A21, 0x00001A13, 0x00000040,
      0xFFFFC133, 0xFFFF5DEC, 0x0000E0E1, 0x00000200,
      0x0000E0E1, 0xFFFF3135, 0xFFFFEDEA, 0x00000200 ] ]

def identity_de3 : List Nat :=
  [ 0x00020000, 0x00000000, 0x00000000, 0x00000000,
    0x00000000, 0x00020000, 0x00000000, 0x00000000,
    0x00000000, 0x00000000, 0x00020000, 0x00000000 ]

def yuv_601_lim_to_709_lim_de3 : List Nat :=
  [ 0x00020000, 0xFFFFC4D7, 0xFFFF9589, 0xFFC00040,
    0x00000000, 0x0002098B, 0x00003AAF, 0xFE000200,
    0x00000000, 0x0000266D, 0x00020CF8, 0xFE000200 ]

def yuv_601_lim_to_2020_lim_de3 : List Nat :=
  [ 0x00020000, 0xFFFFBFCE, 0xFFFFC5FF, 0xFFC00040,
    0x00000000, 0x00020521, 0x00001F89, 0xFE000200,
    0x00000000, 0x00002C87, 0x00020F07, 0xFE000200 ]

def yuv_709_lim_to_601_lim_de3 : List Nat :=
  [ 0x00020000, 0x000032D9, 0x00006226, 0xFFC00040,
    0x00000000, 0x0001FACE, 0xFFFFC759, 0xFE000200,
    0x00000000, 0xFFFFDAE7, 0x0001F780, 0xFE000200 ]

def yuv_709_lim_to_2020_lim_de3 : List Nat :=
  [ 0x00020000, 0xFFFFF782, 0x00003036, 0xFFC00040,
    0x00000000, 0x0001FD99, 0xFFFFE5CA, 0xFE000200,
    0x00000000, 0x000005E4, 0x0002015A, 0xFE000200 ]

def yuv_2020_lim_to_601_lim_de3 : List Nat :=
  [ 0x00020000, 0x00003B03, 0x000034D2, 0xFFC00040,
    0x00000000, 0x0001FD8C, 0xFFFFE183, 0xFE000200,
    0x00000000, 0xFFFFD4F3, 0x0001F3FA, 0xFE000200 ]

def yuv_2020_lim_to_709_lim_de3 : List Nat :=
  [ 0x00020000, 0x00000916, 0xFFFFD061, 0xFFC00040,
    0x00000000, 0x0002021C, 0x00001A40, 0xFE000200,
    0x00000000, 0xFFFFFA19, 0x0001FE5A, 0xFE000200 ]

def yuv_full_to_lim_de3 : List Nat :=
  [ 0x0001B7B8, 0x00000000, 0x00000000, 0x00000040,
    0x00000000, 0x0001C1C2, 0x00000000, 0xFE000200,
    0x00000000, 0x00000000, 0x0001C1C2, 0xFE000200 ]

def yuv_601_full_to_709_lim_de3 : List Nat :=
  [ 0x0001B7B8, 0xFFFFCC08, 0xFFFFA27B, 0x00000040,
    0x00000000, 0x0001CA24, 0x0000338D, 0xFE000200,
    0x00000000, 0x000021C1, 0x0001CD26, 0xFE000200 ]

def yuv_601_full_to_2020_lim_de3 : List Nat :=
  [ 0x0001B7B8, 0xFFFFC79C, 0xFFFFCD0C, 0x00000040,
    0x00000000, 0x0001C643, 0x00001BB4, 0xFE000200,
    0x00000000, 0x0000271D, 0x0001CEF5, 0xFE000200 ]

def yuv_709_full_to_601_lim_de3 : List Nat :=
  [ 0x0001B7B8, 0x00002CAB, 0x00005638, 0x00000040,
    0x00000000, 0x0001BD32, 0xFFFFCE3C, 0xFE000200,
    0x00000000, 0xFFFFDF6A, 0x0001BA4A, 0xFE000200 ]

def yuv_709_full_to_2020_lim_de3 : List Nat :=
  [ 0x0001B7B8, 0xFFFFF88A, 0x00002A5A, 0x00000040,
    0x00000000, 0x0001BFA5, 0xFFFFE8FA, 0xFE000200,
    0x00000000, 0x0000052D, 0x0001C2F1, 0xFE000200 ]

def yuv_2020_full_to_601_lim_de3 : List Nat :=
  [ 0x0001B7B8, 0x000033D6, 0x00002E66, 0x00000040,
    0x00000000, 0x0001BF9A, 0xFFFFE538, 0xFE000200,
    0x00000000, 0xFFFFDA2F, 0x0001B732, 0xFE000200 ]

def yuv_2020_full_to_709_lim_de3 : List Nat :=
  [ 0x0001B7B8, 0x000007FB, 0xFFFFD62B, 0x00000040,
    0x00000000, 0x0001C39D, 0x0000170F, 0xFE000200,
    0x00000000, 0xFFFFFAD1, 0x0001C04F, 0xFE000200 ]

/-- The identity of a coefficient table: which array a `const u32 *` points
to.  `yvu_table` is the local array of the calling function. -/
inductive table_ptr where
  | identity_de3
  | yuv_601_lim_to_709_lim_de3
  | yuv_601_lim_to_2020_lim_de3
  | yuv_709_lim_to_601_lim_de3
  | yuv_709_lim_to_2020_lim_de3
  | yuv_2020_lim_to_601_lim_de3
  | yuv_2020_lim_to_709_lim_de3
  | yuv_full_to_lim_de3
  | yuv_601_full_to_709_lim_de3
  | yuv_601_full_to_2020_lim_de3
  | yuv_709_full_to_601_lim_de3
  | yuv_709_full_to_2020_lim_de3
  | yuv_2020_full_to_601_lim_de3
  | yuv_2020_full_to_709_lim_de3
  | yuv2rgb_de3_row (range encoding : Nat)
  | rgb2yuv_de3_row (encoding : Nat)
  | yvu_table
deriving DecidableEq, Repr

/-- A pointer to a coefficient table together with what it points to. -/
structure csc_table where
  ptr : table_ptr
  data : List Nat
deriving DecidableEq, Repr

/-- The table of pointers `yuv2yuv_de3[2][3][3]`: range, input encoding,
output encoding. -/
def yuv2yuv_de3 : List (List (List csc_table)) :=
  [ [ [ { ptr := table_ptr.identity_de3, data := identity_de3 },
        { ptr := table_ptr.yuv_601_lim_to_709_lim_de3, data := yuv_601_lim_to_709_lim_de3 },
        { ptr := table_ptr.yuv_601_lim_to_2020_lim_de3,
          data := yuv_601_lim_to_2020_lim_de3 } ],
      [ { ptr := table_ptr.yuv_709_lim_to_601_lim_de3, data := yuv_709_lim_to_601_lim_de3 },
        { ptr := table_ptr.identity_de3, data := identity_de3 },
        { ptr := table_ptr.yuv_709_lim_to_2020_lim_de3,
          data := yuv_709_lim_to_2020_lim_de3 } ],
      [ { ptr := table_ptr.yuv_2020_lim_to_601_lim_de3,
          data := yuv_2020_lim_to_601_lim_de3 },
        { ptr := table_ptr.yuv_2020_lim_to_709_lim_de3,
          data := yuv_2020_lim_to_709_lim_de3 },
        { ptr := table_ptr.identity_de3, data := identity_de3 } ] ],
    [ [ { ptr := table_ptr.yuv_full_to_lim_de3, data := yuv_full_to_lim_de3 },
        { ptr := table_ptr.yuv_601_full_to_709_lim_de3,
          data := yuv_601_full_to_709_lim_de3 },
        { ptr := table_ptr.yuv_601_full_to_2020_lim_de3,
          data := yuv_601_full_to_2020_lim_de3 } ],
      [ { ptr := table_ptr.yuv_709_full_to_601_lim_de3,
          data := yuv_709_full_to_601_lim_de3 },
        { ptr := table_ptr.yuv_full_to_lim_de3, data := yuv_full_to_lim_de3 },
        { ptr := table_ptr.yuv_709_full_to_2020_lim_de3,
          data := yuv_709_full_to_2020_lim_de3 } ],
      [ { ptr := table_ptr.yuv_2020_full_to_601_lim_de3,
          data := yuv_2020_full_to_601_lim_de3 },
        { ptr := table_ptr.yuv_2020_full_to_709_lim_de3,
          data := yuv_2020_full_to_709_lim_de3 },
        { ptr := table_ptr.yuv_full_to_lim_de3, data := yuv_full_to_lim_de3 } ] ] ]

/-! ## Parameters and data model -/

/-- The macros of `sun8i_csc.h` and `sun8i_mixer.h` that the code uses.  The
headers are not among the sources, so the macros are parameters. -/
structure MixerRegs where
  SUN8I_CSC_CTRL : Nat → Nat
  SUN8I_CSC_COEFF : Nat → Nat → Nat
  SUN8I_CSC_CTRL_EN : Nat
  DE3_BLD_BASE : Nat
  SUN50I_MIXER_BLEND_CSC_CTL : Nat → Nat
  SUN50I_MIXER_BLEND_CSC_CTL_EN : Nat → Nat
  SUN50I_MIXER_BLEND_CSC_COEFF : Nat → Nat → Nat → Nat

/-- The members of `struct sunxi_engine` that the code reads. -/
structure sunxi_engine where
  format : Nat
  encoding : Nat
  eotf : Nat
  is_eotf_supported : Bool
deriving DecidableEq, Repr

/-- The cached conversion state of a layer, `struct csc_state`. -/
structure csc_state where
  fmt_type : format_type
  in_enc : Nat
  in_range : Nat
  out_fmt : Nat
  out_enc : Nat
  eotf : Nat
  is_eotf_supported : Bool
deriving DecidableEq, Repr

/-- What the code does to its collaborators, in order: the register map
calls, the two calls into the colour-depth converter and the warning. -/
inductive csc_event where
  | regmap_write (reg val : Nat)
  | regmap_bulk_write (reg : Nat) (vals : List Nat)
  | regmap_update_bits (reg mask val : Nat)
  | cdc_setup (channel : Nat) (in_csc out_csc : csc_table) (conv : conversion_type)
  | cdc_disable (channel : Nat)
  | drm_warn
deriving DecidableEq, Repr

/-! ## The functions -/

/-- The index of `in_table` that iteration `i` of the loop of
`sun8i_csc_yvu_remap` reads. -/
def yvu_remap_index (i : Nat) : Nat :=
  if i &&& 3 = 1 then i + 1
  else if i &&& 3 = 2 then i - 1
  else i

/-- The function `sun8i_csc_yvu_remap`: the 12 entries it leaves in
`out_table`; `none` if a read of `in_table` is out of its bounds. -/
def sun8i_csc_yvu_remap (in_table : List Nat) : Option (List Nat) :=
  (List.range 12).mapM (fun i => in_table.get? (yvu_remap_index i))

/-- The lookup `yuv2rgb[range][encoding]`; `none` if an index is out of
bounds. -/
def yuv2rgb_lookup (range encoding : Nat) : Option (List Nat) :=
  (yuv2rgb.get? range).bind (fun row => row.get? encoding)

/-- The end of `sun8i_csc_setup` (lines 294-297), for a table pointer that is
`NULL` (`none`) or not. -/
def sun8i_csc_setup_write (M : MixerRegs) (base : Nat) (table : Option (List Nat)) :
    List csc_event :=
  match table with
  | some t =>
    [ csc_event.regmap_write (M.SUN8I_CSC_CTRL base) M.SUN8I_CSC_CTRL_EN,
      csc_event.regmap_bulk_write (M.SUN8I_CSC_COEFF base 0) (t.take 12) ]
  | none => [ csc_event.regmap_write (M.SUN8I_CSC_CTRL base) 0 ]

/-- The function `sun8i_csc_setup`: what it does, in order; `none` if a table
access is out of bounds. -/
def sun8i_csc_setup (M : MixerRegs) (base : Nat) (fmt_type : format_type)
    (encoding range : Nat) : Option (List csc_event) :=
  match fmt_type with
  | format_type.FORMAT_TYPE_RGB => some (sun8i_csc_setup_write M base none)
  | format_type.FORMAT_TYPE_YUV =>
    (yuv2rgb_lookup range encoding).bind (fun table =>
      some (sun8i_csc_setup_write M base (some table)))
  | format_type.FORMAT_TYPE_YVU =>
    (yuv2rgb_lookup range encoding).bind (fun table =>
      (sun8i_csc_yvu_remap table).bind (fun yvu_table =>
        some (sun8i_csc_setup_write M base (some yvu_table))))
  | format_type.FORMAT_TYPE_OTHER => some [csc_event.drm_warn]

/-- The function `is_rgb`. -/
def is_rgb (format : Nat) : Bool :=
  format == MEDIA_BUS_FMT_RGB888_1X24 || format == MEDIA_BUS_FMT_RGB101010_1X30

/-- The lookup `rgb2yuv_de3[out_enc]`. -/
def rgb2yuv_de3_lookup (out_enc : Nat) : Option csc_table :=
  (rgb2yuv_de3.get? out_enc).map (fun d =>
    { ptr := table_ptr.rgb2yuv_de3_row out_enc, data := d })

/-- The lookup `yuv2rgb_de3[range][encoding]`. -/
def yuv2rgb_de3_lookup (range encoding : Nat) : Option csc_table :=
  ((yuv2rgb_de3.get? range).bind (fun row => row.get? encoding)).map (fun d =>
    { ptr := table_ptr.yuv2rgb_de3_row range encoding, data := d })

/-- The lookup `yuv2yuv_de3[range][encoding][out_enc]`. -/
def yuv2yuv_de3_lookup (range encoding out_enc : Nat) : Option csc_table :=
  ((yuv2yuv_de3.get? range).bind (fun a => a.get? encoding)).bind (fun b => b.get? out_enc)

/-- The call `sun8i_csc_yvu_remap(table, yvu_table)` on a table pointer: the
result points to the local array. -/
def yvu_remap_table (table : csc_table) : Option csc_table :=
  (sun8i_csc_yvu_remap table.data).map (fun d => { ptr := table_ptr.yvu_table, data := d })

/-- The end of `sun8i_de3_ccsc_setup` (lines 393-398), for a table pointer that
is `NULL` (`none`) or not. -/
def sun8i_de3_ccsc_write (M : MixerRegs) (layer : Nat) (table : Option csc_table) :
    List csc_event :=
  let addr := M.SUN50I_MIXER_BLEND_CSC_COEFF M.DE3_BLD_BASE layer 0
  let mask := M.SUN50I_MIXER_BLEND_CSC_CTL_EN layer
  match table with
  | none =>
    [ csc_event.regmap_update_bits (M.SUN50I_MIXER_BLEND_CSC_CTL M.DE3_BLD_BASE) mask 0 ]
  | some t =>
    if t.ptr ≠ table_ptr.identity_de3 then
      [ csc_event.regmap_update_bits (M.SUN50I_MIXER_BLEND_CSC_CTL M.DE3_BLD_BASE) mask mask,
        csc_event.regmap_bulk_write addr (t.data.take 12) ]
    else
      [ csc_event.regmap_update_bits (M.SUN50I_MIXER_BLEND_CSC_CTL M.DE3_BLD_BASE) mask 0 ]

/-- The test at the head of `sun8i_de3_ccsc_setup`: the cached state of the
layer already is what is asked for. -/
def csc_state_cached (state : csc_state) (engine : sunxi_engine) (fmt_type : format_type)
    (encoding range : Nat) : Bool :=
  state.fmt_type == fmt_type &&
  state.in_enc == encoding &&
  state.in_range == range &&
  state.out_fmt == engine.format &&
  state.out_enc == engine.encoding &&
  state.eotf == engine.eotf &&
  state.is_eotf_supported == engine.is_eotf_supported

/-- The function `sun8i_de3_ccsc_setup`: the new cached state of the layer and
what the function does, in order; `none` if a table access is out of
bounds. -/
def sun8i_de3_ccsc_setup (M : MixerRegs) (engine : sunxi_engine) (state : csc_state)
    (layer : Nat) (fmt_type : format_type) (encoding range : Nat) :
    Option (csc_state × List csc_event) :=
  if csc_state_cached state engine fmt_type encoding range then
    some (state, [])
  else
    let state : csc_state :=
      { fmt_type := fmt_type,
        in_enc := encoding,
        in_range := range,
        out_fmt := engine.format,
        out_enc := engine.encoding,
        eotf := engine.eotf,
        is_eotf_supported := engine.is_eotf_supported }
    let is_hdr10 := engine.eotf == HDMI_EOTF_SMPTE_ST2084
    let is_sdr := engine.eotf == HDMI_EOTF_TRADITIONAL_GAMMA_SDR
    let out_enc := engine.encoding
    let identity : csc_table := { ptr := table_ptr.identity_de3, data := identity_de3 }
    let full_to_lim : csc_table :=
      { ptr := table_ptr.yuv_full_to_lim_de3, data := yuv_full_to_lim_de3 }
    match fmt_type with
    | format_type.FORMAT_TYPE_RGB =>
      (if !is_rgb engine.format then (rgb2yuv_de3_lookup out_enc).map some
        else some none).bind (fun table =>
        if !is_sdr && engine.is_eotf_supported then
          some (state,
            [ csc_event.cdc_setup layer identity (table.getD identity)
                (if is_hdr10 then conversion_type.SDR_TO_HDR_RGB
                 else conversion_type.SDR_TO_WCG_RGB) ] ++
            sun8i_de3_ccsc_write M layer none)
        else
          some (state, [csc_event.cdc_disable layer] ++ sun8i_de3_ccsc_write M layer table))
    | format_type.FORMAT_TYPE_OTHER => some (state, [csc_event.drm_warn])
    | _ =>
      if !is_sdr && !engine.is_eotf_supported then
        (if fmt_type = format_type.FORMAT_TYPE_YVU then
            yvu_remap_table
              (if range == DRM_COLOR_YCBCR_FULL_RANGE then full_to_lim else identity)
          else
            some (if range == DRM_COLOR_YCBCR_FULL_RANGE then full_to_lim
              else identity)).bind (fun in_csc =>
          (if is_rgb engine.format then
              yuv2rgb_de3_lookup DRM_COLOR_YCBCR_LIMITED_RANGE encoding
            else
              yuv2yuv_de3_lookup DRM_COLOR_YCBCR_LIMITED_RANGE encoding
                DRM_COLOR_YCBCR_BT709).bind (fun table =>
            some (state,
              [ csc_event.cdc_setup layer in_csc table
                  (if is_hdr10 then conversion_type.HDR_TO_SDR_YUV
                   else conversion_type.WCG_TO_SDR_YUV) ] ++
              sun8i_de3_ccsc_write M layer none)))
      else
        (if is_rgb engine.format then yuv2rgb_de3_lookup range encoding
          else yuv2yuv_de3_lookup range encoding out_enc).bind (fun table =>
          (if fmt_type = format_type.FORMAT_TYPE_YVU then yvu_remap_table table
            else some table).bind (fun table =>
            some (state,
              [csc_event.cdc_disable layer] ++ sun8i_de3_ccsc_write M layer (some table))))

/-! ## Example inputs -/

/-- An example assignment of the mixer macros. -/
def example_mixer_regs : MixerRegs where
  SUN8I_CSC_CTRL := fun base => base + 0x0
  SUN8I_CSC_COEFF := fun base i => base + 0x10 + 4 * i
  SUN8I_CSC_CTRL_EN := 1
  DE3_BLD_BASE := 0x0800
  SUN50I_MIXER_BLEND_CSC_CTL := fun base => base + 0x100
  SUN50I_MIXER_BLEND_CSC_CTL_EN := fun ch => 1 <<< ch
  SUN50I_MIXER_BLEND_CSC_COEFF := fun base layer x => base + 0x110 + layer * 0x30 + x * 4

/-- An engine that outputs YUV (not a media bus RGB format) in BT.709 with the
SDR transfer function. -/
def example_engine : sunxi_engine where
  format := 0x2025
  encoding := DRM_COLOR_YCBCR_BT709
  eotf := HDMI_EOTF_TRADITIONAL_GAMMA_SDR
  is_eotf_supported := false

/-- A cached state that asks for an RGB layer. -/
def example_csc_state : csc_state where
  fmt_type := format_type.FORMAT_TYPE_RGB
  in_enc := 0
  in_range := 0
  out_fmt := 0
  out_enc := 0
  eotf := 0
  is_eotf_supported := false

end Sun8iCsc

namespace Cedrus

/-! ## Theorems -/

/-! ### Bit arithmetic -/

theorem land_lor_distrib_right (a b m : Nat) : (a ||| b) &&& m = (a &&& m) ||| (b &&& m) := by
  apply Nat.eq_of_testBit_eq
  intro i
  simp only [Nat.testBit_and, Nat.testBit_or]
  cases a.testBit i <;> cases b.testBit i <;> cases m.testBit i <;> rfl

theorem or_if_land (c : Bool) (a b m : Nat) :
    or_if c a b &&& m = (a &&& m) ||| (if c then b &&& m else 0) := by
  cases c
  · simp [or_if]
  · simp [or_if, land_lor_distrib_right]

theorem flag_set_iff (x f : Nat) : flag_set x f = true ↔ x &&& f ≠ 0 := by
  simp [flag_set]

theorem avoid_of_within {v mF mG : Nat} (hw : v &&& mF = v) (hd : mF &&& mG = 0) :
    v &&& mG = 0 := by
  rw [← hw, Nat.and_assoc, hd, Nat.and_zero]

theorem pairwise_disjoint_at {l : List Nat} (h : l.Pairwise (fun a b => a &&& b = 0))
    (i j : Nat) (hi : i < l.length) (hj : j < l.length) (hij : i ≠ j) :
    l.get ⟨i, hi⟩ &&& l.get ⟨j, hj⟩ = 0 := by
  rcases Nat.lt_or_gt_of_ne hij with h1 | h1
  · exact List.pairwise_iff_get.mp h ⟨i, hi⟩ ⟨j, hj⟩ h1
  · rw [Nat.and_comm]
    exact List.pairwise_iff_get.mp h ⟨j, hj⟩ ⟨i, hi⟩ h1

theorem SHIFT_AND_MASK_BITS_within (h l x : Nat) :
    SHIFT_AND_MASK_BITS x h l &&& GENMASK h l = SHIFT_AND_MASK_BITS x h l := by
  simp [SHIFT_AND_MASK_BITS, Nat.and_assoc]

/-! ### The tables -/

/-- C3: for the codes 0 to 21 `cedrus_vc1_get_fraction` returns the documented
scaled values, which for the codes 0 to 20 are `floor(256 * num / denom)` of
the listed fractions and for code 21 is `0xff`; for every code from 22 on it
returns 0. -/
theorem get_fraction_documented :
    (List.range 22).map cedrus_vc1_get_fraction = documented_fractions ∧
    documented_fractions.take 21 = documented_ratios.map (fun r => 256 * r.1 / r.2) ∧
    documented_fractions.drop 21 = [0xff] ∧
    ∀ index : Nat, cedrus_vc1_get_fraction (22 + index) = 0 := by
  refine ⟨by decide, by decide, by decide, ?_⟩
  intro index
  cases index with
  | zero => decide
  | succ n =>
    have h : 22 + (n + 1) ≥ vc1_fractions.length := by
      have : vc1_fractions.length = 23 := by decide
      omega
    simp only [cedrus_vc1_get_fraction, h, dite_true]

/-- C9: the motion-vector mode remap `vc1_mvmode_map` is a bijection on
0, 1, 2, 3: `remap_inverse` undoes it on either side, and both tables stay
within 0, 1, 2, 3. -/
theorem mvmode_remap_bijection :
    ∀ x : Fin 4,
      vc1_mvmode_map.getD (remap_inverse.getD x.val 0) 0 = x.val ∧
      remap_inverse.getD (vc1_mvmode_map.getD x.val 0) 0 = x.val ∧
      vc1_mvmode_map.getD x.val 0 < 4 ∧ remap_inverse.getD x.val 0 < 4 ∧
      vc1_mvmode_map_lookup x.val = vc1_mvmode_map.getD x.val 0 := by
  decide

theorem mod_land_of_lt (x m : Nat) (hm : m < 4294967296) :
    (x % 4294967296) &&& m = x &&& m := by
  apply Nat.eq_of_testBit_eq
  intro i
  have e : (4294967296 : Nat) = 2 ^ 32 := by norm_num
  rw [e] at hm ⊢
  simp only [Nat.testBit_and, Nat.testBit_mod_two_pow]
  by_cases hi : i < 32
  · simp [hi]
  · have hm' : m < 2 ^ i :=
      Nat.lt_of_lt_of_le hm (Nat.pow_le_pow_right (by decide) (Nat.le_of_not_lt hi))
    simp [Nat.testBit_lt_two_pow hm']

/-! ### Register values under a layout -/

/-- The less-than-half bits of the motion-vector register value. -/
theorem setup_picmv_land_less_than_half (R : CedrusRegs) (V : V4L2Flags) (M : PICMV_masks)
    (h : PICMV_layout R M) (picture : v4l2_vc1_picture_layer)
    (store : Nat → cedrus_vc1_buffer) (fwd_buf : Option Nat) :
    (setup_picmv R V picture store fwd_buf) % 4294967296 &&& R.VE_DEC_VC1_PICMV_BFRAC_LESS_THAN_HALF =
      (if decide (setup_bfraction picture < FRACTION 1 2) then
        R.VE_DEC_VC1_PICMV_BFRAC_LESS_THAN_HALF else 0) := by
  obtain ⟨hw, hne, hd, hlt⟩ := h
  have lt : R.VE_DEC_VC1_PICMV_BFRAC_LESS_THAN_HALF < 4294967296 := hlt _ (by simp)
  have a0 : ∀ x, R.VE_DEC_VC1_PICMV_BFRACTION x &&& R.VE_DEC_VC1_PICMV_BFRAC_LESS_THAN_HALF = 0 :=
    fun x => avoid_of_within (hw (_, M.bfraction) (by simp) x)
      (pairwise_disjoint_at hd 0 4 (by simp) (by simp) (by decide))
  have a1 : ∀ x, R.VE_DEC_VC1_PICMV_MVRANGE x &&& R.VE_DEC_VC1_PICMV_BFRAC_LESS_THAN_HALF = 0 :=
    fun x => avoid_of_within (hw (_, M.mvrange) (by simp) x)
      (pairwise_disjoint_at hd 1 4 (by simp) (by simp) (by decide))
  have a2 : ∀ x, R.VE_DEC_VC1_PICMV_MVMODE x &&& R.VE_DEC_VC1_PICMV_BFRAC_LESS_THAN_HALF = 0 :=
    fun x => avoid_of_within (hw (_, M.mvmode) (by simp) x)
      (pairwise_disjoint_at hd 2 4 (by simp) (by simp) (by decide))
  have a5 : R.VE_DEC_VC1_PICMV_INTENSITY_COMP_EN &&& R.VE_DEC_VC1_PICMV_BFRAC_LESS_THAN_HALF = 0 :=
    pairwise_disjoint_at hd 5 4 (by simp) (by simp) (by decide)
  have a3 : ∀ x, R.VE_DEC_VC1_PICMV_MVTAB x &&& R.VE_DEC_VC1_PICMV_BFRAC_LESS_THAN_HALF = 0 :=
    fun x => avoid_of_within (hw (_, M.mvtab) (by simp) x)
      (pairwise_disjoint_at hd 3 4 (by simp) (by simp) (by decide))
  rw [mod_land_of_lt _ _ lt]
  simp only [setup_picmv, setup_picmv_head, land_lor_distrib_right, or_if_land, a0, a1, a2, a5,
    a3, Nat.or_zero, Nat.zero_or, Nat.and_self, Nat.zero_and, ite_self]

/-- The intensity-compensation bits of `reg` where the output flag is read. -/
theorem setup_picmv_head_land_intensity_comp_en (R : CedrusRegs) (V : V4L2Flags) (M : PICMV_masks)
    (h : PICMV_layout R M) (picture : v4l2_vc1_picture_layer)
    (store : Nat → cedrus_vc1_buffer) (fwd_buf : Option Nat) :
    (setup_picmv_head R V picture store fwd_buf) % 4294967296 &&& R.VE_DEC_VC1_PICMV_INTENSITY_COMP_EN =
      (if setup_intensity_comp_cond V picture store fwd_buf then
        R.VE_DEC_VC1_PICMV_INTENSITY_COMP_EN else 0) := by
  obtain ⟨hw, hne, hd, hlt⟩ := h
  have lt : R.VE_DEC_VC1_PICMV_INTENSITY_COMP_EN < 4294967296 := hlt _ (by simp)
  have a0 : ∀ x, R.VE_DEC_VC1_PICMV_BFRACTION x &&& R.VE_DEC_VC1_PICMV_INTENSITY_COMP_EN = 0 :=
    fun x => avoid_of_within (hw (_, M.bfraction) (by simp) x)
      (pairwise_disjoint_at hd 0 5 (by simp) (by simp) (by decide))
  have a4 : R.VE_DEC_VC1_PICMV_BFRAC_LESS_THAN_HALF &&& R.VE_DEC_VC1_PICMV_INTENSITY_COMP_EN = 0 :=
    pairwise_disjoint_at hd 4 5 (by simp) (by simp) (by decide)
  have a1 : ∀ x, R.VE_DEC_VC1_PICMV_MVRANGE x &&& R.VE_DEC_VC1_PICMV_INTENSITY_COMP_EN = 0 :=
    fun x => avoid_of_within (hw (_, M.mvrange) (by simp) x)
      (pairwise_disjoint_at hd 1 5 (by simp) (by simp) (by decide))
  have a2 : ∀ x, R.VE_DEC_VC1_PICMV_MVMODE x &&& R.VE_DEC_VC1_PICMV_INTENSITY_COMP_EN = 0 :=
    fun x => avoid_of_within (hw (_, M.mvmode) (by simp) x)
      (pairwise_disjoint_at hd 2 5 (by simp) (by simp) (by decide))
  have a3 : ∀ x, R.VE_DEC_VC1_PICMV_MVTAB x &&& R.VE_DEC_VC1_PICMV_INTENSITY_COMP_EN = 0 :=
    fun x => avoid_of_within (hw (_, M.mvtab) (by simp) x)
      (pairwise_disjoint_at hd 3 5 (by simp) (by simp) (by decide))
  rw [mod_land_of_lt _ _ lt]
  simp only [setup_picmv_head, land_lor_distrib_right, or_if_land, a0, a4, a1, a2, a3,
    Nat.or_zero, Nat.zero_or, Nat.and_self, Nat.zero_and, ite_self]

/-- The intensity-compensation bits of the motion-vector register value. -/
theorem setup_picmv_land_intensity_comp_en (R : CedrusRegs) (V : V4L2Flags) (M : PICMV_masks)
    (h : PICMV_layout R M) (picture : v4l2_vc1_picture_layer)
    (store : Nat → cedrus_vc1_buffer) (fwd_buf : Option Nat) :
    (setup_picmv R V picture store fwd_buf) % 4294967296 &&& R.VE_DEC_VC1_PICMV_INTENSITY_COMP_EN =
      (if setup_intensity_comp_cond V picture store fwd_buf then
        R.VE_DEC_VC1_PICMV_INTENSITY_COMP_EN else 0) := by
  obtain ⟨hw, hne, hd, hlt⟩ := h
  have lt : R.VE_DEC_VC1_PICMV_INTENSITY_COMP_EN < 4294967296 := hlt _ (by simp)
  have a0 : ∀ x, R.VE_DEC_VC1_PICMV_BFRACTION x &&& R.VE_DEC_VC1_PICMV_INTENSITY_COMP_EN = 0 :=
    fun x => avoid_of_within (hw (_, M.bfraction) (by simp) x)
      (pairwise_disjoint_at hd 0 5 (by simp) (by simp) (by decide))
  have a4 : R.VE_DEC_VC1_PICMV_BFRAC_LESS_THAN_HALF &&& R.VE_DEC_VC1_PICMV_INTENSITY_COMP_EN = 0 :=
    pairwise_disjoint_at hd 4 5 (by simp) (by simp) (by decide)
  have a1 : ∀ x, R.VE_DEC_VC1_PICMV_MVRANGE x &&& R.VE_DEC_VC1_PICMV_INTENSITY_COMP_EN = 0 :=
    fun x => avoid_of_within (hw (_, M.mvrange) (by simp) x)
      (pairwise_disjoint_at hd 1 5 (by simp) (by simp) (by decide))
  have a2 : ∀ x, R.VE_DEC_VC1_PICMV_MVMODE x &&& R.VE_DEC_VC1_PICMV_INTENSITY_COMP_EN = 0 :=
    fun x => avoid_of_within (hw (_, M.mvmode) (by simp) x)
      (pairwise_disjoint_at hd 2 5 (by simp) (by simp) (by decide))
  have a3 : ∀ x, R.VE_DEC_VC1_PICMV_MVTAB x &&& R.VE_DEC_VC1_PICMV_INTENSITY_COMP_EN = 0 :=
    fun x => avoid_of_within (hw (_, M.mvtab) (by simp) x)
      (pairwise_disjoint_at hd 3 5 (by simp) (by simp) (by decide))
  rw [mod_land_of_lt _ _ lt]
  simp only [setup_picmv, setup_picmv_head, land_lor_distrib_right, or_if_land, a0, a4, a1, a2,
    a3, Nat.or_zero, Nat.zero_or, Nat.and_self, Nat.zero_and, ite_self]

/-- The motion-vector mode field of the motion-vector register value. -/
theorem setup_picmv_land_mvmode (R : CedrusRegs) (V : V4L2Flags) (M : PICMV_masks)
    (h : PICMV_layout R M) (picture : v4l2_vc1_picture_layer)
    (store : Nat → cedrus_vc1_buffer) (fwd_buf : Option Nat) :
    (setup_picmv R V picture store fwd_buf) % 4294967296 &&& M.mvmode =
      R.VE_DEC_VC1_PICMV_MVMODE (vc1_mvmode_map_lookup (setup_mvmode picture)) := by
  obtain ⟨hw, hne, hd, hlt⟩ := h
  have lt : M.mvmode < 4294967296 := hlt _ (by simp)
  have a0 : ∀ x, R.VE_DEC_VC1_PICMV_BFRACTION x &&& M.mvmode = 0 :=
    fun x => avoid_of_within (hw (_, M.bfraction) (by simp) x)
      (pairwise_disjoint_at hd 0 2 (by simp) (by simp) (by decide))
  have a4 : R.VE_DEC_VC1_PICMV_BFRAC_LESS_THAN_HALF &&& M.mvmode = 0 :=
    pairwise_disjoint_at hd 4 2 (by simp) (by simp) (by decide)
  have a1 : ∀ x, R.VE_DEC_VC1_PICMV_MVRANGE x &&& M.mvmode = 0 :=
    fun x => avoid_of_within (hw (_, M.mvrange) (by simp) x)
      (pairwise_disjoint_at hd 1 2 (by simp) (by simp) (by decide))
  have own : ∀ x, R.VE_DEC_VC1_PICMV_MVMODE x &&& M.mvmode = R.VE_DEC_VC1_PICMV_MVMODE x :=
    fun x => hw (_, M.mvmode) (by simp) x
  have a5 : R.VE_DEC_VC1_PICMV_INTENSITY_COMP_EN &&& M.mvmode = 0 :=
    pairwise_disjoint_at hd 5 2 (by simp) (by simp) (by decide)
  have a3 : ∀ x, R.VE_DEC_VC1_PICMV_MVTAB x &&& M.mvmode = 0 :=
    fun x => avoid_of_within (hw (_, M.mvtab) (by simp) x)
      (pairwise_disjoint_at hd 3 2 (by simp) (by simp) (by decide))
  rw [mod_land_of_lt _ _ lt]
  simp only [setup_picmv, setup_picmv_head, land_lor_distrib_right, or_if_land, a0, a4, a1, own,
    a5, a3, Nat.or_zero, Nat.zero_or, Nat.and_self, Nat.zero_and, ite_self]

/-- The forward-distance field of the interlace register value. -/
theorem setup_picinterlace_land_frfd (R : CedrusRegs) (V : V4L2Flags) (M : PICINTERLACE_masks)
    (h : PICINTERLACE_layout R M) (slice : v4l2_ctrl_vc1_slice_params)
    (store : Nat → cedrus_vc1_buffer) (fwd_buf bwd_buf : Option Nat) :
    (setup_picinterlace R V slice store fwd_buf bwd_buf) % 4294967296 &&& M.frfd =
      R.VE_DEC_VC1_PICINTERLACE_FRFD (setup_frfd slice.picture_layer) := by
  obtain ⟨hw, hne, hd, hlt⟩ := h
  have lt : M.frfd < 4294967296 := hlt _ (by simp)
  have a9 : R.VE_DEC_VC1_PICINTERLACE_FIELDTX_RAW &&& M.frfd = 0 :=
    pairwise_disjoint_at hd 9 6 (by simp) (by simp) (by decide)
  have a0 : ∀ x, R.VE_DEC_VC1_PICINTERLACE_DMVRANGE x &&& M.frfd = 0 :=
    fun x => avoid_of_within (hw (_, M.dmvrange) (by simp) x)
      (pairwise_disjoint_at hd 0 6 (by simp) (by simp) (by decide))
  have a10 : R.VE_DEC_VC1_PICINTERLACE_4MVSWITCH &&& M.frfd = 0 :=
    pairwise_disjoint_at hd 10 6 (by simp) (by simp) (by decide)
  have a1 : ∀ x, R.VE_DEC_VC1_PICINTERLACE_MBMODETAB x &&& M.frfd = 0 :=
    fun x => avoid_of_within (hw (_, M.mbmodetab) (by simp) x)
      (pairwise_disjoint_at hd 1 6 (by simp) (by simp) (by decide))
  have a2 : ∀ x, R.VE_DEC_VC1_PICINTERLACE_IMVTAB x &&& M.frfd = 0 :=
    fun x => avoid_of_within (hw (_, M.imvtab) (by simp) x)
      (pairwise_disjoint_at hd 2 6 (by simp) (by simp) (by decide))
  have a3 : ∀ x, R.VE_DEC_VC1_PICINTERLACE_ICBPTAB x &&& M.frfd = 0 :=
    fun x => avoid_of_within (hw (_, M.icbptab) (by simp) x)
      (pairwise_disjoint_at hd 3 6 (by simp) (by simp) (by decide))
  have a11 : R.VE_DEC_VC1_PICINTERLACE_INTENCOMP &&& M.frfd = 0 :=
    pairwise_disjoint_at hd 11 6 (by simp) (by simp) (by decide)
  have a4 : ∀ x, R.VE_DEC_VC1_PICINTERLACE_2MVBPTAB x &&& M.frfd = 0 :=
    fun x => avoid_of_within (hw (_, M.twomvbptab) (by simp) x)
      (pairwise_disjoint_at hd 4 6 (by simp) (by simp) (by decide))
  have a5 : ∀ x, R.VE_DEC_VC1_PICINTERLACE_4MVBPTAB x &&& M.frfd = 0 :=
    fun x => avoid_of_within (hw (_, M.fourmvbptab) (by simp) x)
      (pairwise_disjoint_at hd 5 6 (by simp) (by simp) (by decide))
  have own : ∀ x, R.VE_DEC_VC1_PICINTERLACE_FRFD x &&& M.frfd = R.VE_DEC_VC1_PICINTERLACE_FRFD x :=
    fun x => hw (_, M.frfd) (by simp) x
  have a7 : ∀ x, R.VE_DEC_VC1_PICINTERLACE_BRFD x &&& M.frfd = 0 :=
    fun x => avoid_of_within (hw (_, M.brfd) (by simp) x)
      (pairwise_disjoint_at hd 7 6 (by simp) (by simp) (by decide))
  have a12 : R.VE_DEC_VC1_PICINTERLACE_REFFIELD &&& M.frfd = 0 :=
    pairwise_disjoint_at hd 12 6 (by simp) (by simp) (by decide)
  have a8 : ∀ x, R.VE_DEC_VC1_PICINTERLACE_INTENCOMPFLD x &&& M.frfd = 0 :=
    fun x => avoid_of_within (hw (_, M.intencompfld) (by simp) x)
      (pairwise_disjoint_at hd 8 6 (by simp) (by simp) (by decide))
  have a13 : R.VE_DEC_VC1_PICINTERLACE_FORWARD_RAW &&& M.frfd = 0 :=
    pairwise_disjoint_at hd 13 6 (by simp) (by simp) (by decide)
  have a14 : R.VE_DEC_VC1_PICINTERLACE_FWD_INTERLACE &&& M.frfd = 0 :=
    pairwise_disjoint_at hd 14 6 (by simp) (by simp) (by decide)
  have a15 : R.VE_DEC_VC1_PICINTERLACE_BWD_INTERLACE &&& M.frfd = 0 :=
    pairwise_disjoint_at hd 15 6 (by simp) (by simp) (by decide)
  have a16 : R.VE_DEC_VC1_PICINTERLACE_NUMREF &&& M.frfd = 0 :=
    pairwise_disjoint_at hd 16 6 (by simp) (by simp) (by decide)
  rw [mod_land_of_lt _ _ lt]
  simp only [setup_picinterlace, land_lor_distrib_right, or_if_land, a9, a0, a10, a1, a2, a3,
    a11, a4, a5, own, a7, a12, a8, a13, a14, a15, a16, Nat.or_zero, Nat.zero_or, Nat.and_self,
    Nat.zero_and, ite_self]

/-- The backward-distance field of the interlace register value. -/
theorem setup_picinterlace_land_brfd (R : CedrusRegs) (V : V4L2Flags) (M : PICINTERLACE_masks)
    (h : PICINTERLACE_layout R M) (slice : v4l2_ctrl_vc1_slice_params)
    (store : Nat → cedrus_vc1_buffer) (fwd_buf bwd_buf : Option Nat) :
    (setup_picinterlace R V slice store fwd_buf bwd_buf) % 4294967296 &&& M.brfd =
      R.VE_DEC_VC1_PICINTERLACE_BRFD (to_u32 (setup_brfd slice.picture_layer)) := by
  obtain ⟨hw, hne, hd, hlt⟩ := h
  have lt : M.brfd < 4294967296 := hlt _ (by simp)
  have a9 : R.VE_DEC_VC1_PICINTERLACE_FIELDTX_RAW &&& M.brfd = 0 :=
    pairwise_disjoint_at hd 9 7 (by simp) (by simp) (by decide)
  have a0 : ∀ x, R.VE_DEC_VC1_PICINTERLACE_DMVRANGE x &&& M.brfd = 0 :=
    fun x => avoid_of_within (hw (_, M.dmvrange) (by simp) x)
      (pairwise_disjoint_at hd 0 7 (by simp) (by simp) (by decide))
  have a10 : R.VE_DEC_VC1_PICINTERLACE_4MVSWITCH &&& M.brfd = 0 :=
    pairwise_disjoint_at hd 10 7 (by simp) (by simp) (by decide)
  have a1 : ∀ x, R.VE_DEC_VC1_PICINTERLACE_MBMODETAB x &&& M.brfd = 0 :=
    fun x => avoid_of_within (hw (_, M.mbmodetab) (by simp) x)
      (pairwise_disjoint_at hd 1 7 (by simp) (by simp) (by decide))
  have a2 : ∀ x, R.VE_DEC_VC1_PICINTERLACE_IMVTAB x &&& M.brfd = 0 :=
    fun x => avoid_of_within (hw (_, M.imvtab) (by simp) x)
      (pairwise_disjoint_at hd 2 7 (by simp) (by simp) (by decide))
  have a3 : ∀ x, R.VE_DEC_VC1_PICINTERLACE_ICBPTAB x &&& M.brfd = 0 :=
    fun x => avoid_of_within (hw (_, M.icbptab) (by simp) x)
      (pairwise_disjoint_at hd 3 7 (by simp) (by simp) (by decide))
  have a11 : R.VE_DEC_VC1_PICINTERLACE_INTENCOMP &&& M.brfd = 0 :=
    pairwise_disjoint_at hd 11 7 (by simp) (by simp) (by decide)
  have a4 : ∀ x, R.VE_DEC_VC1_PICINTERLACE_2MVBPTAB x &&& M.brfd = 0 :=
    fun x => avoid_of_within (hw (_, M.twomvbptab) (by simp) x)
      (pairwise_disjoint_at hd 4 7 (by simp) (by simp) (by decide))
  have a5 : ∀ x, R.VE_DEC_VC1_PICINTERLACE_4MVBPTAB x &&& M.brfd = 0 :=
    fun x => avoid_of_within (hw (_, M.fourmvbptab) (by simp) x)
      (pairwise_disjoint_at hd 5 7 (by simp) (by simp) (by decide))
  have a6 : ∀ x, R.VE_DEC_VC1_PICINTERLACE_FRFD x &&& M.brfd = 0 :=
    fun x => avoid_of_within (hw (_, M.frfd) (by simp) x)
      (pairwise_disjoint_at hd 6 7 (by simp) (by simp) (by decide))
  have own : ∀ x, R.VE_DEC_VC1_PICINTERLACE_BRFD x &&& M.brfd = R.VE_DEC_VC1_PICINTERLACE_BRFD x :=
    fun x => hw (_, M.brfd) (by simp) x
  have a12 : R.VE_DEC_VC1_PICINTERLACE_REFFIELD &&& M.brfd = 0 :=
    pairwise_disjoint_at hd 12 7 (by simp) (by simp) (by decide)
  have a8 : ∀ x, R.VE_DEC_VC1_PICINTERLACE_INTENCOMPFLD x &&& M.brfd = 0 :=
    fun x => avoid_of_within (hw (_, M.intencompfld) (by simp) x)
      (pairwise_disjoint_at hd 8 7 (by simp) (by simp) (by decide))
  have a13 : R.VE_DEC_VC1_PICINTERLACE_FORWARD_RAW &&& M.brfd = 0 :=
    pairwise_disjoint_at hd 13 7 (by simp) (by simp) (by decide)
  have a14 : R.VE_DEC_VC1_PICINTERLACE_FWD_INTERLACE &&& M.brfd = 0 :=
    pairwise_disjoint_at hd 14 7 (by simp) (by simp) (by decide)
  have a15 : R.VE_DEC_VC1_PICINTERLACE_BWD_INTERLACE &&& M.brfd = 0 :=
    pairwise_disjoint_at hd 15 7 (by simp) (by simp) (by decide)
  have a16 : R.VE_DEC_VC1_PICINTERLACE_NUMREF &&& M.brfd = 0 :=
    pairwise_disjoint_at hd 16 7 (by simp) (by simp) (by decide)
  rw [mod_land_of_lt _ _ lt]
  simp only [setup_picinterlace, land_lor_distrib_right, or_if_land, a9, a0, a10, a1, a2, a3,
    a11, a4, a5, a6, own, a12, a8, a13, a14, a15, a16, Nat.or_zero, Nat.zero_or, Nat.and_self,
    Nat.zero_and, ite_self]

/-- The forward-interlace bits of the interlace register value. -/
theorem setup_picinterlace_land_fwd_interlace (R : CedrusRegs) (V : V4L2Flags) (M : PICINTERLACE_masks)
    (h : PICINTERLACE_layout R M) (slice : v4l2_ctrl_vc1_slice_params)
    (store : Nat → cedrus_vc1_buffer) (fwd_buf bwd_buf : Option Nat) :
    (setup_picinterlace R V slice store fwd_buf bwd_buf) % 4294967296 &&& R.VE_DEC_VC1_PICINTERLACE_FWD_INTERLACE =
      (if (buf_flag store fwd_buf cedrus_vc1_buffer.interlaced ||
          (fwd_buf.isNone && !setup_progressive slice.picture_layer)) then
        R.VE_DEC_VC1_PICINTERLACE_FWD_INTERLACE else 0) := by
  obtain ⟨hw, hne, hd, hlt⟩ := h
  have lt : R.VE_DEC_VC1_PICINTERLACE_FWD_INTERLACE < 4294967296 := hlt _ (by simp)
  have a9 : R.VE_DEC_VC1_PICINTERLACE_FIELDTX_RAW &&& R.VE_DEC_VC1_PICINTERLACE_FWD_INTERLACE = 0 :=
    pairwise_disjoint_at hd 9 14 (by simp) (by simp) (by decide)
  have a0 : ∀ x, R.VE_DEC_VC1_PICINTERLACE_DMVRANGE x &&& R.VE_DEC_VC1_PICINTERLACE_FWD_INTERLACE = 0 :=
    fun x => avoid_of_within (hw (_, M.dmvrange) (by simp) x)
      (pairwise_disjoint_at hd 0 14 (by simp) (by simp) (by decide))
  have a10 : R.VE_DEC_VC1_PICINTERLACE_4MVSWITCH &&& R.VE_DEC_VC1_PICINTERLACE_FWD_INTERLACE = 0 :=
    pairwise_disjoint_at hd 10 14 (by simp) (by simp) (by decide)
  have a1 : ∀ x, R.VE_DEC_VC1_PICINTERLACE_MBMODETAB x &&& R.VE_DEC_VC1_PICINTERLACE_FWD_INTERLACE = 0 :=
    fun x => avoid_of_within (hw (_, M.mbmodetab) (by simp) x)
      (pairwise_disjoint_at hd 1 14 (by simp) (by simp) (by decide))
  have a2 : ∀ x, R.VE_DEC_VC1_PICINTERLACE_IMVTAB x &&& R.VE_DEC_VC1_PICINTERLACE_FWD_INTERLACE = 0 :=
    fun x => avoid_of_within (hw (_, M.imvtab) (by simp) x)
      (pairwise_disjoint_at hd 2 14 (by simp) (by simp) (by decide))
  have a3 : ∀ x, R.VE_DEC_VC1_PICINTERLACE_ICBPTAB x &&& R.VE_DEC_VC1_PICINTERLACE_FWD_INTERLACE = 0 :=
    fun x => avoid_of_within (hw (_, M.icbptab) (by simp) x)
      (pairwise_disjoint_at hd 3 14 (by simp) (by simp) (by decide))
  have a11 : R.VE_DEC_VC1_PICINTERLACE_INTENCOMP &&& R.VE_DEC_VC1_PICINTERLACE_FWD_INTERLACE = 0 :=
    pairwise_disjoint_at hd 11 14 (by simp) (by simp) (by decide)
  have a4 : ∀ x, R.VE_DEC_VC1_PICINTERLACE_2MVBPTAB x &&& R.VE_DEC_VC1_PICINTERLACE_FWD_INTERLACE = 0 :=
    fun x => avoid_of_within (hw (_, M.twomvbptab) (by simp) x)
      (pairwise_disjoint_at hd 4 14 (by simp) (by simp) (by decide))
  have a5 : ∀ x, R.VE_DEC_VC1_PICINTERLACE_4MVBPTAB x &&& R.VE_DEC_VC1_PICINTERLACE_FWD_INTERLACE = 0 :=
    fun x => avoid_of_within (hw (_, M.fourmvbptab) (by simp) x)
      (pairwise_disjoint_at hd 5 14 (by simp) (by simp) (by decide))
  have a6 : ∀ x, R.VE_DEC_VC1_PICINTERLACE_FRFD x &&& R.VE_DEC_VC1_PICINTERLACE_FWD_INTERLACE = 0 :=
    fun x => avoid_of_within (hw (_, M.frfd) (by simp) x)
      (pairwise_disjoint_at hd 6 14 (by simp) (by simp) (by decide))
  have a7 : ∀ x, R.VE_DEC_VC1_PICINTERLACE_BRFD x &&& R.VE_DEC_VC1_PICINTERLACE_FWD_INTERLACE = 0 :=
    fun x => avoid_of_within (hw (_, M.brfd) (by simp) x)
      (pairwise_disjoint_at hd 7 14 (by simp) (by simp) (by decide))
  have a12 : R.VE_DEC_VC1_PICINTERLACE_REFFIELD &&& R.VE_DEC_VC1_PICINTERLACE_FWD_INTERLACE = 0 :=
    pairwise_disjoint_at hd 12 14 (by simp) (by simp) (by decide)
  have a8 : ∀ x, R.VE_DEC_VC1_PICINTERLACE_INTENCOMPFLD x &&& R.VE_DEC_VC1_PICINTERLACE_FWD_INTERLACE = 0 :=
    fun x => avoid_of_within (hw (_, M.intencompfld) (by simp) x)
      (pairwise_disjoint_at hd 8 14 (by simp) (by simp) (by decide))
  have a13 : R.VE_DEC_VC1_PICINTERLACE_FORWARD_RAW &&& R.VE_DEC_VC1_PICINTERLACE_FWD_INTERLACE = 0 :=
    pairwise_disjoint_at hd 13 14 (by simp) (by simp) (by decide)
  have a15 : R.VE_DEC_VC1_PICINTERLACE_BWD_INTERLACE &&& R.VE_DEC_VC1_PICINTERLACE_FWD_INTERLACE = 0 :=
    pairwise_disjoint_at hd 15 14 (by simp) (by simp) (by decide)
  have a16 : R.VE_DEC_VC1_PICINTERLACE_NUMREF &&& R.VE_DEC_VC1_PICINTERLACE_FWD_INTERLACE = 0 :=
    pairwise_disjoint_at hd 16 14 (by simp) (by simp) (by decide)
  rw [mod_land_of_lt _ _ lt]
  simp only [setup_picinterlace, land_lor_distrib_right, or_if_land, a9, a0, a10, a1, a2, a3,
    a11, a4, a5, a6, a7, a12, a8, a13, a15, a16, Nat.or_zero, Nat.zero_or, Nat.and_self,
    Nat.zero_and, ite_self]

/-- The backward-interlace bits of the interlace register value. -/
theorem setup_picinterlace_land_bwd_interlace (R : CedrusRegs) (V : V4L2Flags) (M : PICINTERLACE_masks)
    (h : PICINTERLACE_layout R M) (slice : v4l2_ctrl_vc1_slice_params)
    (store : Nat → cedrus_vc1_buffer) (fwd_buf bwd_buf : Option Nat) :
    (setup_picinterlace R V slice store fwd_buf bwd_buf) % 4294967296 &&& R.VE_DEC_VC1_PICINTERLACE_BWD_INTERLACE =
      (if (buf_flag store bwd_buf cedrus_vc1_buffer.interlaced ||
          (bwd_buf.isNone && !setup_progressive slice.picture_layer)) then
        R.VE_DEC_VC1_PICINTERLACE_BWD_INTERLACE else 0) := by
  obtain ⟨hw, hne, hd, hlt⟩ := h
  have lt : R.VE_DEC_VC1_PICINTERLACE_BWD_INTERLACE < 4294967296 := hlt _ (by simp)
  have a9 : R.VE_DEC_VC1_PICINTERLACE_FIELDTX_RAW &&& R.VE_DEC_VC1_PICINTERLACE_BWD_INTERLACE = 0 :=
    pairwise_disjoint_at hd 9 15 (by simp) (by simp) (by decide)
  have a0 : ∀ x, R.VE_DEC_VC1_PICINTERLACE_DMVRANGE x &&& R.VE_DEC_VC1_PICINTERLACE_BWD_INTERLACE = 0 :=
    fun x => avoid_of_within (hw (_, M.dmvrange) (by simp) x)
      (pairwise_disjoint_at hd 0 15 (by simp) (by simp) (by decide))
  have a10 : R.VE_DEC_VC1_PICINTERLACE_4MVSWITCH &&& R.VE_DEC_VC1_PICINTERLACE_BWD_INTERLACE = 0 :=
    pairwise_disjoint_at hd 10 15 (by simp) (by simp) (by decide)
  have a1 : ∀ x, R.VE_DEC_VC1_PICINTERLACE_MBMODETAB x &&& R.VE_DEC_VC1_PICINTERLACE_BWD_INTERLACE = 0 :=
    fun x => avoid_of_within (hw (_, M.mbmodetab) (by simp) x)
      (pairwise_disjoint_at hd 1 15 (by simp) (by simp) (by decide))
  have a2 : ∀ x, R.VE_DEC_VC1_PICINTERLACE_IMVTAB x &&& R.VE_DEC_VC1_PICINTERLACE_BWD_INTERLACE = 0 :=
    fun x => avoid_of_within (hw (_, M.imvtab) (by simp) x)
      (pairwise_disjoint_at hd 2 15 (by simp) (by simp) (by decide))
  have a3 : ∀ x, R.VE_DEC_VC1_PICINTERLACE_ICBPTAB x &&& R.VE_DEC_VC1_PICINTERLACE_BWD_INTERLACE = 0 :=
    fun x => avoid_of_within (hw (_, M.icbptab) (by simp) x)
      (pairwise_disjoint_at hd 3 15 (by simp) (by simp) (by decide))
  have a11 : R.VE_DEC_VC1_PICINTERLACE_INTENCOMP &&& R.VE_DEC_VC1_PICINTERLACE_BWD_INTERLACE = 0 :=
    pairwise_disjoint_at hd 11 15 (by simp) (by simp) (by decide)
  have a4 : ∀ x, R.VE_DEC_VC1_PICINTERLACE_2MVBPTAB x &&& R.VE_DEC_VC1_PICINTERLACE_BWD_INTERLACE = 0 :=
    fun x => avoid_of_within (hw (_, M.twomvbptab) (by simp) x)
      (pairwise_disjoint_at hd 4 15 (by simp) (by simp) (by decide))
  have a5 : ∀ x, R.VE_DEC_VC1_PICINTERLACE_4MVBPTAB x &&& R.VE_DEC_VC1_PICINTERLACE_BWD_INTERLACE = 0 :=
    fun x => avoid_of_within (hw (_, M.fourmvbptab) (by simp) x)
      (pairwise_disjoint_at hd 5 15 (by simp) (by simp) (by decide))
  have a6 : ∀ x, R.VE_DEC_VC1_PICINTERLACE_FRFD x &&& R.VE_DEC_VC1_PICINTERLACE_BWD_INTERLACE = 0 :=
    fun x => avoid_of_within (hw (_, M.frfd) (by simp) x)
      (pairwise_disjoint_at hd 6 15 (by simp) (by simp) (by decide))
  have a7 : ∀ x, R.VE_DEC_VC1_PICINTERLACE_BRFD x &&& R.VE_DEC_VC1_PICINTERLACE_BWD_INTERLACE = 0 :=
    fun x => avoid_of_within (hw (_, M.brfd) (by simp) x)
      (pairwise_disjoint_at hd 7 15 (by simp) (by simp) (by decide))
  have a12 : R.VE_DEC_VC1_PICINTERLACE_REFFIELD &&& R.VE_DEC_VC1_PICINTERLACE_BWD_INTERLACE = 0 :=
    pairwise_disjoint_at hd 12 15 (by simp) (by simp) (by decide)
  have a8 : ∀ x, R.VE_DEC_VC1_PICINTERLACE_INTENCOMPFLD x &&& R.VE_DEC_VC1_PICINTERLACE_BWD_INTERLACE = 0 :=
    fun x => avoid_of_within (hw (_, M.intencompfld) (by simp) x)
      (pairwise_disjoint_at hd 8 15 (by simp) (by simp) (by decide))
  have a13 : R.VE_DEC_VC1_PICINTERLACE_FORWARD_RAW &&& R.VE_DEC_VC1_PICINTERLACE_BWD_INTERLACE = 0 :=
    pairwise_disjoint_at hd 13 15 (by simp) (by simp) (by decide)
  have a14 : R.VE_DEC_VC1_PICINTERLACE_FWD_INTERLACE &&& R.VE_DEC_VC1_PICINTERLACE_BWD_INTERLACE = 0 :=
    pairwise_disjoint_at hd 14 15 (by simp) (by simp) (by decide)
  have a16 : R.VE_DEC_VC1_PICINTERLACE_NUMREF &&& R.VE_DEC_VC1_PICINTERLACE_BWD_INTERLACE = 0 :=
    pairwise_disjoint_at hd 16 15 (by simp) (by simp) (by decide)
  rw [mod_land_of_lt _ _ lt]
  simp only [setup_picinterlace, land_lor_distrib_right, or_if_land, a9, a0, a10, a1, a2, a3,
    a11, a4, a5, a6, a7, a12, a8, a13, a14, a16, Nat.or_zero, Nat.zero_or, Nat.and_self,
    Nat.zero_and, ite_self]

/-- The bottom-field bits of the picture-control register value. -/
theorem setup_picctrl_land_bottom_field (R : CedrusRegs) (V : V4L2Flags) (M : PICCTRL_masks)
    (h : PICCTRL_layout R M) (slice : v4l2_ctrl_vc1_slice_params)
    (bitplanes : Option v4l2_ctrl_vc1_bitplanes) (store : Nat → cedrus_vc1_buffer)
    (fwd_buf bwd_buf : Option Nat) :
    (setup_picctrl R V slice bitplanes store fwd_buf bwd_buf) % 4294967296 &&& R.VE_DEC_VC1_PICCTRL_BOTTOM_FIELD =
      (if (!setup_progressive slice.picture_layer &&
          !(xor (setup_top_field_first V slice.picture_layer)
            (setup_second_field V slice.picture_layer))) then
        R.VE_DEC_VC1_PICCTRL_BOTTOM_FIELD else 0) := by
  obtain ⟨hw, hne, hd, hlt⟩ := h
  have lt : R.VE_DEC_VC1_PICCTRL_BOTTOM_FIELD < 4294967296 := hlt _ (by simp)
  have a0 : ∀ x, R.VE_DEC_VC1_PICCTRL_PTYPE x &&& R.VE_DEC_VC1_PICCTRL_BOTTOM_FIELD = 0 :=
    fun x => avoid_of_within (hw (_, M.ptype) (by simp) x)
      (pairwise_disjoint_at hd 0 7 (by simp) (by simp) (by decide))
  have a1 : ∀ x, R.VE_DEC_VC1_PICCTRL_FCM x &&& R.VE_DEC_VC1_PICCTRL_BOTTOM_FIELD = 0 :=
    fun x => avoid_of_within (hw (_, M.fcm) (by simp) x)
      (pairwise_disjoint_at hd 1 7 (by simp) (by simp) (by decide))
  have a8 : R.VE_DEC_VC1_PICCTRL_SECOND_FIELD &&& R.VE_DEC_VC1_PICCTRL_BOTTOM_FIELD = 0 :=
    pairwise_disjoint_at hd 8 7 (by simp) (by simp) (by decide)
  have a9 : R.VE_DEC_VC1_PICCTRL_RANGEREDFRM &&& R.VE_DEC_VC1_PICCTRL_BOTTOM_FIELD = 0 :=
    pairwise_disjoint_at hd 9 7 (by simp) (by simp) (by decide)
  have a10 : R.VE_DEC_VC1_PICCTRL_FWD_RANGEREDFRM &&& R.VE_DEC_VC1_PICCTRL_BOTTOM_FIELD = 0 :=
    pairwise_disjoint_at hd 10 7 (by simp) (by simp) (by decide)
  have a11 : R.VE_DEC_VC1_PICCTRL_BWD_RANGEREDFRM &&& R.VE_DEC_VC1_PICCTRL_BOTTOM_FIELD = 0 :=
    pairwise_disjoint_at hd 11 7 (by simp) (by simp) (by decide)
  have a2 : ∀ x, R.VE_DEC_VC1_PICCTRL_TRANSACFRM x &&& R.VE_DEC_VC1_PICCTRL_BOTTOM_FIELD = 0 :=
    fun x => avoid_of_within (hw (_, M.transacfrm) (by simp) x)
      (pairwise_disjoint_at hd 2 7 (by simp) (by simp) (by decide))
  have a3 : ∀ x, R.VE_DEC_VC1_PICCTRL_TRANSACFRM2 x &&& R.VE_DEC_VC1_PICCTRL_BOTTOM_FIELD = 0 :=
    fun x => avoid_of_within (hw (_, M.transacfrm2) (by simp) x)
      (pairwise_disjoint_at hd 3 7 (by simp) (by simp) (by decide))
  have a12 : R.VE_DEC_VC1_PICCTRL_TRANSDCTAB &&& R.VE_DEC_VC1_PICCTRL_BOTTOM_FIELD = 0 :=
    pairwise_disjoint_at hd 12 7 (by simp) (by simp) (by decide)
  have a13 : R.VE_DEC_VC1_PICCTRL_RNDCTRL &&& R.VE_DEC_VC1_PICCTRL_BOTTOM_FIELD = 0 :=
    pairwise_disjoint_at hd 13 7 (by simp) (by simp) (by decide)
  have a4 : ∀ x, R.VE_DEC_VC1_PICCTRL_CONDOVER x &&& R.VE_DEC_VC1_PICCTRL_BOTTOM_FIELD = 0 :=
    fun x => avoid_of_within (hw (_, M.condover) (by simp) x)
      (pairwise_disjoint_at hd 4 7 (by simp) (by simp) (by decide))
  have a14 : R.VE_DEC_VC1_PICCTRL_OVERFLAGS_RAW &&& R.VE_DEC_VC1_PICCTRL_BOTTOM_FIELD = 0 :=
    pairwise_disjoint_at hd 14 7 (by simp) (by simp) (by decide)
  have a5 : ∀ x, R.VE_DEC_VC1_PICCTRL_CBPTAB x &&& R.VE_DEC_VC1_PICCTRL_BOTTOM_FIELD = 0 :=
    fun x => avoid_of_within (hw (_, M.cbptab) (by simp) x)
      (pairwise_disjoint_at hd 5 7 (by simp) (by simp) (by decide))
  have a15 : R.VE_DEC_VC1_PICCTRL_SKIPMB_RAW &&& R.VE_DEC_VC1_PICCTRL_BOTTOM_FIELD = 0 :=
    pairwise_disjoint_at hd 15 7 (by simp) (by simp) (by decide)
  have a16 : R.VE_DEC_VC1_PICCTRL_TTMBF &&& R.VE_DEC_VC1_PICCTRL_BOTTOM_FIELD = 0 :=
    pairwise_disjoint_at hd 16 7 (by simp) (by simp) (by decide)
  have a6 : ∀ x, R.VE_DEC_VC1_PICCTRL_TTFRM x &&& R.VE_DEC_VC1_PICCTRL_BOTTOM_FIELD = 0 :=
    fun x => avoid_of_within (hw (_, M.ttfrm) (by simp) x)
      (pairwise_disjoint_at hd 6 7 (by simp) (by simp) (by decide))
  have a17 : R.VE_DEC_VC1_PICCTRL_DIRECTMB_RAW &&& R.VE_DEC_VC1_PICCTRL_BOTTOM_FIELD = 0 :=
    pairwise_disjoint_at hd 17 7 (by simp) (by simp) (by decide)
  have a18 : R.VE_DEC_VC1_PICCTRL_DIRECT_REF_INTRA &&& R.VE_DEC_VC1_PICCTRL_BOTTOM_FIELD = 0 :=
    pairwise_disjoint_at hd 18 7 (by simp) (by simp) (by decide)
  have a19 : R.VE_DEC_VC1_PICCTRL_BITPL_CODING &&& R.VE_DEC_VC1_PICCTRL_BOTTOM_FIELD = 0 :=
    pairwise_disjoint_at hd 19 7 (by simp) (by simp) (by decide)
  rw [mod_land_of_lt _ _ lt]
  simp only [setup_picctrl, land_lor_distrib_right, or_if_land, a0, a1, a8, a9, a10, a11, a2, a3,
    a12, a13, a4, a14, a5, a15, a16, a6, a17, a18, a19, Nat.or_zero, Nat.zero_or, Nat.and_self,
    Nat.zero_and, ite_self]

theorem example_PICCTRL_layout : PICCTRL_layout example_regs example_PICCTRL_masks := by
  refine ⟨?_, ?_, ?_, ?_⟩
  · intro p hp x
    simp only [List.mem_cons, List.mem_singleton, List.not_mem_nil, or_false] at hp
    rcases hp with rfl | rfl | rfl | rfl | rfl | rfl | rfl <;> exact SHIFT_AND_MASK_BITS_within _ _ x
  · decide
  · decide
  · decide

theorem example_PICMV_layout : PICMV_layout example_regs example_PICMV_masks := by
  refine ⟨?_, ?_, ?_, ?_⟩
  · intro p hp x
    simp only [List.mem_cons, List.mem_singleton, List.not_mem_nil, or_false] at hp
    rcases hp with rfl | rfl | rfl | rfl <;> exact SHIFT_AND_MASK_BITS_within _ _ x
  · decide
  · decide
  · decide

theorem example_PICINTERLACE_layout : PICINTERLACE_layout example_regs example_PICINTERLACE_masks := by
  refine ⟨?_, ?_, ?_, ?_⟩
  · intro p hp x
    simp only [List.mem_cons, List.mem_singleton, List.not_mem_nil, or_false] at hp
    rcases hp with rfl | rfl | rfl | rfl | rfl | rfl | rfl | rfl | rfl <;> exact SHIFT_AND_MASK_BITS_within _ _ x
  · decide
  · decide
  · decide

/-! ### Arithmetic of the reference distances -/

theorem get_fraction_le (index : Nat) : cedrus_vc1_get_fraction index ≤ 255 := by
  by_cases h : index ≥ vc1_fractions.length
  · simp [cedrus_vc1_get_fraction, h]
  · have hl : vc1_fractions.length = 23 := by decide
    have hi : index < 23 := by omega
    interval_cases index <;> decide

theorem to_s32_to_u32 (i : Int) (h1 : -2147483648 ≤ i) (h2 : i < 2147483648) :
    to_s32 (to_u32 i) = i := by
  unfold to_s32 to_u32
  split <;> omega

theorem to_u32_of_small (i : Int) (h1 : 0 ≤ i) (h2 : i < 4294967296) :
    to_u32 i = i.toNat := by
  unfold to_u32
  omega

theorem spec_forward_le (picture : v4l2_vc1_picture_layer) :
    spec_forward_distance picture ≤ picture.refdist := by
  unfold spec_forward_distance
  split
  · have h := get_fraction_le picture.bfraction
    have hp : cedrus_vc1_get_fraction picture.bfraction * picture.refdist ≤
        255 * picture.refdist := Nat.mul_le_mul_right _ h
    rw [Nat.shiftRight_eq_div_pow]
    omega
  · exact Nat.le_refl _

theorem setup_frfd_unclamped_eq (picture : v4l2_vc1_picture_layer)
    (h : picture.refdist < 256) :
    setup_frfd_unclamped picture = spec_forward_distance picture := by
  unfold setup_frfd_unclamped spec_forward_distance setup_bfraction
  by_cases hb : picture.ptype = VC1_PICTURE_TYPE_B
  · have hf := get_fraction_le picture.bfraction
    have hp : cedrus_vc1_get_fraction picture.bfraction * picture.refdist ≤
        255 * picture.refdist := Nat.mul_le_mul_right _ hf
    have hm : cedrus_vc1_get_fraction picture.bfraction * picture.refdist % 4294967296 =
        cedrus_vc1_get_fraction picture.bfraction * picture.refdist :=
      Nat.mod_eq_of_lt (by omega)
    simp [hb, hm]
  · have hm : picture.refdist % 4294967296 = picture.refdist := Nat.mod_eq_of_lt (by omega)
    simp [hb, hm]

theorem setup_brfd_unclamped_eq (picture : v4l2_vc1_picture_layer)
    (h : picture.refdist < 256) :
    setup_brfd_unclamped picture = spec_backward_distance picture := by
  unfold setup_brfd_unclamped spec_backward_distance
  rw [setup_frfd_unclamped_eq picture h]
  have hle := spec_forward_le picture
  exact to_s32_to_u32 _ (by omega) (by omega)

theorem setup_frfd_eq (picture : v4l2_vc1_picture_layer) (h : picture.refdist < 256) :
    setup_frfd picture = min (spec_forward_distance picture) 3 := by
  unfold setup_frfd
  rw [setup_frfd_unclamped_eq picture h]
  split <;> omega

theorem setup_brfd_eq (picture : v4l2_vc1_picture_layer) (h : picture.refdist < 256) :
    setup_brfd picture = clamp (spec_backward_distance picture) 0 3 := by
  unfold setup_brfd clamp
  rw [setup_brfd_unclamped_eq picture h]

theorem clamp_bounds (x : Int) : 0 ≤ clamp x 0 3 ∧ clamp x 0 3 ≤ 3 := by
  unfold clamp
  split
  · omega
  · split <;> omega

/-! ### The reference distances -/

/-- C1: for every picture type, every `refdist` from 0 to 255 and every
B-fraction code, `cedrus_vc1_setup` writes into the interlace register the
forward distance `min(f, 3)` and the backward distance
`clamp(refdist - f - 1, 0, 3)`, where the unclamped `f` is
`(cedrus_vc1_get_fraction(bfraction) * refdist) >> 8` for a B picture and
`refdist` otherwise; the backward distance comes from the unclamped `f`.  So
the forward distance is at most 3 and the backward distance is from 0 to 3. -/
theorem setup_reference_distances (R : CedrusRegs) (V : V4L2Flags) (E : Extern)
    (ctx : cedrus_ctx) (run : cedrus_run) (bufs : Nat → cedrus_vc1_buffer)
    (M : PICINTERLACE_masks) (h : PICINTERLACE_layout R M)
    (hrefdist : run.slice_params.picture_layer.refdist < 256) :
    ∃ v, (cedrus_vc1_setup R V E ctx run bufs).ops.get? 18 =
        some (hw_op.write R.VE_DEC_VC1_PICINTERLACE v) ∧
      v &&& M.frfd = R.VE_DEC_VC1_PICINTERLACE_FRFD
        (min (spec_forward_distance run.slice_params.picture_layer) 3) ∧
      v &&& M.brfd = R.VE_DEC_VC1_PICINTERLACE_BRFD
        (clamp (spec_backward_distance run.slice_params.picture_layer) 0 3).toNat ∧
      setup_frfd run.slice_params.picture_layer =
        min (spec_forward_distance run.slice_params.picture_layer) 3 ∧
      setup_brfd run.slice_params.picture_layer =
        clamp (spec_backward_distance run.slice_params.picture_layer) 0 3 ∧
      min (spec_forward_distance run.slice_params.picture_layer) 3 ≤ 3 ∧
      0 ≤ clamp (spec_backward_distance run.slice_params.picture_layer) 0 3 ∧
      clamp (spec_backward_distance run.slice_params.picture_layer) 0 3 ≤ 3 := by
  have hb := clamp_bounds (spec_backward_distance run.slice_params.picture_layer)
  refine ⟨_, rfl, ?_, ?_, setup_frfd_eq _ hrefdist, setup_brfd_eq _ hrefdist,
    Nat.min_le_right _ _, hb.1, hb.2⟩
  · rw [setup_picinterlace_land_frfd R V M h, setup_frfd_eq _ hrefdist]
  · rw [setup_picinterlace_land_brfd R V M h, setup_brfd_eq _ hrefdist,
      to_u32_of_small _ hb.1 (by omega)]

/-- C2: for every `refdist` from 0 to 255 and every B-fraction code, if
neither clamp triggers (the unclamped forward distance is at most 3 and the
unclamped backward distance is from 0 to 3), the forward and backward
distances written by `cedrus_vc1_setup` add up: forward + backward + 1 =
`refdist`. -/
theorem setup_distances_sum (R : CedrusRegs) (V : V4L2Flags) (E : Extern)
    (ctx : cedrus_ctx) (run : cedrus_run) (bufs : Nat → cedrus_vc1_buffer)
    (M : PICINTERLACE_masks) (h : PICINTERLACE_layout R M)
    (hrefdist : run.slice_params.picture_layer.refdist < 256)
    (hf : spec_forward_distance run.slice_params.picture_layer ≤ 3)
    (hb0 : 0 ≤ spec_backward_distance run.slice_params.picture_layer)
    (hb3 : spec_backward_distance run.slice_params.picture_layer ≤ 3) :
    ∃ v, (cedrus_vc1_setup R V E ctx run bufs).ops.get? 18 =
        some (hw_op.write R.VE_DEC_VC1_PICINTERLACE v) ∧
      v &&& M.frfd =
        R.VE_DEC_VC1_PICINTERLACE_FRFD (setup_frfd run.slice_params.picture_layer) ∧
      v &&& M.brfd =
        R.VE_DEC_VC1_PICINTERLACE_BRFD (setup_brfd run.slice_params.picture_layer).toNat ∧
      (setup_frfd run.slice_params.picture_layer : Int) +
        setup_brfd run.slice_params.picture_layer + 1 =
        (run.slice_params.picture_layer.refdist : Int) := by
  have hb := clamp_bounds (spec_backward_distance run.slice_params.picture_layer)
  have e1 := setup_frfd_eq _ hrefdist
  have e2 := setup_brfd_eq _ hrefdist
  refine ⟨_, rfl, ?_, ?_, ?_⟩
  · rw [setup_picinterlace_land_frfd R V M h]
  · rw [setup_picinterlace_land_brfd R V M h, e2, to_u32_of_small _ hb.1 (by omega)]
  · rw [e1, e2]
    unfold clamp spec_backward_distance at *
    rw [if_neg (by omega), if_neg (by omega)]
    omega

/-! ### The motion-vector register -/

theorem flag_set_of_ite (c : Bool) (x F : Nat) (hF : F ≠ 0)
    (hx : x &&& F = if c then F else 0) : flag_set x F = c := by
  unfold flag_set
  rw [hx]
  cases c <;> simp [hF]

theorem setup_record_attrs_compen (V : V4L2Flags) (picture : v4l2_vc1_picture_layer)
    (bufs : Nat → cedrus_vc1_buffer) (dst f : Nat) :
    (setup_record_attrs V picture bufs dst f).compen = (bufs f).compen := by
  unfold setup_record_attrs set_buf
  by_cases hfd : f = dst
  · simp [hfd]
  · simp [hfd]

theorem setup_mvmode_eq (picture : v4l2_vc1_picture_layer) :
    setup_mvmode picture = spec_effective_mvmode picture := by
  unfold setup_mvmode spec_effective_mvmode
  simp

theorem vc1_mvmode_map_lookup_eq (m : Nat) :
    vc1_mvmode_map_lookup m = vc1_mvmode_map.getD (m &&& 3) 0 := by
  unfold vc1_mvmode_map_lookup
  rw [List.getD_eq_getElem _ _ (Nat.lt_succ_of_le Nat.and_le_right)]
  rfl

/-- C4: for every B-fraction code, in the table or out of range,
`cedrus_vc1_setup` sets the less-than-half flag of the motion-vector register
exactly when the resolved fraction `cedrus_vc1_get_fraction code` is below 128,
the scaled value of 1/2. -/
theorem picmv_less_than_half_iff (R : CedrusRegs) (V : V4L2Flags) (E : Extern)
    (ctx : cedrus_ctx) (run : cedrus_run) (bufs : Nat → cedrus_vc1_buffer)
    (M : PICMV_masks) (h : PICMV_layout R M) :
    ∃ v, (cedrus_vc1_setup R V E ctx run bufs).ops.get? 16 =
        some (hw_op.write R.VE_DEC_VC1_PICMV v) ∧
      (flag_set v R.VE_DEC_VC1_PICMV_BFRAC_LESS_THAN_HALF = true ↔
        cedrus_vc1_get_fraction run.slice_params.picture_layer.bfraction < 128) ∧
      FRACTION 1 2 = 128 := by
  have ne : R.VE_DEC_VC1_PICMV_BFRAC_LESS_THAN_HALF ≠ 0 := h.2.1 _ (by simp)
  refine ⟨_, rfl, ?_, by decide⟩
  rw [flag_set_of_ite _ _ _ ne (setup_picmv_land_less_than_half R V M h _ _ _)]
  have hhalf : FRACTION 1 2 = 128 := by decide
  simp [setup_bfraction, hhalf]

/-- C5: `cedrus_vc1_setup` enables intensity compensation in the
motion-vector register, for a B picture, exactly when the forward reference
is found and its stored compensation flag is set (never when the reference is
absent), and for every other picture type exactly when the picture's own
intensity-compensation flag bit is set, whatever the references are. -/
theorem intensity_comp_enable (R : CedrusRegs) (V : V4L2Flags) (E : Extern)
    (ctx : cedrus_ctx) (run : cedrus_run) (bufs : Nat → cedrus_vc1_buffer)
    (M : PICMV_masks) (h : PICMV_layout R M) :
    ∃ v, (cedrus_vc1_setup R V E ctx run bufs).ops.get? 16 =
        some (hw_op.write R.VE_DEC_VC1_PICMV v) ∧
      flag_set v R.VE_DEC_VC1_PICMV_INTENSITY_COMP_EN =
        if run.slice_params.picture_layer.ptype = VC1_PICTURE_TYPE_B then
          (match E.vb2_find_buffer run.slice_params.forward_ref_ts with
           | some f => (bufs f).compen
           | none => false)
        else
          flag_set run.slice_params.picture_layer.flags
            V.V4L2_VC1_PICTURE_LAYER_FLAG_INTCOMP := by
  have ne : R.VE_DEC_VC1_PICMV_INTENSITY_COMP_EN ≠ 0 := h.2.1 _ (by simp)
  refine ⟨_, rfl, ?_⟩
  rw [flag_set_of_ite _ _ _ ne (setup_picmv_land_intensity_comp_en R V M h _ _ _)]
  unfold setup_intensity_comp_cond
  by_cases hb : run.slice_params.picture_layer.ptype = VC1_PICTURE_TYPE_B
  · cases hfind : E.vb2_find_buffer run.slice_params.forward_ref_ts with
    | none => simp [hb, buf_flag]
    | some f => simp [hb, buf_flag, setup_record_attrs_compen]
  · have hb' : (run.slice_params.picture_layer.ptype == VC1_PICTURE_TYPE_B) = false := by
      simpa using hb
    simp [hb, hb', bne]

/-- C8: the motion-vector mode field written by `cedrus_vc1_setup` is
`vc1_mvmode_map[m & 3]`, the table being 3, 0, 2, 1, where the effective mode
`m` is `mvmode2` when the picture type is P and `mvmode` is 4 (intensity
compensation), and is `mvmode` in every other case. -/
theorem mvmode_field (R : CedrusRegs) (V : V4L2Flags) (E : Extern)
    (ctx : cedrus_ctx) (run : cedrus_run) (bufs : Nat → cedrus_vc1_buffer)
    (M : PICMV_masks) (h : PICMV_layout R M) :
    ∃ v, (cedrus_vc1_setup R V E ctx run bufs).ops.get? 16 =
        some (hw_op.write R.VE_DEC_VC1_PICMV v) ∧
      v &&& M.mvmode = R.VE_DEC_VC1_PICMV_MVMODE
        (vc1_mvmode_map.getD (spec_effective_mvmode run.slice_params.picture_layer &&& 3) 0) ∧
      vc1_mvmode_map = [3, 0, 2, 1] ∧
      VC1_PICTURE_TYPE_P = 1 ∧ VC1_MVMODE_INTENSITY_COMP = 4 := by
  refine ⟨_, rfl, ?_, rfl, rfl, rfl⟩
  rw [setup_picmv_land_mvmode R V M h, setup_mvmode_eq, vc1_mvmode_map_lookup_eq]

/-- C6: after `cedrus_vc1_setup` the compensation flag stored on the
destination buffer is, for a P picture, whether intensity compensation was
enabled in the motion-vector register for this frame (which is whether the
picture's own flag bit is set); for an I picture, false; for every other
picture type, the value stored before.  An I frame armed after any frame, in
particular after a P frame with compensation, stores false. -/
theorem output_compensation_flag (R : CedrusRegs) (V : V4L2Flags) (E : Extern)
    (ctx : cedrus_ctx) (run : cedrus_run) (bufs : Nat → cedrus_vc1_buffer)
    (M : PICMV_masks) (h : PICMV_layout R M) :
    ∃ v, (cedrus_vc1_setup R V E ctx run bufs).ops.get? 16 =
        some (hw_op.write R.VE_DEC_VC1_PICMV v) ∧
      ((cedrus_vc1_setup R V E ctx run bufs).bufs run.dst).compen =
        (if run.slice_params.picture_layer.ptype = VC1_PICTURE_TYPE_P then
          flag_set v R.VE_DEC_VC1_PICMV_INTENSITY_COMP_EN
        else if run.slice_params.picture_layer.ptype = VC1_PICTURE_TYPE_I then false
        else (bufs run.dst).compen) ∧
      (run.slice_params.picture_layer.ptype = VC1_PICTURE_TYPE_P →
        ((cedrus_vc1_setup R V E ctx run bufs).bufs run.dst).compen =
          flag_set run.slice_params.picture_layer.flags
            V.V4L2_VC1_PICTURE_LAYER_FLAG_INTCOMP) ∧
      (∀ (ctx' : cedrus_ctx) (next : cedrus_run),
        next.slice_params.picture_layer.ptype = VC1_PICTURE_TYPE_I →
        ((cedrus_vc1_setup R V E ctx' next
          (cedrus_vc1_setup R V E ctx run bufs).bufs).bufs next.dst).compen = false) := by
  have ne : R.VE_DEC_VC1_PICMV_INTENSITY_COMP_EN ≠ 0 := h.2.1 _ (by simp)
  have hI : ∀ (ctx' : cedrus_ctx) (next : cedrus_run) (store : Nat → cedrus_vc1_buffer),
      next.slice_params.picture_layer.ptype = VC1_PICTURE_TYPE_I →
      ((cedrus_vc1_setup R V E ctx' next store).bufs next.dst).compen = false := by
    intro ctx' next store hi
    have hnp : ¬ (VC1_PICTURE_TYPE_I = VC1_PICTURE_TYPE_P) := by decide
    simp [cedrus_vc1_setup, setup_record_compen, set_buf, hi, hnp]
  have hP : run.slice_params.picture_layer.ptype = VC1_PICTURE_TYPE_P →
      ((cedrus_vc1_setup R V E ctx run bufs).bufs run.dst).compen =
        setup_intensity_comp_cond V run.slice_params.picture_layer
          (setup_record_attrs V run.slice_params.picture_layer bufs run.dst)
          (E.vb2_find_buffer run.slice_params.forward_ref_ts) := by
    intro hp
    simp only [cedrus_vc1_setup, setup_record_compen, set_buf, hp, beq_self_eq_true, if_true]
    exact flag_set_of_ite _ _ _ ne (setup_picmv_head_land_intensity_comp_en R V M h _ _ _)
  refine ⟨_, rfl, ?_, ?_, fun ctx' next hi => hI ctx' next _ hi⟩
  · rw [flag_set_of_ite _ _ _ ne (setup_picmv_land_intensity_comp_en R V M h _ _ _)]
    by_cases hp : run.slice_params.picture_layer.ptype = VC1_PICTURE_TYPE_P
    · rw [if_pos hp]
      exact hP hp
    · rw [if_neg hp]
      by_cases hi : run.slice_params.picture_layer.ptype = VC1_PICTURE_TYPE_I
      · rw [if_pos hi]
        exact hI ctx run bufs hi
      · rw [if_neg hi]
        simp [cedrus_vc1_setup, setup_record_compen, set_buf, hp, hi, setup_record_attrs]
  · intro hp
    rw [hP hp]
    have hnb : (VC1_PICTURE_TYPE_P == VC1_PICTURE_TYPE_B) = false := by decide
    simp [setup_intensity_comp_cond, hp, hnb, bne]

/-! ### The reference-interlace flags -/

theorem setup_bufs_interlaced_dst (R : CedrusRegs) (V : V4L2Flags) (E : Extern)
    (ctx : cedrus_ctx) (run : cedrus_run) (bufs : Nat → cedrus_vc1_buffer) :
    ((cedrus_vc1_setup R V E ctx run bufs).bufs run.dst).interlaced =
      !setup_progressive run.slice_params.picture_layer := by
  simp only [cedrus_vc1_setup, setup_record_compen, setup_record_attrs]
  split
  · simp [set_buf]
  · split <;> simp [set_buf]

theorem setup_bufs_interlaced_other (R : CedrusRegs) (V : V4L2Flags) (E : Extern)
    (ctx : cedrus_ctx) (run : cedrus_run) (bufs : Nat → cedrus_vc1_buffer) (f : Nat)
    (hf : f ≠ run.dst) :
    ((cedrus_vc1_setup R V E ctx run bufs).bufs f).interlaced = (bufs f).interlaced := by
  simp only [cedrus_vc1_setup, setup_record_compen, setup_record_attrs]
  split
  · simp [set_buf, hf]
  · split <;> simp [set_buf, hf]

theorem not_progressive_eq (picture : v4l2_vc1_picture_layer) :
    (!setup_progressive picture) = decide (picture.fcm ≠ VC1_FCM_PROGRESSIVE) := by
  unfold setup_progressive
  by_cases hp : picture.fcm = VC1_FCM_PROGRESSIVE
  · simp [hp]
  · have hp' : (picture.fcm == VC1_FCM_PROGRESSIVE) = false := by simpa using hp
    simp [hp, hp']

theorem interlace_cond_eq (store : Nat → cedrus_vc1_buffer) (buf : Option Nat) (p : Bool) :
    (buf_flag store buf cedrus_vc1_buffer.interlaced || (buf.isNone && !p)) =
      (match buf with
       | some f => (store f).interlaced
       | none => !p) := by
  cases buf <;> simp [buf_flag]

/-- C7: for the forward and the backward direction independently,
`cedrus_vc1_setup` sets the reference-interlace flag of the interlace register
to the interlaced flag stored on the reference buffer when the reference is
found, and to the current frame's own classification (`fcm` is not
progressive) when it is not found.  The stored flag of a reference other than
the destination buffer is the one stored before the call; the destination
buffer holds the current frame's classification. -/
theorem reference_interlace_flags (R : CedrusRegs) (V : V4L2Flags) (E : Extern)
    (ctx : cedrus_ctx) (run : cedrus_run) (bufs : Nat → cedrus_vc1_buffer)
    (M : PICINTERLACE_masks) (h : PICINTERLACE_layout R M) :
    ∃ v, (cedrus_vc1_setup R V E ctx run bufs).ops.get? 18 =
        some (hw_op.write R.VE_DEC_VC1_PICINTERLACE v) ∧
      flag_set v R.VE_DEC_VC1_PICINTERLACE_FWD_INTERLACE =
        (match E.vb2_find_buffer run.slice_params.forward_ref_ts with
         | some f => ((cedrus_vc1_setup R V E ctx run bufs).bufs f).interlaced
         | none => decide (run.slice_params.picture_layer.fcm ≠ VC1_FCM_PROGRESSIVE)) ∧
      flag_set v R.VE_DEC_VC1_PICINTERLACE_BWD_INTERLACE =
        (match E.vb2_find_buffer run.slice_params.backward_ref_ts with
         | some f => ((cedrus_vc1_setup R V E ctx run bufs).bufs f).interlaced
         | none => decide (run.slice_params.picture_layer.fcm ≠ VC1_FCM_PROGRESSIVE)) ∧
      (∀ f, f ≠ run.dst →
        ((cedrus_vc1_setup R V E ctx run bufs).bufs f).interlaced = (bufs f).interlaced) ∧
      ((cedrus_vc1_setup R V E ctx run bufs).bufs run.dst).interlaced =
        decide (run.slice_params.picture_layer.fcm ≠ VC1_FCM_PROGRESSIVE) := by
  have nf : R.VE_DEC_VC1_PICINTERLACE_FWD_INTERLACE ≠ 0 := h.2.1 _ (by simp)
  have nb : R.VE_DEC_VC1_PICINTERLACE_BWD_INTERLACE ≠ 0 := h.2.1 _ (by simp)
  have hp := not_progressive_eq run.slice_params.picture_layer
  refine ⟨_, rfl, ?_, ?_, fun f hf => setup_bufs_interlaced_other R V E ctx run bufs f hf, ?_⟩
  · rw [flag_set_of_ite _ _ _ nf (setup_picinterlace_land_fwd_interlace R V M h _ _ _ _),
      interlace_cond_eq, hp]
    rfl
  · rw [flag_set_of_ite _ _ _ nb (setup_picinterlace_land_bwd_interlace R V M h _ _ _ _),
      interlace_cond_eq, hp]
    rfl
  · rw [setup_bufs_interlaced_dst, hp]

/-! ### The picture-control register -/

/-- C10: `cedrus_vc1_setup` sets the bottom-field flag of the picture-control
register exactly when the picture is not progressive and
`top_field_first XOR second_field` is false; for a progressive picture the
flag is never set, whatever the field flags are. -/
theorem bottom_field_flag (R : CedrusRegs) (V : V4L2Flags) (E : Extern)
    (ctx : cedrus_ctx) (run : cedrus_run) (bufs : Nat → cedrus_vc1_buffer)
    (M : PICCTRL_masks) (h : PICCTRL_layout R M) :
    ∃ v, (cedrus_vc1_setup R V E ctx run bufs).ops.get? 14 =
        some (hw_op.write R.VE_DEC_VC1_PICCTRL v) ∧
      flag_set v R.VE_DEC_VC1_PICCTRL_BOTTOM_FIELD =
        (decide (run.slice_params.picture_layer.fcm ≠ VC1_FCM_PROGRESSIVE) &&
          !(xor
            (flag_set run.slice_params.picture_layer.flags V.V4L2_VC1_PICTURE_LAYER_FLAG_TFF)
            (flag_set run.slice_params.picture_layer.flags
              V.V4L2_VC1_PICTURE_LAYER_FLAG_SECOND_FIELD))) ∧
      (run.slice_params.picture_layer.fcm = VC1_FCM_PROGRESSIVE →
        flag_set v R.VE_DEC_VC1_PICCTRL_BOTTOM_FIELD = false) := by
  have ne : R.VE_DEC_VC1_PICCTRL_BOTTOM_FIELD ≠ 0 := h.2.1 _ (by simp)
  have hv := flag_set_of_ite _ _ _ ne
    (setup_picctrl_land_bottom_field R V M h run.slice_params run.bitplanes
      (setup_record_attrs V run.slice_params.picture_layer bufs run.dst)
      (E.vb2_find_buffer run.slice_params.forward_ref_ts)
      (E.vb2_find_buffer run.slice_params.backward_ref_ts))
  have hp := not_progressive_eq run.slice_params.picture_layer
  refine ⟨_, rfl, ?_, ?_⟩
  · rw [hv, hp]
    rfl
  · intro hprog
    rw [hv, hp]
    simp [hprog]

/-! ### The theorems at the example layout -/

theorem setup_reference_distances_witness :
    PICINTERLACE_layout example_regs example_PICINTERLACE_masks ∧
    (example_run (example_picture 2 0 0 4 20 0 0) 1 2 3).slice_params.picture_layer.refdist
      < 256 ∧
    ∃ v, (cedrus_vc1_setup example_regs example_flags example_extern example_ctx
          (example_run (example_picture 2 0 0 4 20 0 0) 1 2 3) example_bufs).ops.get? 18 =
        some (hw_op.write example_regs.VE_DEC_VC1_PICINTERLACE v) ∧
      v &&& example_PICINTERLACE_masks.frfd = example_regs.VE_DEC_VC1_PICINTERLACE_FRFD 3 ∧
      v &&& example_PICINTERLACE_masks.brfd = example_regs.VE_DEC_VC1_PICINTERLACE_BRFD 3 := by
  refine ⟨example_PICINTERLACE_layout, by decide, ?_⟩
  obtain ⟨v, hv, hf, hb, -⟩ := setup_reference_distances example_regs example_flags
    example_extern example_ctx (example_run (example_picture 2 0 0 4 20 0 0) 1 2 3)
    example_bufs example_PICINTERLACE_masks example_PICINTERLACE_layout (by decide)
  exact ⟨v, hv, hf.trans (by decide), hb.trans (by decide)⟩

theorem setup_distances_sum_witness :
    PICINTERLACE_layout example_regs example_PICINTERLACE_masks ∧
    (example_picture 2 0 0 0 4 0 0).refdist < 256 ∧
    spec_forward_distance (example_picture 2 0 0 0 4 0 0) ≤ 3 ∧
    0 ≤ spec_backward_distance (example_picture 2 0 0 0 4 0 0) ∧
    spec_backward_distance (example_picture 2 0 0 0 4 0 0) ≤ 3 ∧
    (setup_frfd (example_picture 2 0 0 0 4 0 0) : Int) +
      setup_brfd (example_picture 2 0 0 0 4 0 0) + 1 = 4 := by
  refine ⟨example_PICINTERLACE_layout, by decide, by decide, by decide, by decide, ?_⟩
  obtain ⟨v, -, -, -, hs⟩ := setup_distances_sum example_regs example_flags
    example_extern example_ctx (example_run (example_picture 2 0 0 0 4 0 0) 1 2 3)
    example_bufs example_PICINTERLACE_masks example_PICINTERLACE_layout (by decide)
    (by decide) (by decide) (by decide)
  exact hs

theorem picmv_less_than_half_iff_witness :
    PICMV_layout example_regs example_PICMV_masks ∧
    ∃ v, (cedrus_vc1_setup example_regs example_flags example_extern example_ctx
          (example_run (example_picture 2 0 0 1 4 0 0) 1 2 3) example_bufs).ops.get? 16 =
        some (hw_op.write example_regs.VE_DEC_VC1_PICMV v) ∧
      flag_set v example_regs.VE_DEC_VC1_PICMV_BFRAC_LESS_THAN_HALF = true := by
  refine ⟨example_PICMV_layout, ?_⟩
  obtain ⟨v, hv, hiff, -⟩ := picmv_less_than_half_iff example_regs example_flags
    example_extern example_ctx (example_run (example_picture 2 0 0 1 4 0 0) 1 2 3)
    example_bufs example_PICMV_masks example_PICMV_layout
  exact ⟨v, hv, hiff.mpr (by decide)⟩

theorem intensity_comp_enable_witness :
    PICMV_layout example_regs example_PICMV_masks ∧
    ∃ v, (cedrus_vc1_setup example_regs example_flags example_extern example_ctx
          (example_run (example_picture 2 0 0 1 4 0 0) 1 2 3) example_bufs).ops.get? 16 =
        some (hw_op.write example_regs.VE_DEC_VC1_PICMV v) ∧
      flag_set v example_regs.VE_DEC_VC1_PICMV_INTENSITY_COMP_EN = true := by
  refine ⟨example_PICMV_layout, ?_⟩
  obtain ⟨v, hv, hf⟩ := intensity_comp_enable example_regs example_flags
    example_extern example_ctx (example_run (example_picture 2 0 0 1 4 0 0) 1 2 3)
    example_bufs example_PICMV_masks example_PICMV_layout
  exact ⟨v, hv, hf.trans (by decide)⟩

theorem output_compensation_flag_witness :
    PICMV_layout example_regs example_PICMV_masks ∧
    ((cedrus_vc1_setup example_regs example_flags example_extern example_ctx
        (example_run (example_picture 1 0 512 0 0 4 1) 1 0 3) example_bufs).bufs 3).compen
      = true ∧
    ((cedrus_vc1_setup example_regs example_flags example_extern example_ctx
        (example_run (example_picture 0 0 512 0 0 0 0) 0 0 2)
        (cedrus_vc1_setup example_regs example_flags example_extern example_ctx
          (example_run (example_picture 1 0 512 0 0 4 1) 1 0 3) example_bufs).bufs).bufs
        2).compen = false := by
  refine ⟨example_PICMV_layout, ?_⟩
  obtain ⟨v, -, -, hp, hi⟩ := output_compensation_flag example_regs example_flags
    example_extern example_ctx (example_run (example_picture 1 0 512 0 0 4 1) 1 0 3)
    example_bufs example_PICMV_masks example_PICMV_layout
  exact ⟨(hp rfl).trans (by decide),
    hi example_ctx (example_run (example_picture 0 0 512 0 0 0 0) 0 0 2) rfl⟩

theorem reference_interlace_flags_witness :
    PICINTERLACE_layout example_regs example_PICINTERLACE_masks ∧
    ∃ v, (cedrus_vc1_setup example_regs example_flags example_extern example_ctx
          (example_run (example_picture 0 0 0 0 0 0 0) 1 0 3) example_bufs).ops.get? 18 =
        some (hw_op.write example_regs.VE_DEC_VC1_PICINTERLACE v) ∧
      flag_set v example_regs.VE_DEC_VC1_PICINTERLACE_FWD_INTERLACE = true ∧
      flag_set v example_regs.VE_DEC_VC1_PICINTERLACE_BWD_INTERLACE = false := by
  refine ⟨example_PICINTERLACE_layout, ?_⟩
  obtain ⟨v, hv, hf, hb, -⟩ := reference_interlace_flags example_regs example_flags
    example_extern example_ctx (example_run (example_picture 0 0 0 0 0 0 0) 1 0 3)
    example_bufs example_PICINTERLACE_masks example_PICINTERLACE_layout
  exact ⟨v, hv, hf.trans (by decide), hb.trans (by decide)⟩

theorem mvmode_field_witness :
    PICMV_layout example_regs example_PICMV_masks ∧
    ∃ v, (cedrus_vc1_setup example_regs example_flags example_extern example_ctx
          (example_run (example_picture 1 0 0 0 0 4 3) 1 0 3) example_bufs).ops.get? 16 =
        some (hw_op.write example_regs.VE_DEC_VC1_PICMV v) ∧
      v &&& example_PICMV_masks.mvmode = example_regs.VE_DEC_VC1_PICMV_MVMODE 1 := by
  refine ⟨example_PICMV_layout, ?_⟩
  obtain ⟨v, hv, hm, -⟩ := mvmode_field example_regs example_flags
    example_extern example_ctx (example_run (example_picture 1 0 0 0 0 4 3) 1 0 3)
    example_bufs example_PICMV_masks example_PICMV_layout
  exact ⟨v, hv, hm.trans (by decide)⟩

theorem bottom_field_flag_witness :
    PICCTRL_layout example_regs example_PICCTRL_masks ∧
    ∃ v, (cedrus_vc1_setup example_regs example_flags example_extern example_ctx
          (example_run (example_picture 1 2 3 0 0 0 0) 1 0 3) example_bufs).ops.get? 14 =
        some (hw_op.write example_regs.VE_DEC_VC1_PICCTRL v) ∧
      flag_set v example_regs.VE_DEC_VC1_PICCTRL_BOTTOM_FIELD = true := by
  refine ⟨example_PICCTRL_layout, ?_⟩
  obtain ⟨v, hv, hf, -⟩ := bottom_field_flag example_regs example_flags
    example_extern example_ctx (example_run (example_picture 1 2 3 0 0 0 0) 1 0 3)
    example_bufs example_PICCTRL_masks example_PICCTRL_layout
  exact ⟨v, hv, hf.trans (by decide)⟩

/-! ### The same-reference-field indicator -/

/-- The same-reference-field bits of the interlace register value. -/
theorem setup_picinterlace_land_reffield (R : CedrusRegs) (V : V4L2Flags) (M : PICINTERLACE_masks)
    (h : PICINTERLACE_layout R M) (slice : v4l2_ctrl_vc1_slice_params)
    (store : Nat → cedrus_vc1_buffer) (fwd_buf bwd_buf : Option Nat) :
    (setup_picinterlace R V slice store fwd_buf bwd_buf) % 4294967296 &&& R.VE_DEC_VC1_PICINTERLACE_REFFIELD =
      (if (!(xor (setup_second_field V slice.picture_layer)
          (setup_ref_field V slice.picture_layer))) then
        R.VE_DEC_VC1_PICINTERLACE_REFFIELD else 0) := by
  obtain ⟨hw, hne, hd, hlt⟩ := h
  have lt : R.VE_DEC_VC1_PICINTERLACE_REFFIELD < 4294967296 := hlt _ (by simp)
  have a9 : R.VE_DEC_VC1_PICINTERLACE_FIELDTX_RAW &&& R.VE_DEC_VC1_PICINTERLACE_REFFIELD = 0 :=
    pairwise_disjoint_at hd 9 12 (by simp) (by simp) (by decide)
  have a0 : ∀ x, R.VE_DEC_VC1_PICINTERLACE_DMVRANGE x &&& R.VE_DEC_VC1_PICINTERLACE_REFFIELD = 0 :=
    fun x => avoid_of_within (hw (_, M.dmvrange) (by simp) x)
      (pairwise_disjoint_at hd 0 12 (by simp) (by simp) (by decide))
  have a10 : R.VE_DEC_VC1_PICINTERLACE_4MVSWITCH &&& R.VE_DEC_VC1_PICINTERLACE_REFFIELD = 0 :=
    pairwise_disjoint_at hd 10 12 (by simp) (by simp) (by decide)
  have a1 : ∀ x, R.VE_DEC_VC1_PICINTERLACE_MBMODETAB x &&& R.VE_DEC_VC1_PICINTERLACE_REFFIELD = 0 :=
    fun x => avoid_of_within (hw (_, M.mbmodetab) (by simp) x)
      (pairwise_disjoint_at hd 1 12 (by simp) (by simp) (by decide))
  have a2 : ∀ x, R.VE_DEC_VC1_PICINTERLACE_IMVTAB x &&& R.VE_DEC_VC1_PICINTERLACE_REFFIELD = 0 :=
    fun x => avoid_of_within (hw (_, M.imvtab) (by simp) x)
      (pairwise_disjoint_at hd 2 12 (by simp) (by simp) (by decide))
  have a3 : ∀ x, R.VE_DEC_VC1_PICINTERLACE_ICBPTAB x &&& R.VE_DEC_VC1_PICINTERLACE_REFFIELD = 0 :=
    fun x => avoid_of_within (hw (_, M.icbptab) (by simp) x)
      (pairwise_disjoint_at hd 3 12 (by simp) (by simp) (by decide))
  have a11 : R.VE_DEC_VC1_PICINTERLACE_INTENCOMP &&& R.VE_DEC_VC1_PICINTERLACE_REFFIELD = 0 :=
    pairwise_disjoint_at hd 11 12 (by simp) (by simp) (by decide)
  have a4 : ∀ x, R.VE_DEC_VC1_PICINTERLACE_2MVBPTAB x &&& R.VE_DEC_VC1_PICINTERLACE_REFFIELD = 0 :=
    fun x => avoid_of_within (hw (_, M.twomvbptab) (by simp) x)
      (pairwise_disjoint_at hd 4 12 (by simp) (by simp) (by decide))
  have a5 : ∀ x, R.VE_DEC_VC1_PICINTERLACE_4MVBPTAB x &&& R.VE_DEC_VC1_PICINTERLACE_REFFIELD = 0 :=
    fun x => avoid_of_within (hw (_, M.fourmvbptab) (by simp) x)
      (pairwise_disjoint_at hd 5 12 (by simp) (by simp) (by decide))
  have a6 : ∀ x, R.VE_DEC_VC1_PICINTERLACE_FRFD x &&& R.VE_DEC_VC1_PICINTERLACE_REFFIELD = 0 :=
    fun x => avoid_of_within (hw (_, M.frfd) (by simp) x)
      (pairwise_disjoint_at hd 6 12 (by simp) (by simp) (by decide))
  have a7 : ∀ x, R.VE_DEC_VC1_PICINTERLACE_BRFD x &&& R.VE_DEC_VC1_PICINTERLACE_REFFIELD = 0 :=
    fun x => avoid_of_within (hw (_, M.brfd) (by simp) x)
      (pairwise_disjoint_at hd 7 12 (by simp) (by simp) (by decide))
  have a8 : ∀ x, R.VE_DEC_VC1_PICINTERLACE_INTENCOMPFLD x &&& R.VE_DEC_VC1_PICINTERLACE_REFFIELD = 0 :=
    fun x => avoid_of_within (hw (_, M.intencompfld) (by simp) x)
      (pairwise_disjoint_at hd 8 12 (by simp) (by simp) (by decide))
  have a13 : R.VE_DEC_VC1_PICINTERLACE_FORWARD_RAW &&& R.VE_DEC_VC1_PICINTERLACE_REFFIELD = 0 :=
    pairwise_disjoint_at hd 13 12 (by simp) (by simp) (by decide)
  have a14 : R.VE_DEC_VC1_PICINTERLACE_FWD_INTERLACE &&& R.VE_DEC_VC1_PICINTERLACE_REFFIELD = 0 :=
    pairwise_disjoint_at hd 14 12 (by simp) (by simp) (by decide)
  have a15 : R.VE_DEC_VC1_PICINTERLACE_BWD_INTERLACE &&& R.VE_DEC_VC1_PICINTERLACE_REFFIELD = 0 :=
    pairwise_disjoint_at hd 15 12 (by simp) (by simp) (by decide)
  have a16 : R.VE_DEC_VC1_PICINTERLACE_NUMREF &&& R.VE_DEC_VC1_PICINTERLACE_REFFIELD = 0 :=
    pairwise_disjoint_at hd 16 12 (by simp) (by simp) (by decide)
  rw [mod_land_of_lt _ _ lt]
  simp only [setup_picinterlace, land_lor_distrib_right, or_if_land, a9, a0, a10, a1, a2, a3,
    a11, a4, a5, a6, a7, a8, a13, a14, a15, a16, Nat.or_zero, Nat.zero_or, Nat.and_self,
    Nat.zero_and, ite_self]

/-- C11: `cedrus_vc1_setup` sets the same-reference-field indicator (REFFIELD
of the interlace register) exactly when `second_field XOR ref_field` is false,
for every picture type and frame-coding mode. -/
theorem reffield_flag (R : CedrusRegs) (V : V4L2Flags) (E : Extern)
    (ctx : cedrus_ctx) (run : cedrus_run) (bufs : Nat → cedrus_vc1_buffer)
    (M : PICINTERLACE_masks) (h : PICINTERLACE_layout R M) :
    ∃ v, (cedrus_vc1_setup R V E ctx run bufs).ops.get? 18 =
        some (hw_op.write R.VE_DEC_VC1_PICINTERLACE v) ∧
      flag_set v R.VE_DEC_VC1_PICINTERLACE_REFFIELD =
        !(xor
          (flag_set run.slice_params.picture_layer.flags
            V.V4L2_VC1_PICTURE_LAYER_FLAG_SECOND_FIELD)
          (flag_set run.slice_params.picture_layer.flags
            V.V4L2_VC1_PICTURE_LAYER_FLAG_REFFIELD)) := by
  have ne : R.VE_DEC_VC1_PICINTERLACE_REFFIELD ≠ 0 := h.2.1 _ (by simp)
  refine ⟨_, rfl, ?_⟩
  rw [flag_set_of_ite _ _ _ ne (setup_picinterlace_land_reffield R V M h _ _ _ _)]
  rfl

theorem reffield_flag_witness :
    PICINTERLACE_layout example_regs example_PICINTERLACE_masks ∧
    (∃ v, (cedrus_vc1_setup example_regs example_flags example_extern example_ctx
          (example_run (example_picture 1 2 5 0 0 0 0) 1 0 3) example_bufs).ops.get? 18 =
        some (hw_op.write example_regs.VE_DEC_VC1_PICINTERLACE v) ∧
      flag_set v example_regs.VE_DEC_VC1_PICINTERLACE_REFFIELD = true) ∧
    (∃ v, (cedrus_vc1_setup example_regs example_flags example_extern example_ctx
          (example_run (example_picture 0 0 1 0 0 0 0) 1 0 3) example_bufs).ops.get? 18 =
        some (hw_op.write example_regs.VE_DEC_VC1_PICINTERLACE v) ∧
      flag_set v example_regs.VE_DEC_VC1_PICINTERLACE_REFFIELD = false) := by
  refine ⟨example_PICINTERLACE_layout, ?_, ?_⟩
  · obtain ⟨v, hv, hf⟩ := reffield_flag example_regs example_flags
      example_extern example_ctx (example_run (example_picture 1 2 5 0 0 0 0) 1 0 3)
      example_bufs example_PICINTERLACE_masks example_PICINTERLACE_layout
    exact ⟨v, hv, hf.trans (by decide)⟩
  · obtain ⟨v, hv, hf⟩ := reffield_flag example_regs example_flags
      example_extern example_ctx (example_run (example_picture 0 0 1 0 0 0 0) 1 0 3)
      example_bufs example_PICINTERLACE_masks example_PICINTERLACE_layout
    exact ⟨v, hv, hf.trans (by decide)⟩

/-! ### The interrupt status -/

theorem lor_eq_zero_iff (a b : Nat) : a ||| b = 0 ↔ a = 0 ∧ b = 0 := by
  constructor
  · intro h
    have hb : ∀ i, (a.testBit i || b.testBit i) = false := by
      intro i
      rw [← Nat.testBit_or, h, Nat.zero_testBit]
    constructor
    · apply Nat.eq_of_testBit_eq
      intro i
      have := hb i
      rw [Nat.zero_testBit]
      cases hA : a.testBit i <;> simp_all
    · apply Nat.eq_of_testBit_eq
      intro i
      have := hb i
      rw [Nat.zero_testBit]
      cases hB : b.testBit i <;> simp_all
  · rintro ⟨rfl, rfl⟩
    rfl

theorem flag_set_lor (x a b : Nat) :
    flag_set x (a ||| b) = (flag_set x a || flag_set x b) := by
  unfold flag_set
  rw [Nat.and_or_distrib_left, Bool.eq_iff_iff]
  simp only [bne_iff_ne, Bool.or_eq_true, ne_eq, lor_eq_zero_iff]
  tauto

/-- C12: for every value of the status register, `cedrus_vc1_irq_status`
returns ERROR if the error bit or the data-request bit is set, whether or not
the success bit is set as well; OK if neither of the two is set and the
success bit is set; and NONE otherwise. -/
theorem irq_status_classification (R : CedrusRegs) (regs : Nat → Nat) :
    cedrus_vc1_irq_status R regs =
      if flag_set (cedrus_read regs R.VE_DEC_VC1_STATUS) R.VE_DEC_VC1_STATUS_ERROR = true ∨
          flag_set (cedrus_read regs R.VE_DEC_VC1_STATUS) R.VE_DEC_VC1_STATUS_VLD_DATA_REQ
            = true then
        cedrus_irq_status.CEDRUS_IRQ_ERROR
      else if flag_set (cedrus_read regs R.VE_DEC_VC1_STATUS) R.VE_DEC_VC1_STATUS_SUCCESS
          = true then
        cedrus_irq_status.CEDRUS_IRQ_OK
      else
        cedrus_irq_status.CEDRUS_IRQ_NONE := by
  unfold cedrus_vc1_irq_status
  simp only [flag_set_lor, Bool.or_eq_true]

/-! ### The bitplane staging -/

theorem ite_memcpy_apply (c : Bool) (buf src : Nat → Nat) (off n i : Nat) :
    (if c = true then memcpy buf off src n else buf) i =
      if c = true ∧ off ≤ i ∧ i < off + n then src (i - off) else buf i := by
  cases c <;> simp [memcpy]

/-- C13: for every bitplane-flags word and every coded width and height,
`cedrus_vc1_bitplanes_setup` copies 1024 bytes of each plane whose flag bit is
set into the bitplane scratch region at the plane's offset (ACPRED 0x0000,
OVERFLAGS 0x0400, MVTYPEMB 0x0800, SKIPMB 0x0C00, DIRECTMB 0x1000, FIELDTX
0x1400, FORWARDMB 0x1800) and leaves every other byte as it was: the slots of
the planes whose flag is clear and every byte from 0x1C00 on. -/
theorem bitplanes_setup_copies (V : V4L2Flags) (ctx : cedrus_ctx)
    (entrypoint : v4l2_vc1_entrypoint_header) (bitplanes : v4l2_ctrl_vc1_bitplanes)
    (i : Nat) :
    (cedrus_vc1_bitplanes_setup V ctx entrypoint bitplanes).1 i =
      if i < 0x0400 then
        (if flag_set bitplanes.bitplane_flags V.V4L2_VC1_BITPLANE_FLAG_ACPRED = true then
          bitplanes.acpred i else ctx.bitplanes_buf i)
      else if i < 0x0800 then
        (if flag_set bitplanes.bitplane_flags V.V4L2_VC1_BITPLANE_FLAG_OVERFLAGS = true then
          bitplanes.overflags (i - 0x0400) else ctx.bitplanes_buf i)
      else if i < 0x0C00 then
        (if flag_set bitplanes.bitplane_flags V.V4L2_VC1_BITPLANE_FLAG_MVTYPEMB = true then
          bitplanes.mvtypemb (i - 0x0800) else ctx.bitplanes_buf i)
      else if i < 0x1000 then
        (if flag_set bitplanes.bitplane_flags V.V4L2_VC1_BITPLANE_FLAG_SKIPMB = true then
          bitplanes.skipmb (i - 0x0C00) else ctx.bitplanes_buf i)
      else if i < 0x1400 then
        (if flag_set bitplanes.bitplane_flags V.V4L2_VC1_BITPLANE_FLAG_DIRECTMB = true then
          bitplanes.directmb (i - 0x1000) else ctx.bitplanes_buf i)
      else if i < 0x1800 then
        (if flag_set bitplanes.bitplane_flags V.V4L2_VC1_BITPLANE_FLAG_FIELDTX = true then
          bitplanes.fieldtx (i - 0x1400) else ctx.bitplanes_buf i)
      else if i < 0x1C00 then
        (if flag_set bitplanes.bitplane_flags V.V4L2_VC1_BITPLANE_FLAG_FORWARDMB = true then
          bitplanes.forwardmb (i - 0x1800) else ctx.bitplanes_buf i)
      else
        ctx.bitplanes_buf i := by
  simp only [cedrus_vc1_bitplanes_setup, ite_memcpy_apply, Function.const,
    VC1_BITPLANE_OFFSET_ACPRED, VC1_BITPLANE_OFFSET_OVERFLAGS, VC1_BITPLANE_OFFSET_MVTYPEMB,
    VC1_BITPLANE_OFFSET_SKIPMB, VC1_BITPLANE_OFFSET_DIRECTMB, VC1_BITPLANE_OFFSET_FIELDTX,
    VC1_BITPLANE_OFFSET_FORWARDMB]
  have hr : i < 1024 ∨ (1024 ≤ i ∧ i < 2048) ∨ (2048 ≤ i ∧ i < 3072) ∨ (3072 ≤ i ∧ i < 4096) ∨
      (4096 ≤ i ∧ i < 5120) ∨ (5120 ≤ i ∧ i < 6144) ∨ (6144 ≤ i ∧ i < 7168) ∨ 7168 ≤ i := by
    omega
  rcases hr with h | ⟨h, h'⟩ | ⟨h, h'⟩ | ⟨h, h'⟩ | ⟨h, h'⟩ | ⟨h, h'⟩ | ⟨h, h'⟩ | h
  · have g0 : ¬ 1024 ≤ i := by omega
    have l0 : i < 1024 := by omega
    have g1 : ¬ 2048 ≤ i := by omega
    have l1 : i < 2048 := by omega
    have g2 : ¬ 3072 ≤ i := by omega
    have l2 : i < 3072 := by omega
    have g3 : ¬ 4096 ≤ i := by omega
    have l3 : i < 4096 := by omega
    have g4 : ¬ 5120 ≤ i := by omega
    have l4 : i < 5120 := by omega
    have g5 : ¬ 6144 ≤ i := by omega
    have l5 : i < 6144 := by omega
    have g6 : ¬ 7168 ≤ i := by omega
    have l6 : i < 7168 := by omega
    simp [g0, l0, g1, l1, g2, l2, g3, l3, g4, l4, g5, l5, g6, l6]
  · have g0 : 1024 ≤ i := by omega
    have l0 : ¬ i < 1024 := by omega
    have g1 : ¬ 2048 ≤ i := by omega
    have l1 : i < 2048 := by omega
    have g2 : ¬ 3072 ≤ i := by omega
    have l2 : i < 3072 := by omega
    have g3 : ¬ 4096 ≤ i := by omega
    have l3 : i < 4096 := by omega
    have g4 : ¬ 5120 ≤ i := by omega
    have l4 : i < 5120 := by omega
    have g5 : ¬ 6144 ≤ i := by omega
    have l5 : i < 6144 := by omega
    have g6 : ¬ 7168 ≤ i := by omega
    have l6 : i < 7168 := by omega
    simp [g0, l0, g1, l1, g2, l2, g3, l3, g4, l4, g5, l5, g6, l6]
  · have g0 : 1024 ≤ i := by omega
    have l0 : ¬ i < 1024 := by omega
    have g1 : 2048 ≤ i := by omega
    have l1 : ¬ i < 2048 := by omega
    have g2 : ¬ 3072 ≤ i := by omega
    have l2 : i < 3072 := by omega
    have g3 : ¬ 4096 ≤ i := by omega
    have l3 : i < 4096 := by omega
    have g4 : ¬ 5120 ≤ i := by omega
    have l4 : i < 5120 := by omega
    have g5 : ¬ 6144 ≤ i := by omega
    have l5 : i < 6144 := by omega
    have g6 : ¬ 7168 ≤ i := by omega
    have l6 : i < 7168 := by omega
    simp [g0, l0, g1, l1, g2, l2, g3, l3, g4, l4, g5, l5, g6, l6]
  · have g0 : 1024 ≤ i := by omega
    have l0 : ¬ i < 1024 := by omega
    have g1 : 2048 ≤ i := by omega
    have l1 : ¬ i < 2048 := by omega
    have g2 : 3072 ≤ i := by omega
    have l2 : ¬ i < 3072 := by omega
    have g3 : ¬ 4096 ≤ i := by omega
    have l3 : i < 4096 := by omega
    have g4 : ¬ 5120 ≤ i := by omega
    have l4 : i < 5120 := by omega
    have g5 : ¬ 6144 ≤ i := by omega
    have l5 : i < 6144 := by omega
    have g6 : ¬ 7168 ≤ i := by omega
    have l6 : i < 7168 := by omega
    simp [g0, l0, g1, l1, g2, l2, g3, l3, g4, l4, g5, l5, g6, l6]
  · have g0 : 1024 ≤ i := by omega
    have l0 : ¬ i < 1024 := by omega
    have g1 : 2048 ≤ i := by omega
    have l1 : ¬ i < 2048 := by omega
    have g2 : 3072 ≤ i := by omega
    have l2 : ¬ i < 3072 := by omega
    have g3 : 4096 ≤ i := by omega
    have l3 : ¬ i < 4096 := by omega
    have g4 : ¬ 5120 ≤ i := by omega
    have l4 : i < 5120 := by omega
    have g5 : ¬ 6144 ≤ i := by omega
    have l5 : i < 6144 := by omega
    have g6 : ¬ 7168 ≤ i := by omega
    have l6 : i < 7168 := by omega
    simp [g0, l0, g1, l1, g2, l2, g3, l3, g4, l4, g5, l5, g6, l6]
  · have g0 : 1024 ≤ i := by omega
    have l0 : ¬ i < 1024 := by omega
    have g1 : 2048 ≤ i := by omega
    have l1 : ¬ i < 2048 := by omega
    have g2 : 3072 ≤ i := by omega
    have l2 : ¬ i < 3072 := by omega
    have g3 : 4096 ≤ i := by omega
    have l3 : ¬ i < 4096 := by omega
    have g4 : 5120 ≤ i := by omega
    have l4 : ¬ i < 5120 := by omega
    have g5 : ¬ 6144 ≤ i := by omega
    have l5 : i < 6144 := by omega
    have g6 : ¬ 7168 ≤ i := by omega
    have l6 : i < 7168 := by omega
    simp [g0, l0, g1, l1, g2, l2, g3, l3, g4, l4, g5, l5, g6, l6]
  · have g0 : 1024 ≤ i := by omega
    have l0 : ¬ i < 1024 := by omega
    have g1 : 2048 ≤ i := by omega
    have l1 : ¬ i < 2048 := by omega
    have g2 : 3072 ≤ i := by omega
    have l2 : ¬ i < 3072 := by omega
    have g3 : 4096 ≤ i := by omega
    have l3 : ¬ i < 4096 := by omega
    have g4 : 5120 ≤ i := by omega
    have l4 : ¬ i < 5120 := by omega
    have g5 : 6144 ≤ i := by omega
    have l5 : ¬ i < 6144 := by omega
    have g6 : ¬ 7168 ≤ i := by omega
    have l6 : i < 7168 := by omega
    simp [g0, l0, g1, l1, g2, l2, g3, l3, g4, l4, g5, l5, g6, l6]
  · have g0 : 1024 ≤ i := by omega
    have l0 : ¬ i < 1024 := by omega
    have g1 : 2048 ≤ i := by omega
    have l1 : ¬ i < 2048 := by omega
    have g2 : 3072 ≤ i := by omega
    have l2 : ¬ i < 3072 := by omega
    have g3 : 4096 ≤ i := by omega
    have l3 : ¬ i < 4096 := by omega
    have g4 : 5120 ≤ i := by omega
    have l4 : ¬ i < 5120 := by omega
    have g5 : 6144 ≤ i := by omega
    have l5 : ¬ i < 6144 := by omega
    have g6 : 7168 ≤ i := by omega
    have l6 : ¬ i < 7168 := by omega
    simp [g0, l0, g1, l1, g2, l2, g3, l3, g4, l4, g5, l5, g6, l6]

/-! ### The scratch buffers -/

/-- C14: `cedrus_vc1_start` returns success exactly when all three allocations
(motion-vector, AC/DC, bitplane, in that order) succeed; otherwise it returns
`-ENOMEM`, having released exactly the regions allocated before the failing
one, each once and with its allocation size: none if the first fails, the
first if the second fails, the second and the first if the third fails.  No
allocation is attempted after a failure. -/
theorem start_rollback (r1 r2 r3 : Option dma_region) (c : cedrus_vc1_scratch) :
    ((cedrus_vc1_start r1 r2 r3 c).ret = 0 ↔
      r1.isSome = true ∧ r2.isSome = true ∧ r3.isSome = true) ∧
    ((cedrus_vc1_start r1 r2 r3 c).ret = 0 ∨ (cedrus_vc1_start r1 r2 r3 c).ret = -ENOMEM) ∧
    (cedrus_vc1_start r1 r2 r3 c).calls =
      (match r1, r2, r3 with
       | none, _, _ =>
         [dma_op.alloc MV_BUF_SIZE none]
       | some x, none, _ =>
         [dma_op.alloc MV_BUF_SIZE (some x), dma_op.alloc ACDC_BUF_SIZE none,
          dma_op.free MV_BUF_SIZE (some x.cpu_addr) x.dma_handle]
       | some x, some y, none =>
         [dma_op.alloc MV_BUF_SIZE (some x), dma_op.alloc ACDC_BUF_SIZE (some y),
          dma_op.alloc BITPLANES_BUF_SIZE none,
          dma_op.free ACDC_BUF_SIZE (some y.cpu_addr) y.dma_handle,
          dma_op.free MV_BUF_SIZE (some x.cpu_addr) x.dma_handle]
       | some x, some y, some z =>
         [dma_op.alloc MV_BUF_SIZE (some x), dma_op.alloc ACDC_BUF_SIZE (some y),
          dma_op.alloc BITPLANES_BUF_SIZE (some z)]) ∧
    MV_BUF_SIZE = 65536 ∧ ACDC_BUF_SIZE = 16384 ∧ BITPLANES_BUF_SIZE = 16384 := by
  have hE : (-ENOMEM : Int) ≠ 0 := by decide
  refine ⟨?_, ?_, ?_, by decide, by decide, by decide⟩
  · rcases r1 with _ | x <;> rcases r2 with _ | y <;> rcases r3 with _ | z <;>
      simp [cedrus_vc1_start, alloc_ptr, alloc_handle, hE]
  · rcases r1 with _ | x <;> rcases r2 with _ | y <;> rcases r3 with _ | z <;>
      simp [cedrus_vc1_start, alloc_ptr, alloc_handle]
  · rcases r1 with _ | x <;> rcases r2 with _ | y <;> rcases r3 with _ | z <;>
      simp [cedrus_vc1_start, alloc_ptr, alloc_handle]

/-- C15: a successful `cedrus_vc1_start` followed at once by `cedrus_vc1_stop`
allocates each of the three scratch regions once and releases each once, and
each release uses the size (64 KiB motion-vector, 16 KiB AC/DC, 16 KiB
bitplane), the pointer and the DMA address that the allocation of that region
produced. -/
theorem start_stop_balanced (x y z : dma_region) (c : cedrus_vc1_scratch) :
    (cedrus_vc1_start (some x) (some y) (some z) c).ret = 0 ∧
    (cedrus_vc1_start (some x) (some y) (some z) c).calls ++
        cedrus_vc1_stop (cedrus_vc1_start (some x) (some y) (some z) c).scratch =
      [ dma_op.alloc (64 * 1024) (some x),
        dma_op.alloc (16 * 1024) (some y),
        dma_op.alloc (16 * 1024) (some z),
        dma_op.free (64 * 1024) (some x.cpu_addr) x.dma_handle,
        dma_op.free (16 * 1024) (some y.cpu_addr) y.dma_handle,
        dma_op.free (16 * 1024) (some z.cpu_addr) z.dma_handle ] ∧
    ((cedrus_vc1_start (some x) (some y) (some z) c).calls ++
        cedrus_vc1_stop (cedrus_vc1_start (some x) (some y) (some z) c).scratch).countP
      dma_op.is_alloc = 3 ∧
    ((cedrus_vc1_start (some x) (some y) (some z) c).calls ++
        cedrus_vc1_stop (cedrus_vc1_start (some x) (some y) (some z) c).scratch).countP
      dma_op.is_free = 3 := by
  refine ⟨rfl, rfl, rfl, rfl⟩

/-! ### Clearing and masking the interrupts -/

/-- C16, as the code has it: `cedrus_vc1_irq_clear` performs one register
write, of the constant `VE_DEC_VC1_STATUS_INT_MASK` to the status register,
whatever the status register holds. -/
theorem irq_clear_writes_mask (R : CedrusRegs) :
    cedrus_vc1_irq_clear R =
      [hw_op.write R.VE_DEC_VC1_STATUS (R.VE_DEC_VC1_STATUS_INT_MASK % 4294967296)] := by
  rfl

/-- C16 as stated fails: with the success bit alone in the status register of
the example layout, `cedrus_vc1_irq_clear` writes 7, not the 1 that was read;
and no assignment of the macros makes the value written equal the value read
for every content of the status register. -/
theorem irq_clear_not_write_back :
    cedrus_read (fun r => if r = example_regs.VE_DEC_VC1_STATUS then 1 else 0)
        example_regs.VE_DEC_VC1_STATUS = 1 ∧
    cedrus_vc1_irq_clear example_regs = [hw_op.write example_regs.VE_DEC_VC1_STATUS 7] ∧
    ¬ ∃ R : CedrusRegs, ∀ regs : Nat → Nat,
        cedrus_vc1_irq_clear R =
          [hw_op.write R.VE_DEC_VC1_STATUS (cedrus_read regs R.VE_DEC_VC1_STATUS)] := by
  refine ⟨by decide, by decide, ?_⟩
  rintro ⟨R, h⟩
  have h0 := h (fun _ => 0)
  have h1 := h (fun _ => 1)
  rw [h0] at h1
  simp [cedrus_read] at h1

theorem testBit_u32_not (x i : Nat) :
    (u32_not x).testBit i = (decide (i < 32) && !x.testBit i) := by
  unfold u32_not
  have e1 : (4294967295 : Nat) = 2 ^ 32 - 1 := by norm_num
  have e2 : (4294967296 : Nat) = 2 ^ 32 := by norm_num
  rw [e1, e2, Nat.testBit_xor, Nat.testBit_two_pow_sub_one, Nat.testBit_mod_two_pow]
  by_cases hi : i < 32
  · simp [hi]
  · simp [hi]

theorem testBit_cedrus_read_high (regs : Nat → Nat) (r i : Nat) (hi : ¬ i < 32) :
    (cedrus_read regs r).testBit i = false := by
  unfold cedrus_read
  have e2 : (4294967296 : Nat) = 2 ^ 32 := by norm_num
  rw [e2, Nat.testBit_mod_two_pow]
  simp [hi]

theorem land_u32_not_lt (c m : Nat) : c &&& u32_not m < 4294967296 := by
  have e2 : (4294967296 : Nat) = 2 ^ 32 := by norm_num
  rw [e2]
  apply Nat.lt_pow_two_of_testBit
  intro i hi
  rw [Nat.testBit_and, testBit_u32_not]
  have : ¬ i < 32 := by omega
  simp [this]

theorem land_u32_not_idem (c m : Nat) : (c &&& u32_not m) &&& u32_not m = c &&& u32_not m := by
  rw [Nat.and_assoc, Nat.and_self]

/-- C17: for every prior value `c` of the control register,
`cedrus_vc1_irq_disable` performs one register write, of `c AND NOT IRQ_MASK`
to the control register: every bit of the interrupt mask becomes 0, every
other bit keeps its value, no other register changes, and doing it a second
time leaves the register file as the first time left it. -/
theorem irq_disable_effect (R : CedrusRegs) (regs : Nat → Nat) :
    cedrus_vc1_irq_disable R regs =
      [hw_op.write R.VE_DEC_VC1_CTRL
        (cedrus_read regs R.VE_DEC_VC1_CTRL &&& u32_not R.VE_DEC_VC1_CTRL_IRQ_MASK)] ∧
    (∀ i, R.VE_DEC_VC1_CTRL_IRQ_MASK.testBit i = true →
      (hw_apply regs (cedrus_vc1_irq_disable R regs) R.VE_DEC_VC1_CTRL).testBit i = false) ∧
    (∀ i, R.VE_DEC_VC1_CTRL_IRQ_MASK.testBit i = false →
      (hw_apply regs (cedrus_vc1_irq_disable R regs) R.VE_DEC_VC1_CTRL).testBit i =
        (cedrus_read regs R.VE_DEC_VC1_CTRL).testBit i) ∧
    (∀ r, r ≠ R.VE_DEC_VC1_CTRL →
      hw_apply regs (cedrus_vc1_irq_disable R regs) r = regs r) ∧
    hw_apply (hw_apply regs (cedrus_vc1_irq_disable R regs))
        (cedrus_vc1_irq_disable R (hw_apply regs (cedrus_vc1_irq_disable R regs))) =
      hw_apply regs (cedrus_vc1_irq_disable R regs) := by
  have hlt := land_u32_not_lt (cedrus_read regs R.VE_DEC_VC1_CTRL) R.VE_DEC_VC1_CTRL_IRQ_MASK
  have hgen : ∀ regs' : Nat → Nat, cedrus_vc1_irq_disable R regs' =
      [hw_op.write R.VE_DEC_VC1_CTRL
        (cedrus_read regs' R.VE_DEC_VC1_CTRL &&& u32_not R.VE_DEC_VC1_CTRL_IRQ_MASK)] := by
    intro regs'
    simp only [cedrus_vc1_irq_disable, cedrus_write,
      Nat.mod_eq_of_lt (land_u32_not_lt _ R.VE_DEC_VC1_CTRL_IRQ_MASK)]
  have hops := hgen regs
  have hctrl : hw_apply regs (cedrus_vc1_irq_disable R regs) R.VE_DEC_VC1_CTRL =
      cedrus_read regs R.VE_DEC_VC1_CTRL &&& u32_not R.VE_DEC_VC1_CTRL_IRQ_MASK := by
    rw [hops]
    simp [hw_apply]
  have hother : ∀ r, r ≠ R.VE_DEC_VC1_CTRL →
      hw_apply regs (cedrus_vc1_irq_disable R regs) r = regs r := by
    intro r hr
    rw [hops]
    simp [hw_apply, hr]
  refine ⟨hops, ?_, ?_, hother, ?_⟩
  · intro i hi
    rw [hctrl, Nat.testBit_and, testBit_u32_not, hi]
    simp
  · intro i hi
    rw [hctrl, Nat.testBit_and, testBit_u32_not, hi]
    by_cases h32 : i < 32
    · simp [h32]
    · simp [h32, testBit_cedrus_read_high regs _ i h32]
  · have hread : cedrus_read (hw_apply regs (cedrus_vc1_irq_disable R regs))
        R.VE_DEC_VC1_CTRL =
        cedrus_read regs R.VE_DEC_VC1_CTRL &&& u32_not R.VE_DEC_VC1_CTRL_IRQ_MASK := by
      have e : cedrus_read (hw_apply regs (cedrus_vc1_irq_disable R regs))
          R.VE_DEC_VC1_CTRL =
          hw_apply regs (cedrus_vc1_irq_disable R regs) R.VE_DEC_VC1_CTRL % 4294967296 := rfl
      rw [e, hctrl]
      exact Nat.mod_eq_of_lt hlt
    generalize hw_apply regs (cedrus_vc1_irq_disable R regs) = S at hctrl hread ⊢
    rw [hgen S]
    funext r
    simp only [hw_apply]
    by_cases hr : r = R.VE_DEC_VC1_CTRL
    · rw [if_pos hr, hread, land_u32_not_idem, hr, hctrl]
    · rw [if_neg hr]

/-! ### The size of the fraction table -/

/-- C18, as the code has it: the B-fraction table has 23 entries, the 21
fractions with denominators 2 to 8 scaled by 256 followed by the two sentinel
entries 0xff and 0; the guard of `cedrus_vc1_get_fraction` lets an index
through exactly when it is below 23, and every index from 23 on yields 0. -/
theorem fraction_table_size :
    vc1_fractions.length = 23 ∧
    vc1_fractions = documented_ratios.map (fun r => FRACTION r.1 r.2) ++ [0xff, 0] ∧
    documented_ratios.length = 21 ∧
    (∀ r ∈ documented_ratios, 2 ≤ r.2 ∧ r.2 ≤ 8 ∧ 1 ≤ r.1 ∧ r.1 < r.2) ∧
    (∀ index : Nat, index ≥ vc1_fractions.length ↔ 23 ≤ index) ∧
    (∀ index : Nat, cedrus_vc1_get_fraction (23 + index) = 0) := by
  refine ⟨by decide, by decide, by decide, by decide, ?_, ?_⟩
  · intro index
    have hl : vc1_fractions.length = 23 := by decide
    omega
  · intro index
    have h : 23 + index ≥ vc1_fractions.length := by
      have hl : vc1_fractions.length = 23 := by decide
      omega
    simp only [cedrus_vc1_get_fraction, h, dite_true]

/-- C18 as stated fails: the table has 23 entries, not 22, and index 22 passes
the guard of `cedrus_vc1_get_fraction` (it reads the last entry of the
table). -/
theorem fraction_table_not_22 :
    vc1_fractions.length ≠ 22 ∧ ¬ (22 ≥ vc1_fractions.length) ∧
    vc1_fractions.get? 22 = some 0 := by
  decide

/-! ### The output frame attributes -/

theorem setup_events_hw (R : CedrusRegs) (V : V4L2Flags) (E : Extern) (ctx : cedrus_ctx)
    (run : cedrus_run) (bufs : Nat → cedrus_vc1_buffer) :
    (cedrus_vc1_setup_events R V E ctx run bufs).filterMap setup_event.hw_part =
      (cedrus_vc1_setup R V E ctx run bufs).ops := by
  simp only [cedrus_vc1_setup_events, cedrus_vc1_setup]
  split <;> [skip; split] <;> split <;> rfl

theorem setup_events_stores (R : CedrusRegs) (V : V4L2Flags) (E : Extern) (ctx : cedrus_ctx)
    (run : cedrus_run) (bufs : Nat → cedrus_vc1_buffer) :
    replay_stores bufs (cedrus_vc1_setup_events R V E ctx run bufs) =
      (cedrus_vc1_setup R V E ctx run bufs).bufs := by
  funext b
  simp only [cedrus_vc1_setup_events, cedrus_vc1_setup, replay_stores, setup_record_compen,
    setup_record_attrs]
  split <;> [skip; split] <;> split <;>
    (simp only [List.foldl_append, List.foldl_cons, List.foldl_nil, List.cons_append,
      List.nil_append, setup_event.apply, set_buf]
     by_cases hb : b = run.dst <;> simp [hb])

theorem setup_bufs_ptype_dst (R : CedrusRegs) (V : V4L2Flags) (E : Extern)
    (ctx : cedrus_ctx) (run : cedrus_run) (bufs : Nat → cedrus_vc1_buffer) :
    ((cedrus_vc1_setup R V E ctx run bufs).bufs run.dst).ptype =
      run.slice_params.picture_layer.ptype := by
  simp only [cedrus_vc1_setup, setup_record_compen, setup_record_attrs]
  split
  · simp [set_buf]
  · split <;> simp [set_buf]

theorem setup_bufs_rangeredfrm_dst (R : CedrusRegs) (V : V4L2Flags) (E : Extern)
    (ctx : cedrus_ctx) (run : cedrus_run) (bufs : Nat → cedrus_vc1_buffer) :
    ((cedrus_vc1_setup R V E ctx run bufs).bufs run.dst).rangeredfrm =
      flag_set run.slice_params.picture_layer.flags
        V.V4L2_VC1_PICTURE_LAYER_FLAG_RANGEREDFRM := by
  simp only [cedrus_vc1_setup, setup_record_compen, setup_record_attrs]
  split
  · simp [set_buf]
  · split <;> simp [set_buf]

/-- C19: for every input, `cedrus_vc1_setup` records the output frame
attributes on the destination buffer when the frame is armed, from the
frame's own header: interlaced = (`fcm` is not progressive), picture type =
`ptype` of the picture layer, range-reduction flag = whether the picture's
range-reduction flag bit is set.  The three stores are the first effects of
the function, ahead of every hardware operation, and the values do not depend
on what the reference lookups return. -/
theorem output_attributes_recorded (R : CedrusRegs) (V : V4L2Flags) (E : Extern)
    (ctx : cedrus_ctx) (run : cedrus_run) (bufs : Nat → cedrus_vc1_buffer) :
    (cedrus_vc1_setup_events R V E ctx run bufs).take 3 =
      [ setup_event.store_rangeredfrm run.dst
          (flag_set run.slice_params.picture_layer.flags
            V.V4L2_VC1_PICTURE_LAYER_FLAG_RANGEREDFRM),
        setup_event.store_interlaced run.dst
          (decide (run.slice_params.picture_layer.fcm ≠ VC1_FCM_PROGRESSIVE)),
        setup_event.store_ptype run.dst run.slice_params.picture_layer.ptype ] ∧
    ((cedrus_vc1_setup_events R V E ctx run bufs).drop 3).filterMap setup_event.hw_part =
      (cedrus_vc1_setup R V E ctx run bufs).ops ∧
    (cedrus_vc1_setup R V E ctx run bufs).ops.get? 0 = some hw_op.engine_enable ∧
    replay_stores bufs (cedrus_vc1_setup_events R V E ctx run bufs) =
      (cedrus_vc1_setup R V E ctx run bufs).bufs ∧
    ((cedrus_vc1_setup R V E ctx run bufs).bufs run.dst).interlaced =
      decide (run.slice_params.picture_layer.fcm ≠ VC1_FCM_PROGRESSIVE) ∧
    ((cedrus_vc1_setup R V E ctx run bufs).bufs run.dst).ptype =
      run.slice_params.picture_layer.ptype ∧
    ((cedrus_vc1_setup R V E ctx run bufs).bufs run.dst).rangeredfrm =
      flag_set run.slice_params.picture_layer.flags
        V.V4L2_VC1_PICTURE_LAYER_FLAG_RANGEREDFRM ∧
    (∀ other : Extern,
      ((cedrus_vc1_setup R V other ctx run bufs).bufs run.dst).interlaced =
        ((cedrus_vc1_setup R V E ctx run bufs).bufs run.dst).interlaced ∧
      ((cedrus_vc1_setup R V other ctx run bufs).bufs run.dst).ptype =
        ((cedrus_vc1_setup R V E ctx run bufs).bufs run.dst).ptype ∧
      ((cedrus_vc1_setup R V other ctx run bufs).bufs run.dst).rangeredfrm =
        ((cedrus_vc1_setup R V E ctx run bufs).bufs run.dst).rangeredfrm) := by
  have hp := not_progressive_eq run.slice_params.picture_layer
  refine ⟨?_, ?_, rfl, setup_events_stores R V E ctx run bufs, ?_,
    setup_bufs_ptype_dst R V E ctx run bufs, setup_bufs_rangeredfrm_dst R V E ctx run bufs, ?_⟩
  · rw [← hp]
    rfl
  · rw [← setup_events_hw]
    simp only [cedrus_vc1_setup_events]
    rfl
  · rw [setup_bufs_interlaced_dst, hp]
  · intro other
    refine ⟨?_, ?_, ?_⟩
    · rw [setup_bufs_interlaced_dst, setup_bufs_interlaced_dst]
    · rw [setup_bufs_ptype_dst, setup_bufs_ptype_dst]
    · rw [setup_bufs_rangeredfrm_dst, setup_bufs_rangeredfrm_dst]

/-! ### Destination addresses, rotation and header length -/

/-- C20: for every input, `cedrus_vc1_setup` writes the destination luma
address to the reconstruction-luma and to the rotation-luma register, the
destination chroma address to the reconstruction-chroma and to the
rotation-chroma register, 0 to the rotation-control register and the length 0
to the picture-header-length register. -/
theorem destination_and_rotation_writes (R : CedrusRegs) (V : V4L2Flags) (E : Extern)
    (ctx : cedrus_ctx) (run : cedrus_run) (bufs : Nat → cedrus_vc1_buffer) :
    (cedrus_vc1_setup R V E ctx run bufs).ops.get? 21 =
      some (hw_op.write R.VE_DEC_VC1_REC_LUMA
        (E.cedrus_dst_buf_addr (some run.dst) 0 % 4294967296)) ∧
    (cedrus_vc1_setup R V E ctx run bufs).ops.get? 23 =
      some (hw_op.write R.VE_DEC_VC1_ROT_LUMA_ADDR
        (E.cedrus_dst_buf_addr (some run.dst) 0 % 4294967296)) ∧
    (cedrus_vc1_setup R V E ctx run bufs).ops.get? 22 =
      some (hw_op.write R.VE_DEC_VC1_REC_CHROMA
        (E.cedrus_dst_buf_addr (some run.dst) 1 % 4294967296)) ∧
    (cedrus_vc1_setup R V E ctx run bufs).ops.get? 24 =
      some (hw_op.write R.VE_DEC_VC1_ROT_CHROMA_ADDR
        (E.cedrus_dst_buf_addr (some run.dst) 1 % 4294967296)) ∧
    (cedrus_vc1_setup R V E ctx run bufs).ops.get? 11 =
      some (hw_op.write R.VE_DEC_VC1_ROT_CTRL 0) ∧
    (cedrus_vc1_setup R V E ctx run bufs).ops.get? 12 =
      some (hw_op.write R.VE_DEC_VC1_PICHDRLEN
        (R.VE_DEC_VC1_PICHDRLEN_LENGTH 0 % 4294967296)) := by
  refine ⟨rfl, rfl, rfl, rfl, rfl, rfl⟩

/-! ### The register program as a whole -/

/-- C21: for every input, `cedrus_vc1_setup` emits its register writes in one
fixed order, which depends on nothing but the register macros: the AC/DC,
bitplane and motion-vector buffer addresses; the bitstream address, end
address, bit offset and length, then the bitstream address again with the
valid, last and first slice marks; the status clear; the trigger type
(software-decode init); the rotation control; the picture-header length; the
entry-point/sequence, picture-control, picture-quantizer, motion-vector,
intensity-compensation and interlace registers; the frame size and the
picture size; the reconstruction and rotation luma and chroma; the forward
and then the backward reference luma and chroma; and last the control
register, with the finish, error and data-request interrupt enables and the
cache-enable bit and nothing else. -/
theorem setup_write_order (R : CedrusRegs) (V : V4L2Flags) (E : Extern)
    (ctx : cedrus_ctx) (run : cedrus_run) (bufs : Nat → cedrus_vc1_buffer) :
    (cedrus_vc1_setup R V E ctx run bufs).ops.map hw_op.target =
      [ none,
        some R.VE_DEC_VC1_DCACPRED_ADDR,
        some R.VE_DEC_VC1_BITPLANE_ADDR,
        some R.VE_DEC_VC1_MVINFO_ADDR,
        some R.VE_DEC_VC1_BITS_ADDR,
        some R.VE_DEC_VC1_BITS_END_ADDR,
        some R.VE_DEC_VC1_BITS_OFFSET,
        some R.VE_DEC_VC1_BITS_LEN,
        some R.VE_DEC_VC1_BITS_ADDR,
        some R.VE_DEC_VC1_STATUS,
        some R.VE_DEC_VC1_TRIGGER_TYPE,
        some R.VE_DEC_VC1_ROT_CTRL,
        some R.VE_DEC_VC1_PICHDRLEN,
        some R.VE_DEC_VC1_EPHS,
        some R.VE_DEC_VC1_PICCTRL,
        some R.VE_DEC_VC1_PICQP,
        some R.VE_DEC_VC1_PICMV,
        some R.VE_DEC_VC1_PICINTENCOMP,
        some R.VE_DEC_VC1_PICINTERLACE,
        some R.VE_DEC_VC1_FSIZE,
        some R.VE_DEC_VC1_PICSIZE,
        some R.VE_DEC_VC1_REC_LUMA,
        some R.VE_DEC_VC1_REC_CHROMA,
        some R.VE_DEC_VC1_ROT_LUMA_ADDR,
        some R.VE_DEC_VC1_ROT_CHROMA_ADDR,
        some R.VE_DEC_VC1_FWD_REF_LUMA_ADDR,
        some R.VE_DEC_VC1_FWD_REF_CHROMA_ADDR,
        some R.VE_DEC_VC1_BWD_REF_LUMA_ADDR,
        some R.VE_DEC_VC1_BWD_REF_CHROMA_ADDR,
        some R.VE_DEC_VC1_CTRL ] ∧
    (cedrus_vc1_setup R V E ctx run bufs).ops.get? 8 =
      some (hw_op.write R.VE_DEC_VC1_BITS_ADDR
        ((R.VE_DEC_VC1_BITS_ADDR_BASE run.src_dma_addr |||
          R.VE_DEC_VC1_BITS_ADDR_VALID_SLICE_DATA |||
          R.VE_DEC_VC1_BITS_ADDR_LAST_SLICE_DATA |||
          R.VE_DEC_VC1_BITS_ADDR_FIRST_SLICE_DATA) % 4294967296)) ∧
    (cedrus_vc1_setup R V E ctx run bufs).ops.get? 9 =
      some (hw_op.write R.VE_DEC_VC1_STATUS (R.VE_DEC_VC1_STATUS_INT_MASK % 4294967296)) ∧
    (cedrus_vc1_setup R V E ctx run bufs).ops.get? 10 =
      some (hw_op.write R.VE_DEC_VC1_TRIGGER_TYPE
        (R.VE_DEC_VC1_TRIGGER_TYPE_INIT_SWDEC % 4294967296)) ∧
    (cedrus_vc1_setup R V E ctx run bufs).ops.getLast? =
      some (hw_op.write R.VE_DEC_VC1_CTRL
        ((R.VE_DEC_VC1_CTRL_FINISH_IRQ_EN ||| R.VE_DEC_VC1_CTRL_ERROR_IRQ_EN |||
          R.VE_DEC_VC1_CTRL_VLD_DATA_REQ_IRQ_EN ||| R.VE_DEC_VC1_CTRL_MCRI_CACHE_EN)
          % 4294967296)) := by
  refine ⟨rfl, rfl, rfl, rfl, rfl⟩

/-- C22: `cedrus_vc1_setup` validates nothing and never fails: for every
input, whatever the picture type, frame-coding mode, motion-vector mode and
B-fraction code are and whether or not the references are found, it returns 0
and emits the whole register program (the engine enable and 29 register
writes); and its two table lookups are within bounds: `vc1_mvmode_map` is
indexed with `mvmode & 3`, below its 4 entries, and `cedrus_vc1_get_fraction`
reads the table only at an index below its length and returns 0 otherwise. -/
theorem setup_never_fails (R : CedrusRegs) (V : V4L2Flags) (E : Extern)
    (ctx : cedrus_ctx) (run : cedrus_run) (bufs : Nat → cedrus_vc1_buffer) :
    (cedrus_vc1_setup R V E ctx run bufs).ret = 0 ∧
    (cedrus_vc1_setup R V E ctx run bufs).ops.length = 30 ∧
    ((cedrus_vc1_setup R V E ctx run bufs).ops.filter
      (fun op => (hw_op.target op).isSome)).length = 29 ∧
    (setup_mvmode run.slice_params.picture_layer &&& 3) < vc1_mvmode_map.length ∧
    vc1_mvmode_map_lookup (setup_mvmode run.slice_params.picture_layer) =
      vc1_mvmode_map.getD (setup_mvmode run.slice_params.picture_layer &&& 3) 0 ∧
    setup_bfraction run.slice_params.picture_layer =
      (if run.slice_params.picture_layer.bfraction < vc1_fractions.length then
        vc1_fractions.getD run.slice_params.picture_layer.bfraction 0
      else 0) ∧
    (∀ mvmode : Nat, (mvmode &&& 3) < vc1_mvmode_map.length) ∧
    (∀ index : Nat, cedrus_vc1_get_fraction index =
      if index < vc1_fractions.length then vc1_fractions.getD index 0 else 0) := by
  have hm : ∀ mvmode : Nat, (mvmode &&& 3) < vc1_mvmode_map.length :=
    fun mvmode => Nat.lt_succ_of_le Nat.and_le_right
  have hg : ∀ index : Nat, cedrus_vc1_get_fraction index =
      if index < vc1_fractions.length then vc1_fractions.getD index 0 else 0 := by
    intro index
    unfold cedrus_vc1_get_fraction
    by_cases h : index ≥ vc1_fractions.length
    · rw [dif_pos h, if_neg (by omega)]
    · rw [dif_neg h, if_pos (by omega), List.getD_eq_getElem _ _ (by omega)]
      rfl
  exact ⟨rfl, rfl, rfl, hm _, vc1_mvmode_map_lookup_eq _, hg _, hm, hg⟩

/-! ### The clamps of the reference distances -/

/-- C25: for every B picture with `refdist` from 1 to 255 and every
B-fraction code, the unclamped forward distance
`(cedrus_vc1_get_fraction(code) * refdist) >> 8` is strictly below `refdist`
(every table value is at most 255), so the unclamped backward distance is not
negative and the lower clamp is not applied; for a B picture the lower clamp
applies only when `refdist` is 0. -/
theorem b_picture_lower_clamp (picture : v4l2_vc1_picture_layer)
    (hB : picture.ptype = VC1_PICTURE_TYPE_B) (hrefdist : picture.refdist < 256) :
    cedrus_vc1_get_fraction picture.bfraction ≤ 255 ∧
    setup_frfd_unclamped picture =
      (cedrus_vc1_get_fraction picture.bfraction * picture.refdist) >>> 8 ∧
    setup_brfd_unclamped picture =
      (picture.refdist : Int) - (setup_frfd_unclamped picture : Int) - 1 ∧
    (setup_brfd_unclamped picture < 0 ↔ picture.refdist = 0) ∧
    (1 ≤ picture.refdist →
      setup_frfd_unclamped picture < picture.refdist ∧
      0 ≤ setup_brfd_unclamped picture ∧
      setup_brfd picture = min (setup_brfd_unclamped picture) 3) := by
  have hf := get_fraction_le picture.bfraction
  have e1 : setup_frfd_unclamped picture =
      (cedrus_vc1_get_fraction picture.bfraction * picture.refdist) >>> 8 := by
    rw [setup_frfd_unclamped_eq picture hrefdist, spec_forward_distance, if_pos hB]
  have e2 : setup_brfd_unclamped picture =
      (picture.refdist : Int) - (setup_frfd_unclamped picture : Int) - 1 := by
    rw [setup_brfd_unclamped_eq picture hrefdist, spec_backward_distance,
      setup_frfd_unclamped_eq picture hrefdist]
  have hp : cedrus_vc1_get_fraction picture.bfraction * picture.refdist ≤
      255 * picture.refdist := Nat.mul_le_mul_right _ hf
  have hlt : 1 ≤ picture.refdist → setup_frfd_unclamped picture < picture.refdist := by
    intro h1
    rw [e1, Nat.shiftRight_eq_div_pow]
    omega
  have h0 : picture.refdist = 0 → setup_frfd_unclamped picture = 0 := by
    intro hz
    rw [e1, hz, Nat.mul_zero]
    rfl
  refine ⟨hf, e1, e2, ?_, ?_⟩
  · rw [e2]
    constructor
    · intro hneg
      by_contra hne
      have := hlt (by omega)
      omega
    · intro hz
      have := h0 hz
      omega
  · intro h1
    have hl := hlt h1
    refine ⟨hl, by omega, ?_⟩
    unfold setup_brfd
    rw [if_neg (by omega)]
    split <;> omega

theorem b_picture_lower_clamp_witness :
    (example_picture 2 0 0 21 255 0 0).ptype = VC1_PICTURE_TYPE_B ∧
    (example_picture 2 0 0 21 255 0 0).refdist < 256 ∧
    setup_frfd_unclamped (example_picture 2 0 0 21 255 0 0) = 254 ∧
    setup_brfd_unclamped (example_picture 2 0 0 21 255 0 0) = 0 ∧
    setup_brfd (example_picture 2 0 0 21 255 0 0) = 0 := by
  obtain ⟨-, e1, e2, -, h⟩ :=
    b_picture_lower_clamp (example_picture 2 0 0 21 255 0 0) rfl (by decide)
  obtain ⟨-, -, e3⟩ := h (by decide)
  have f1 : setup_frfd_unclamped (example_picture 2 0 0 21 255 0 0) = 254 :=
    e1.trans (by decide)
  have f2 : setup_brfd_unclamped (example_picture 2 0 0 21 255 0 0) = 0 := by
    rw [e2, f1]
    decide
  exact ⟨rfl, by decide, f1, f2, by rw [e3, f2]; decide⟩

/-- C26: for every picture that is not a B picture and every `refdist` from 0
to 255, `cedrus_vc1_setup` writes the forward distance `min(refdist, 3)` and
the backward distance 0: `refdist - refdist - 1` is 2^32 - 1 in unsigned 32-bit
arithmetic, is -1 once stored in the signed `brfd`, and is clamped to 0. -/
theorem non_b_picture_distances (R : CedrusRegs) (V : V4L2Flags) (E : Extern)
    (ctx : cedrus_ctx) (run : cedrus_run) (bufs : Nat → cedrus_vc1_buffer)
    (M : PICINTERLACE_masks) (h : PICINTERLACE_layout R M)
    (hnb : run.slice_params.picture_layer.ptype ≠ VC1_PICTURE_TYPE_B)
    (hrefdist : run.slice_params.picture_layer.refdist < 256) :
    ∃ v, (cedrus_vc1_setup R V E ctx run bufs).ops.get? 18 =
        some (hw_op.write R.VE_DEC_VC1_PICINTERLACE v) ∧
      v &&& M.frfd = R.VE_DEC_VC1_PICINTERLACE_FRFD
        (min run.slice_params.picture_layer.refdist 3) ∧
      v &&& M.brfd = R.VE_DEC_VC1_PICINTERLACE_BRFD 0 ∧
      setup_frfd_unclamped run.slice_params.picture_layer =
        run.slice_params.picture_layer.refdist ∧
      to_u32 ((run.slice_params.picture_layer.refdist : Int) -
        (setup_frfd_unclamped run.slice_params.picture_layer : Int) - 1) = 4294967295 ∧
      to_s32 4294967295 = -1 ∧
      setup_brfd_unclamped run.slice_params.picture_layer = -1 ∧
      setup_brfd run.slice_params.picture_layer = 0 := by
  have e1 : setup_frfd_unclamped run.slice_params.picture_layer =
      run.slice_params.picture_layer.refdist := by
    rw [setup_frfd_unclamped_eq _ hrefdist, spec_forward_distance, if_neg hnb]
  have e2 : to_u32 ((run.slice_params.picture_layer.refdist : Int) -
      (setup_frfd_unclamped run.slice_params.picture_layer : Int) - 1) = 4294967295 := by
    rw [e1]
    unfold to_u32
    omega
  have e3 : setup_brfd_unclamped run.slice_params.picture_layer = -1 := by
    unfold setup_brfd_unclamped
    rw [e2]
    decide
  have e4 : setup_brfd run.slice_params.picture_layer = 0 := by
    unfold setup_brfd
    rw [e3]
    decide
  have e5 : setup_frfd run.slice_params.picture_layer =
      min run.slice_params.picture_layer.refdist 3 := by
    unfold setup_frfd
    rw [e1]
    split <;> omega
  refine ⟨_, rfl, ?_, ?_, e1, e2, by decide, e3, e4⟩
  · rw [setup_picinterlace_land_frfd R V M h, e5]
  · rw [setup_picinterlace_land_brfd R V M h, e4]
    rfl

theorem non_b_picture_distances_witness :
    PICINTERLACE_layout example_regs example_PICINTERLACE_masks ∧
    (example_picture 1 0 0 0 7 0 0).ptype ≠ VC1_PICTURE_TYPE_B ∧
    (example_picture 1 0 0 0 7 0 0).refdist < 256 ∧
    ∃ v, (cedrus_vc1_setup example_regs example_flags example_extern example_ctx
          (example_run (example_picture 1 0 0 0 7 0 0) 1 0 3) example_bufs).ops.get? 18 =
        some (hw_op.write example_regs.VE_DEC_VC1_PICINTERLACE v) ∧
      v &&& example_PICINTERLACE_masks.frfd = example_regs.VE_DEC_VC1_PICINTERLACE_FRFD 3 ∧
      v &&& example_PICINTERLACE_masks.brfd = example_regs.VE_DEC_VC1_PICINTERLACE_BRFD 0 := by
  refine ⟨example_PICINTERLACE_layout, by decide, by decide, ?_⟩
  obtain ⟨v, hv, hf, hb, -⟩ := non_b_picture_distances example_regs example_flags
    example_extern example_ctx (example_run (example_picture 1 0 0 0 7 0 0) 1 0 3)
    example_bufs example_PICINTERLACE_masks example_PICINTERLACE_layout (by decide)
    (by decide)
  exact ⟨v, hv, hf.trans (by decide), hb⟩

/-! ### Truncation and the less-than-half flag -/

theorem ratio_lt_half (n d : Nat) (hd : 0 < d) : ((n : ℚ) / d < 1 / 2) ↔ 2 * n < d := by
  have hd' : (0 : ℚ) < d := by exact_mod_cast hd
  rw [div_lt_div_iff₀ hd' (by norm_num : (0 : ℚ) < 2)]
  constructor
  · intro h
    have h2 : ((n * 2 : ℕ) : ℚ) < ((1 * d : ℕ) : ℚ) := by
      push_cast
      linarith
    have h3 := Nat.cast_lt.mp h2
    omega
  · intro h
    have h2 : ((n * 2 : ℕ) : ℚ) < ((1 * d : ℕ) : ℚ) := by
      exact_mod_cast (by omega : n * 2 < 1 * d)
    push_cast at h2
    linarith

theorem less_than_half_table (code : Nat) :
    decide (cedrus_vc1_get_fraction code < 128) =
      (match documented_ratios.get? code with
       | some r => decide (2 * r.1 < r.2)
       | none => decide (code ≠ 21)) := by
  by_cases hc : code < 23
  · interval_cases code <;> decide
  · have hl : documented_ratios.length = 21 := by decide
    have hn : documented_ratios.get? code = none := by
      rw [List.get?_eq_none]
      omega
    have hg : cedrus_vc1_get_fraction code = 0 := by
      have hge : code ≥ vc1_fractions.length := by
        have : vc1_fractions.length = 23 := by decide
        omega
      simp only [cedrus_vc1_get_fraction, hge, dite_true]
    rw [hn, hg]
    have h21 : code ≠ 21 := by omega
    simp [h21]

/-- C27: for each of the 21 fractions `num/denom` of the B-fraction table the
truncated scaled value `floor(256 * num / denom)` is below 128 exactly when
the exact fraction is below 1/2 (`2 * num < denom`), so the less-than-half
flag written by `cedrus_vc1_setup` agrees with the true fraction for the codes
0 to 20; the flag is clear for the sentinel 0xff (code 21) and set for the
sentinel 0 (code 22) and for every code out of range. -/
theorem less_than_half_exact (R : CedrusRegs) (V : V4L2Flags) (E : Extern)
    (ctx : cedrus_ctx) (run : cedrus_run) (bufs : Nat → cedrus_vc1_buffer)
    (M : PICMV_masks) (h : PICMV_layout R M) :
    (∀ r ∈ documented_ratios, (FRACTION r.1 r.2 < 128 ↔ 2 * r.1 < r.2)) ∧
    (∀ r ∈ documented_ratios, (((r.1 : ℚ) / r.2 < 1 / 2) ↔ 2 * r.1 < r.2)) ∧
    (List.range 21).map cedrus_vc1_get_fraction =
      documented_ratios.map (fun r => FRACTION r.1 r.2) ∧
    ∃ v, (cedrus_vc1_setup R V E ctx run bufs).ops.get? 16 =
        some (hw_op.write R.VE_DEC_VC1_PICMV v) ∧
      flag_set v R.VE_DEC_VC1_PICMV_BFRAC_LESS_THAN_HALF =
        (match documented_ratios.get? run.slice_params.picture_layer.bfraction with
         | some r => decide (2 * r.1 < r.2)
         | none => decide (run.slice_params.picture_layer.bfraction ≠ 21)) := by
  have ne : R.VE_DEC_VC1_PICMV_BFRAC_LESS_THAN_HALF ≠ 0 := h.2.1 _ (by simp)
  have hpos : ∀ r ∈ documented_ratios, 0 < r.2 := by decide
  refine ⟨by decide, fun r hr => ratio_lt_half r.1 r.2 (hpos r hr), by decide, _, rfl, ?_⟩
  rw [flag_set_of_ite _ _ _ ne (setup_picmv_land_less_than_half R V M h _ _ _)]
  have hhalf : FRACTION 1 2 = 128 := by decide
  rw [← less_than_half_table, hhalf]
  rfl

theorem less_than_half_exact_witness :
    PICMV_layout example_regs example_PICMV_masks ∧
    (∃ v, (cedrus_vc1_setup example_regs example_flags example_extern example_ctx
          (example_run (example_picture 2 0 0 13 4 0 0) 1 2 3) example_bufs).ops.get? 16 =
        some (hw_op.write example_regs.VE_DEC_VC1_PICMV v) ∧
      flag_set v example_regs.VE_DEC_VC1_PICMV_BFRAC_LESS_THAN_HALF = true) ∧
    (∃ v, (cedrus_vc1_setup example_regs example_flags example_extern example_ctx
          (example_run (example_picture 2 0 0 21 4 0 0) 1 2 3) example_bufs).ops.get? 16 =
        some (hw_op.write example_regs.VE_DEC_VC1_PICMV v) ∧
      flag_set v example_regs.VE_DEC_VC1_PICMV_BFRAC_LESS_THAN_HALF = false) ∧
    (∃ v, (cedrus_vc1_setup example_regs example_flags example_extern example_ctx
          (example_run (example_picture 2 0 0 200 4 0 0) 1 2 3) example_bufs).ops.get? 16 =
        some (hw_op.write example_regs.VE_DEC_VC1_PICMV v) ∧
      flag_set v example_regs.VE_DEC_VC1_PICMV_BFRAC_LESS_THAN_HALF = true) := by
  refine ⟨example_PICMV_layout, ?_, ?_, ?_⟩
  · obtain ⟨-, -, -, v, hv, hf⟩ := less_than_half_exact example_regs example_flags
      example_extern example_ctx (example_run (example_picture 2 0 0 13 4 0 0) 1 2 3)
      example_bufs example_PICMV_masks example_PICMV_layout
    exact ⟨v, hv, hf.trans (by decide)⟩
  · obtain ⟨-, -, -, v, hv, hf⟩ := less_than_half_exact example_regs example_flags
      example_extern example_ctx (example_run (example_picture 2 0 0 21 4 0 0) 1 2 3)
      example_bufs example_PICMV_masks example_PICMV_layout
    exact ⟨v, hv, hf.trans (by decide)⟩
  · obtain ⟨-, -, -, v, hv, hf⟩ := less_than_half_exact example_regs example_flags
      example_extern example_ctx (example_run (example_picture 2 0 0 200 4 0 0) 1 2 3)
      example_bufs example_PICMV_masks example_PICMV_layout
    exact ⟨v, hv, hf.trans (by decide)⟩

/-! ### The trigger -/

/-- C23: `cedrus_vc1_trigger` performs exactly one register write, of the
decode command to the trigger-type register; before it, it only reads (and
prints) the registers at the offsets 0x300 to 0x324 in steps of 4.  So on a
register file that holds what was last written, every register other than
the trigger-type register, and with it every parameter register programmed by
`cedrus_vc1_setup`, holds after the trigger the value it held before. -/
theorem trigger_single_write (R : CedrusRegs) (V : V4L2Flags) (E : Extern)
    (ctx : cedrus_ctx) (run : cedrus_run) (bufs : Nat → cedrus_vc1_buffer)
    (regs : Nat → Nat) (k : Nat) :
    cedrus_vc1_trigger R regs (k + 11) =
      some
        [ trigger_event.print_reg 0x300 (cedrus_read regs 0x300),
          trigger_event.print_reg 0x304 (cedrus_read regs 0x304),
          trigger_event.print_reg 0x308 (cedrus_read regs 0x308),
          trigger_event.print_reg 0x30c (cedrus_read regs 0x30c),
          trigger_event.print_reg 0x310 (cedrus_read regs 0x310),
          trigger_event.print_reg 0x314 (cedrus_read regs 0x314),
          trigger_event.print_reg 0x318 (cedrus_read regs 0x318),
          trigger_event.print_reg 0x31c (cedrus_read regs 0x31c),
          trigger_event.print_reg 0x320 (cedrus_read regs 0x320),
          trigger_event.print_reg 0x324 (cedrus_read regs 0x324),
          trigger_event.print_eof,
          trigger_event.hw
            (hw_op.write R.VE_DEC_VC1_TRIGGER_TYPE
              (R.VE_DEC_VC1_TRIGGER_TYPE_DECODE % 4294967296)) ] ∧
    cedrus_dec_ops_vc1 R V E ctx run bufs regs (k + 11) dec_op.trigger =
      [ hw_op.write R.VE_DEC_VC1_TRIGGER_TYPE
          (R.VE_DEC_VC1_TRIGGER_TYPE_DECODE % 4294967296) ] ∧
    (∀ r, r ≠ R.VE_DEC_VC1_TRIGGER_TYPE →
      hw_apply regs (cedrus_dec_ops_vc1 R V E ctx run bufs regs (k + 11) dec_op.trigger) r =
        regs r) ∧
    (∀ op ∈ (cedrus_vc1_setup R V E ctx run bufs).ops, ∀ r, hw_op.target op = some r →
      r ≠ R.VE_DEC_VC1_TRIGGER_TYPE →
      hw_apply regs (cedrus_dec_ops_vc1 R V E ctx run bufs regs (k + 11) dec_op.trigger) r =
        regs r) := by
  have h1 : cedrus_vc1_trigger R regs (k + 11) =
      some
        [ trigger_event.print_reg 0x300 (cedrus_read regs 0x300),
          trigger_event.print_reg 0x304 (cedrus_read regs 0x304),
          trigger_event.print_reg 0x308 (cedrus_read regs 0x308),
          trigger_event.print_reg 0x30c (cedrus_read regs 0x30c),
          trigger_event.print_reg 0x310 (cedrus_read regs 0x310),
          trigger_event.print_reg 0x314 (cedrus_read regs 0x314),
          trigger_event.print_reg 0x318 (cedrus_read regs 0x318),
          trigger_event.print_reg 0x31c (cedrus_read regs 0x31c),
          trigger_event.print_reg 0x320 (cedrus_read regs 0x320),
          trigger_event.print_reg 0x324 (cedrus_read regs 0x324),
          trigger_event.print_eof,
          trigger_event.hw
            (hw_op.write R.VE_DEC_VC1_TRIGGER_TYPE
              (R.VE_DEC_VC1_TRIGGER_TYPE_DECODE % 4294967296)) ] := by
    rfl
  have h2 : cedrus_dec_ops_vc1 R V E ctx run bufs regs (k + 11) dec_op.trigger =
      [ hw_op.write R.VE_DEC_VC1_TRIGGER_TYPE
          (R.VE_DEC_VC1_TRIGGER_TYPE_DECODE % 4294967296) ] := by
    simp only [cedrus_dec_ops_vc1, h1]
    rfl
  have h3 : ∀ r, r ≠ R.VE_DEC_VC1_TRIGGER_TYPE →
      hw_apply regs (cedrus_dec_ops_vc1 R V E ctx run bufs regs (k + 11) dec_op.trigger) r =
        regs r := by
    intro r hr
    rw [h2]
    simp [hw_apply, hr]
  exact ⟨h1, h2, h3, fun _ _ r _ hr => h3 r hr⟩

/-! ### The run of one frame -/

theorem run_step_counts (s s' : run_state) (i : run_input) (calls : List dec_op)
    (h : run_step s i = some (s', calls)) :
    calls.count dec_op.irq_clear = [s'].count run_state.Idle ∧
    calls.count dec_op.irq_disable = [s'].count run_state.Idle := by
  cases s <;> rcases i with _ | _ | (_ | _ | _) | _ | _ <;>
    simp only [run_step, Option.some.injEq, Prod.mk.injEq, reduceCtorEq] at h
  all_goals
    obtain ⟨rfl, rfl⟩ := h
    decide

theorem run_trace_counts (ins : List run_input) :
    ∀ (s : run_state) (states : List run_state) (calls : List dec_op),
      run_trace s ins = some (states, calls) →
      calls.count dec_op.irq_clear = states.count run_state.Idle ∧
      calls.count dec_op.irq_disable = states.count run_state.Idle := by
  induction ins with
  | nil =>
    intro s states calls h
    simp only [run_trace, Option.some.injEq, Prod.mk.injEq] at h
    obtain ⟨rfl, rfl⟩ := h
    exact ⟨rfl, rfl⟩
  | cons i rest ih =>
    intro s states calls h
    simp only [run_trace] at h
    cases hstep : run_step s i with
    | none => simp [hstep] at h
    | some p =>
      obtain ⟨s', c⟩ := p
      simp only [hstep] at h
      cases hrest : run_trace s' rest with
      | none => simp [hrest] at h
      | some q =>
        obtain ⟨st, c'⟩ := q
        simp only [hrest, Option.some.injEq, Prod.mk.injEq] at h
        obtain ⟨rfl, rfl⟩ := h
        have h1 := run_step_counts s s' i c hstep
        have h2 := ih s' st c' hrest
        have e1 : (c ++ c').count dec_op.irq_clear =
            c.count dec_op.irq_clear + c'.count dec_op.irq_clear := List.count_append _ _ _
        have e2 : (c ++ c').count dec_op.irq_disable =
            c.count dec_op.irq_disable + c'.count dec_op.irq_disable := List.count_append _ _ _
        have e3 : (s' :: st).count run_state.Idle =
            [s'].count run_state.Idle + st.count run_state.Idle :=
          List.count_append _ [s'] st
        exact ⟨by omega, by omega⟩

/-- A trace over no input enters no state and makes no call. -/
theorem run_trace_nil (s : run_state) (states : List run_state) (calls : List dec_op)
    (h : run_trace s [] = some (states, calls)) : states = [] ∧ calls = [] := by
  simp only [run_trace, Option.some.injEq, Prod.mk.injEq] at h
  exact ⟨h.1.symm, h.2.symm⟩

/-- A trace over a first input and the rest is a step followed by a trace. -/
theorem run_trace_cons (s : run_state) (i : run_input) (rest : List run_input)
    (states : List run_state) (calls : List dec_op)
    (h : run_trace s (i :: rest) = some (states, calls)) :
    ∃ s' c st c', run_step s i = some (s', c) ∧ run_trace s' rest = some (st, c') ∧
      states = s' :: st ∧ calls = c ++ c' := by
  simp only [run_trace] at h
  cases hstep : run_step s i with
  | none => simp [hstep] at h
  | some p =>
    obtain ⟨s', c⟩ := p
    simp only [hstep] at h
    cases hrest : run_trace s' rest with
    | none => simp [hrest] at h
    | some q =>
      obtain ⟨st, c'⟩ := q
      simp only [hrest, Option.some.injEq, Prod.mk.injEq] at h
      exact ⟨s', c, st, c', rfl, hrest, h.1.symm, h.2.symm⟩

/-- A trace that enters no state makes no call. -/
theorem run_trace_nil_states (ins : List run_input) (s : run_state) (calls : List dec_op)
    (h : run_trace s ins = some ([], calls)) : calls = [] := by
  cases ins with
  | nil => exact (run_trace_nil s [] calls h).2
  | cons i rest =>
    obtain ⟨s', c, st, c', -, -, hst, -⟩ := run_trace_cons s i rest [] calls h
    simp at hst

/-- A list of states that ends in its only `Idle` and starts with another
state: its tail ends in its only `Idle`. -/
theorem run_states_tail (s : run_state) (hs : s ≠ run_state.Idle) (st : List run_state)
    (hlast : (s :: st).getLast? = some run_state.Idle)
    (honce : (s :: st).count run_state.Idle = 1) :
    st.getLast? = some run_state.Idle ∧ st.count run_state.Idle = 1 := by
  cases st with
  | nil =>
    simp only [List.getLast?_singleton, Option.some.injEq] at hlast
    exact absurd hlast hs
  | cons b l =>
    rw [List.getLast?_cons_cons] at hlast
    rw [List.count_cons_of_ne (Ne.symm hs)] at honce
    exact ⟨hlast, honce⟩

/-- A list of states that ends in its only `Idle` and starts with `Idle` is
that one state. -/
theorem run_states_idle (st : List run_state)
    (hlast : (run_state.Idle :: st).getLast? = some run_state.Idle)
    (honce : (run_state.Idle :: st).count run_state.Idle = 1) : st = [] := by
  cases st with
  | nil => rfl
  | cons b l =>
    rw [List.getLast?_cons_cons] at hlast
    rw [List.count_cons_self] at honce
    have hmem : run_state.Idle ∈ b :: l := List.mem_of_getLast?_eq_some hlast
    have hpos := List.count_pos_iff.mpr hmem
    omega

/-- The end of a run: from `Completed` or `Faulted` a trace that ends in its
only `Idle` makes the two calls `irq_clear` and `irq_disable`. -/
theorem run_trace_ended (s : run_state)
    (hs : s = run_state.Completed ∨ s = run_state.Faulted)
    (ins : List run_input) (states : List run_state) (calls : List dec_op)
    (h : run_trace s ins = some (states, calls))
    (hlast : states.getLast? = some run_state.Idle)
    (honce : states.count run_state.Idle = 1) :
    calls = [dec_op.irq_clear, dec_op.irq_disable] := by
  cases ins with
  | nil =>
    obtain ⟨rfl, rfl⟩ := run_trace_nil s states calls h
    simp at hlast
  | cons i rest =>
    obtain ⟨s', c, st, c', hstep, hrest, rfl, rfl⟩ := run_trace_cons s i rest states calls h
    have hc : s' = run_state.Idle ∧ c = [dec_op.irq_clear, dec_op.irq_disable] := by
      rcases hs with rfl | rfl <;> rcases i with _ | _ | (_ | _ | _) | _ | _ <;>
        simp only [run_step, Option.some.injEq, Prod.mk.injEq, reduceCtorEq] at hstep <;>
        exact ⟨hstep.1.symm, hstep.2.symm⟩
    obtain ⟨rfl, rfl⟩ := hc
    have hst := run_states_idle st hlast honce
    subst hst
    have hc' := run_trace_nil_states rest run_state.Idle c' hrest
    subst hc'
    rfl

/-- The wait of a run: from `Triggered` a trace that ends in its only `Idle`
makes some number of `irq_status` calls and then the two calls `irq_clear`
and `irq_disable`. -/
theorem run_trace_triggered (ins : List run_input) :
    ∀ (states : List run_state) (calls : List dec_op),
      run_trace run_state.Triggered ins = some (states, calls) →
      states.getLast? = some run_state.Idle →
      states.count run_state.Idle = 1 →
      ∃ n, calls = List.replicate n dec_op.irq_status ++
        [dec_op.irq_clear, dec_op.irq_disable] := by
  induction ins with
  | nil =>
    intro states calls h hlast _
    obtain ⟨rfl, rfl⟩ := run_trace_nil _ states calls h
    simp at hlast
  | cons i rest ih =>
    intro states calls h hlast honce
    obtain ⟨s', c, st, c', hstep, hrest, rfl, rfl⟩ := run_trace_cons _ i rest states calls h
    rcases i with _ | _ | (_ | _ | _) | _ | _ <;>
      simp only [run_step, Option.some.injEq, Prod.mk.injEq, reduceCtorEq] at hstep
    · obtain ⟨rfl, rfl⟩ := hstep
      obtain ⟨hl, ho⟩ := run_states_tail _ (by decide) st hlast honce
      obtain ⟨n, rfl⟩ := ih st c' hrest hl ho
      exact ⟨n + 1, rfl⟩
    · obtain ⟨rfl, rfl⟩ := hstep
      obtain ⟨hl, ho⟩ := run_states_tail _ (by decide) st hlast honce
      have := run_trace_ended _ (Or.inr rfl) rest st c' hrest hl ho
      subst this
      exact ⟨1, rfl⟩
    · obtain ⟨rfl, rfl⟩ := hstep
      obtain ⟨hl, ho⟩ := run_states_tail _ (by decide) st hlast honce
      have := run_trace_ended _ (Or.inl rfl) rest st c' hrest hl ho
      subst this
      exact ⟨1, rfl⟩
    · obtain ⟨rfl, rfl⟩ := hstep
      obtain ⟨hl, ho⟩ := run_states_tail _ (by decide) st hlast honce
      have := run_trace_ended _ (Or.inr rfl) rest st c' hrest hl ho
      subst this
      exact ⟨0, rfl⟩

/-- The calls of a run: a trace from `Idle` that ends in its only `Idle`
calls `setup`, `trigger`, some number of times `irq_status`, and then
`irq_clear` and `irq_disable`. -/
theorem run_trace_calls (ins : List run_input) (states : List run_state)
    (calls : List dec_op)
    (h : run_trace run_state.Idle ins = some (states, calls))
    (hlast : states.getLast? = some run_state.Idle)
    (honce : states.count run_state.Idle = 1) :
    ∃ n, calls = dec_op.setup :: dec_op.trigger ::
      (List.replicate n dec_op.irq_status ++ [dec_op.irq_clear, dec_op.irq_disable]) := by
  cases ins with
  | nil =>
    obtain ⟨rfl, rfl⟩ := run_trace_nil _ states calls h
    simp at hlast
  | cons i rest =>
    obtain ⟨s', c, st, c', hstep, hrest, rfl, rfl⟩ := run_trace_cons _ i rest states calls h
    rcases i with _ | _ | (_ | _ | _) | _ | _ <;>
      simp only [run_step, Option.some.injEq, Prod.mk.injEq, reduceCtorEq] at hstep
    obtain ⟨rfl, rfl⟩ := hstep
    obtain ⟨hl, ho⟩ := run_states_tail _ (by decide) st hlast honce
    cases rest with
    | nil =>
      obtain ⟨rfl, rfl⟩ := run_trace_nil _ st c' hrest
      simp at hl
    | cons j rest2 =>
      obtain ⟨s2, c2, st2, c2', hstep2, hrest2, rfl, rfl⟩ :=
        run_trace_cons _ j rest2 st c' hrest
      rcases j with _ | _ | (_ | _ | _) | _ | _ <;>
        simp only [run_step, Option.some.injEq, Prod.mk.injEq, reduceCtorEq] at hstep2
      obtain ⟨rfl, rfl⟩ := hstep2
      obtain ⟨hl2, ho2⟩ := run_states_tail _ (by decide) st2 hl ho
      obtain ⟨n, rfl⟩ := run_trace_triggered rest2 st2 c2' hrest2 hl2 ho2
      exact ⟨n, rfl⟩

/-- The calls `irq_status` of a run perform no hardware operation. -/
theorem run_hw_ops_status (R : CedrusRegs) (V : V4L2Flags) (E : Extern) (ctx : cedrus_ctx)
    (run : cedrus_run) (bufs : Nat → cedrus_vc1_buffer) (regs : Nat → Nat → Nat)
    (fuel : Nat) (rest : List dec_op) (n : Nat) :
    ∀ k, run_hw_ops R V E ctx run bufs regs fuel k
        (List.replicate n dec_op.irq_status ++ rest) =
      run_hw_ops R V E ctx run bufs regs fuel (k + n) rest := by
  induction n with
  | zero => intro k; rfl
  | succ n ih =>
    intro k
    rw [List.replicate_succ, List.cons_append, run_hw_ops, ih (k + 1)]
    simp only [cedrus_dec_ops_vc1, List.nil_append]
    congr 1
    omega

/-- The hardware operations of a run that waits through `n` calls of
`irq_status`: those of the setup, the trigger write, the status clear and the
masking of the interrupt enables. -/
theorem run_hw_ops_run (R : CedrusRegs) (V : V4L2Flags) (E : Extern) (ctx : cedrus_ctx)
    (run : cedrus_run) (bufs : Nat → cedrus_vc1_buffer) (regs : Nat → Nat → Nat)
    (k n : Nat) :
    run_hw_ops R V E ctx run bufs regs (k + 11) 0
        (dec_op.setup :: dec_op.trigger ::
          (List.replicate n dec_op.irq_status ++ [dec_op.irq_clear, dec_op.irq_disable])) =
      (cedrus_vc1_setup R V E ctx run bufs).ops ++
        [ cedrus_write R.VE_DEC_VC1_TRIGGER_TYPE R.VE_DEC_VC1_TRIGGER_TYPE_DECODE,
          cedrus_write R.VE_DEC_VC1_STATUS R.VE_DEC_VC1_STATUS_INT_MASK,
          cedrus_write R.VE_DEC_VC1_CTRL
            (cedrus_read (regs (n + 3)) R.VE_DEC_VC1_CTRL &&&
              u32_not R.VE_DEC_VC1_CTRL_IRQ_MASK) ] := by
  have ht : cedrus_dec_ops_vc1 R V E ctx run bufs (regs 1) (k + 11) dec_op.trigger =
      [cedrus_write R.VE_DEC_VC1_TRIGGER_TYPE R.VE_DEC_VC1_TRIGGER_TYPE_DECODE] := rfl
  rw [run_hw_ops, run_hw_ops, run_hw_ops_status, ht]
  have hk : 0 + 1 + 1 + n = n + 2 := by omega
  rw [hk]
  rfl

/-- With distinct register offsets the status register is the target of two
operations of such a run and the control register of two. -/
theorem run_targets_count (R : CedrusRegs) (V : V4L2Flags) (E : Extern) (ctx : cedrus_ctx)
    (run : cedrus_run) (bufs : Nat → cedrus_vc1_buffer) (v : Nat)
    (hregs : (register_offsets R).Nodup) :
    (((cedrus_vc1_setup R V E ctx run bufs).ops ++
        [ cedrus_write R.VE_DEC_VC1_TRIGGER_TYPE R.VE_DEC_VC1_TRIGGER_TYPE_DECODE,
          cedrus_write R.VE_DEC_VC1_STATUS R.VE_DEC_VC1_STATUS_INT_MASK,
          cedrus_write R.VE_DEC_VC1_CTRL v ]).map hw_op.target).count
      (some R.VE_DEC_VC1_STATUS) = 2 ∧
    (((cedrus_vc1_setup R V E ctx run bufs).ops ++
        [ cedrus_write R.VE_DEC_VC1_TRIGGER_TYPE R.VE_DEC_VC1_TRIGGER_TYPE_DECODE,
          cedrus_write R.VE_DEC_VC1_STATUS R.VE_DEC_VC1_STATUS_INT_MASK,
          cedrus_write R.VE_DEC_VC1_CTRL v ]).map hw_op.target).count
      (some R.VE_DEC_VC1_CTRL) = 2 := by
  have hmap : (cedrus_vc1_setup R V E ctx run bufs).ops.map hw_op.target =
      [ none,
        some R.VE_DEC_VC1_DCACPRED_ADDR,
        some R.VE_DEC_VC1_BITPLANE_ADDR,
        some R.VE_DEC_VC1_MVINFO_ADDR,
        some R.VE_DEC_VC1_BITS_ADDR,
        some R.VE_DEC_VC1_BITS_END_ADDR,
        some R.VE_DEC_VC1_BITS_OFFSET,
        some R.VE_DEC_VC1_BITS_LEN,
        some R.VE_DEC_VC1_BITS_ADDR,
        some R.VE_DEC_VC1_STATUS,
        some R.VE_DEC_VC1_TRIGGER_TYPE,
        some R.VE_DEC_VC1_ROT_CTRL,
        some R.VE_DEC_VC1_PICHDRLEN,
        some R.VE_DEC_VC1_EPHS,
        some R.VE_DEC_VC1_PICCTRL,
        some R.VE_DEC_VC1_PICQP,
        some R.VE_DEC_VC1_PICMV,
        some R.VE_DEC_VC1_PICINTENCOMP,
        some R.VE_DEC_VC1_PICINTERLACE,
        some R.VE_DEC_VC1_FSIZE,
        some R.VE_DEC_VC1_PICSIZE,
        some R.VE_DEC_VC1_REC_LUMA,
        some R.VE_DEC_VC1_REC_CHROMA,
        some R.VE_DEC_VC1_ROT_LUMA_ADDR,
        some R.VE_DEC_VC1_ROT_CHROMA_ADDR,
        some R.VE_DEC_VC1_FWD_REF_LUMA_ADDR,
        some R.VE_DEC_VC1_FWD_REF_CHROMA_ADDR,
        some R.VE_DEC_VC1_BWD_REF_LUMA_ADDR,
        some R.VE_DEC_VC1_BWD_REF_CHROMA_ADDR,
        some R.VE_DEC_VC1_CTRL ] := rfl
  have hrev := List.nodup_reverse.mpr hregs
  simp only [register_offsets, List.nodup_cons, List.mem_cons, List.mem_singleton,
    List.not_mem_nil, not_or, or_false, List.nodup_nil, and_true, not_false_eq_true,
    List.reverse_cons, List.reverse_nil, List.nil_append, List.cons_append,
    List.singleton_append] at hregs hrev
  rw [List.map_append, hmap]
  simp only [List.map_cons, List.map_nil, cedrus_write, hw_op.target, List.cons_append,
    List.nil_append]
  constructor
  · simp [List.count_cons, hregs, hrev]
  · simp [List.count_cons, hregs, hrev]

/-- C24: every run of the state machine from `Idle` until it is `Idle` again
calls `irq_clear` exactly once and `irq_disable` exactly once, whether it
was completed, faulted by an observed status bit or faulted by the watchdog:
its calls are `setup`, `trigger`, some number of times `irq_status`, then
`irq_clear` and `irq_disable`.  Its hardware operations are those of
`cedrus_vc1_setup` followed by three register writes: the decode command to
the trigger-type register (by `trigger`), the interrupt mask to the status
register (by `irq_clear`) and the control register with the interrupt enables
masked (by `irq_disable`).  The status clear of `irq_clear` is the second of
the run: operation 9 of the setup is the same write.  With distinct register
offsets the run writes the status register exactly twice and the control
register exactly twice. -/
theorem run_register_writes (R : CedrusRegs) (V : V4L2Flags) (E : Extern)
    (ctx : cedrus_ctx) (run : cedrus_run) (bufs : Nat → cedrus_vc1_buffer)
    (regs : Nat → Nat → Nat) (k : Nat)
    (ins : List run_input) (states : List run_state) (calls : List dec_op)
    (h : run_trace run_state.Idle ins = some (states, calls))
    (hlast : states.getLast? = some run_state.Idle)
    (honce : states.count run_state.Idle = 1)
    (hregs : (register_offsets R).Nodup) :
    calls.count dec_op.irq_clear = 1 ∧
    calls.count dec_op.irq_disable = 1 ∧
    (∃ n, calls = dec_op.setup :: dec_op.trigger ::
      (List.replicate n dec_op.irq_status ++ [dec_op.irq_clear, dec_op.irq_disable])) ∧
    run_hw_ops R V E ctx run bufs regs (k + 11) 0 calls =
      (cedrus_vc1_setup R V E ctx run bufs).ops ++
        [ cedrus_write R.VE_DEC_VC1_TRIGGER_TYPE R.VE_DEC_VC1_TRIGGER_TYPE_DECODE,
          cedrus_write R.VE_DEC_VC1_STATUS R.VE_DEC_VC1_STATUS_INT_MASK,
          cedrus_write R.VE_DEC_VC1_CTRL
            (cedrus_read (regs (calls.length - 1)) R.VE_DEC_VC1_CTRL &&&
              u32_not R.VE_DEC_VC1_CTRL_IRQ_MASK) ] ∧
    (cedrus_vc1_setup R V E ctx run bufs).ops.get? 9 =
      some (cedrus_write R.VE_DEC_VC1_STATUS R.VE_DEC_VC1_STATUS_INT_MASK) ∧
    (cedrus_vc1_setup R V E ctx run bufs).ops.get? 29 =
      some (cedrus_write R.VE_DEC_VC1_CTRL
        (R.VE_DEC_VC1_CTRL_FINISH_IRQ_EN ||| R.VE_DEC_VC1_CTRL_ERROR_IRQ_EN |||
          R.VE_DEC_VC1_CTRL_VLD_DATA_REQ_IRQ_EN ||| R.VE_DEC_VC1_CTRL_MCRI_CACHE_EN)) ∧
    ((run_hw_ops R V E ctx run bufs regs (k + 11) 0 calls).map hw_op.target).count
      (some R.VE_DEC_VC1_STATUS) = 2 ∧
    ((run_hw_ops R V E ctx run bufs regs (k + 11) 0 calls).map hw_op.target).count
      (some R.VE_DEC_VC1_CTRL) = 2 := by
  have hc := run_trace_counts ins run_state.Idle states calls h
  obtain ⟨n, hn⟩ := run_trace_calls ins states calls h hlast honce
  have hlen : calls.length - 1 = n + 3 := by
    rw [hn]
    simp
  have hops := run_hw_ops_run R V E ctx run bufs regs k n
  rw [← hn, ← hlen] at hops
  have ht := run_targets_count R V E ctx run bufs
    (cedrus_read (regs (calls.length - 1)) R.VE_DEC_VC1_CTRL &&&
      u32_not R.VE_DEC_VC1_CTRL_IRQ_MASK) hregs
  rw [← hops] at ht
  exact ⟨hc.1.trans honce, hc.2.trans honce, ⟨n, hn⟩, hops, rfl, rfl, ht.1, ht.2⟩

/-- The theorem `run_register_writes` at a run that the watchdog faults. -/
theorem run_register_writes_witness :
    run_trace run_state.Idle
        [run_input.arm, run_input.trigger, run_input.watchdog, run_input.finish] =
      some ([run_state.Armed, run_state.Triggered, run_state.Faulted, run_state.Idle],
        [dec_op.setup, dec_op.trigger, dec_op.irq_clear, dec_op.irq_disable]) ∧
    [run_state.Armed, run_state.Triggered, run_state.Faulted, run_state.Idle].getLast? =
      some run_state.Idle ∧
    [run_state.Armed, run_state.Triggered, run_state.Faulted, run_state.Idle].count
      run_state.Idle = 1 ∧
    (register_offsets example_regs).Nodup ∧
    [dec_op.setup, dec_op.trigger, dec_op.irq_clear, dec_op.irq_disable].count
      dec_op.irq_clear = 1 ∧
    [dec_op.setup, dec_op.trigger, dec_op.irq_clear, dec_op.irq_disable].count
      dec_op.irq_disable = 1 ∧
    ((run_hw_ops example_regs example_flags example_extern example_ctx
        (example_run (example_picture 0 0 0 0 0 0 0) 0 0 3) example_bufs (fun _ _ => 0) 11 0
        [dec_op.setup, dec_op.trigger, dec_op.irq_clear, dec_op.irq_disable]).map
        hw_op.target).count (some example_regs.VE_DEC_VC1_STATUS) = 2 := by
  have hw := run_register_writes example_regs example_flags example_extern
    example_ctx (example_run (example_picture 0 0 0 0 0 0 0) 0 0 3) example_bufs
    (fun _ _ => 0) 0
    [run_input.arm, run_input.trigger, run_input.watchdog, run_input.finish]
    [run_state.Armed, run_state.Triggered, run_state.Faulted, run_state.Idle]
    [dec_op.setup, dec_op.trigger, dec_op.irq_clear, dec_op.irq_disable]
    (by decide) (by decide) (by decide) (by decide)
  exact ⟨by decide, by decide, by decide, by decide, hw.1, hw.2.1, hw.2.2.2.2.2.2.1⟩

/-- C24, counterexample: the run `Idle → Armed → Triggered → Faulted → Idle`
that the watchdog faults, on the example registers (status register 0x304,
interrupt mask 7), performs the status-clear write twice and not once:
operation 9 of `cedrus_vc1_setup` and the write of `irq_clear` are both the
write of 7 to 0x304. -/
theorem run_status_clear_twice :
    run_trace run_state.Idle
        [run_input.arm, run_input.trigger, run_input.watchdog, run_input.finish] =
      some ([run_state.Armed, run_state.Triggered, run_state.Faulted, run_state.Idle],
        [dec_op.setup, dec_op.trigger, dec_op.irq_clear, dec_op.irq_disable]) ∧
    (run_hw_ops example_regs example_flags example_extern example_ctx
        (example_run (example_picture 0 0 0 0 0 0 0) 0 0 3) example_bufs (fun _ _ => 0) 11 0
        [dec_op.setup, dec_op.trigger, dec_op.irq_clear, dec_op.irq_disable]).filter
        (fun op => op = cedrus_write example_regs.VE_DEC_VC1_STATUS
          example_regs.VE_DEC_VC1_STATUS_INT_MASK) =
      [hw_op.write 0x304 7, hw_op.write 0x304 7] ∧
    (run_hw_ops example_regs example_flags example_extern example_ctx
        (example_run (example_picture 0 0 0 0 0 0 0) 0 0 3) example_bufs (fun _ _ => 0) 11 0
        [dec_op.setup, dec_op.trigger, dec_op.irq_clear, dec_op.irq_disable]).count
        (cedrus_write example_regs.VE_DEC_VC1_STATUS
          example_regs.VE_DEC_VC1_STATUS_INT_MASK) ≠ 1 := by
  refine ⟨by decide, ?_, ?_⟩
  · decide
  · decide

end Cedrus

namespace Sun8iCsc

/-! ## Theorems on the colour space conversion -/

/-- A list of 12 entries is its 12 entries. -/
theorem length_twelve_cases (t : List Nat) (h : t.length = 12) :
    ∃ a0 a1 a2 a3 a4 a5 a6 a7 a8 a9 a10 a11 : Nat,
      t = [a0, a1, a2, a3, a4, a5, a6, a7, a8, a9, a10, a11] := by
  match t, h with
  | [a0, a1, a2, a3, a4, a5, a6, a7, a8, a9, a10, a11], _ =>
    exact ⟨a0, a1, a2, a3, a4, a5, a6, a7, a8, a9, a10, a11, rfl⟩

/-- The indices that the loop of `sun8i_csc_yvu_remap` reads, in order. -/
theorem yvu_remap_indices :
    (List.range 12).map yvu_remap_index = [0, 2, 1, 3, 4, 6, 5, 7, 8, 10, 9, 11] := by
  decide

/-- The remap of a table given by its 12 entries. -/
theorem yvu_remap_explicit (a0 a1 a2 a3 a4 a5 a6 a7 a8 a9 a10 a11 : Nat) :
    sun8i_csc_yvu_remap [a0, a1, a2, a3, a4, a5, a6, a7, a8, a9, a10, a11] =
      some [a0, a2, a1, a3, a4, a6, a5, a7, a8, a10, a9, a11] := by
  rfl

/-- For every table `t` of 12 entries `sun8i_csc_yvu_remap` returns a
table `out` of 12 entries with, in each of the rows `r = 0, 1, 2`,
`out[4r] = t[4r]`, `out[4r+1] = t[4r+2]`, `out[4r+2] = t[4r+1]` and
`out[4r+3] = t[4r+3]`; every index of `t` that the loop reads is below 12;
and remapping `out` gives back `t`. -/
theorem yvu_remap_columns_aux (t : List Nat) (h : t.length = 12) :
    ∃ out, sun8i_csc_yvu_remap t = some out ∧ out.length = 12 ∧
      (∀ r, r < 3 →
        out.get? (4 * r) = t.get? (4 * r) ∧
        out.get? (4 * r + 1) = t.get? (4 * r + 2) ∧
        out.get? (4 * r + 2) = t.get? (4 * r + 1) ∧
        out.get? (4 * r + 3) = t.get? (4 * r + 3)) ∧
      (∀ i, i < 12 → yvu_remap_index i < 12) ∧
      sun8i_csc_yvu_remap out = some t := by
  obtain ⟨a0, a1, a2, a3, a4, a5, a6, a7, a8, a9, a10, a11, rfl⟩ := length_twelve_cases t h
  refine ⟨_, yvu_remap_explicit _ _ _ _ _ _ _ _ _ _ _ _, rfl, ?_, ?_, ?_⟩
  · intro r hr
    interval_cases r <;> exact ⟨rfl, rfl, rfl, rfl⟩
  · intro i hi
    interval_cases i <;> decide
  · exact yvu_remap_explicit _ _ _ _ _ _ _ _ _ _ _ _

/-- C28: for every table `t` of 12 entries `sun8i_csc_yvu_remap` returns a
table `out` of 12 entries with, in each of the rows `r = 0, 1, 2`,
`out[4r] = t[4r]`, `out[4r+1] = t[4r+2]`, `out[4r+2] = t[4r+1]` and
`out[4r+3] = t[4r+3]`; every index of `t` that the loop reads is below 12;
and remapping `out` gives back `t`. -/
theorem yvu_remap_swaps_columns (t : List Nat) (h : t.length = 12) :
    ∃ out, sun8i_csc_yvu_remap t = some out ∧ out.length = 12 ∧
      (∀ r, r < 3 →
        out.get? (4 * r) = t.get? (4 * r) ∧
        out.get? (4 * r + 1) = t.get? (4 * r + 2) ∧
        out.get? (4 * r + 2) = t.get? (4 * r + 1) ∧
        out.get? (4 * r + 3) = t.get? (4 * r + 3)) ∧
      (∀ i, i < 12 → yvu_remap_index i < 12) ∧
      sun8i_csc_yvu_remap out = some t :=
  yvu_remap_columns_aux t h

/-- The theorem `yvu_remap_swaps_columns` at the BT.601 limited range
table. -/
theorem yvu_remap_swaps_columns_witness :
    [0x000004A8, 0x00000000, 0x00000662, 0xFFFC8451,
     0x000004A8, 0xFFFFFE6F, 0xFFFFFCC0, 0x00021E4D,
     0x000004A8, 0x00000811, 0x00000000, 0xFFFBACA9].length = 12 ∧
    ∃ out, sun8i_csc_yvu_remap
        [0x000004A8, 0x00000000, 0x00000662, 0xFFFC8451,
         0x000004A8, 0xFFFFFE6F, 0xFFFFFCC0, 0x00021E4D,
         0x000004A8, 0x00000811, 0x00000000, 0xFFFBACA9] = some out ∧ out.length = 12 ∧
      (∀ r, r < 3 →
        out.get? (4 * r) =
          [0x000004A8, 0x00000000, 0x00000662, 0xFFFC8451,
           0x000004A8, 0xFFFFFE6F, 0xFFFFFCC0, 0x00021E4D,
           0x000004A8, 0x00000811, 0x00000000, 0xFFFBACA9].get? (4 * r) ∧
        out.get? (4 * r + 1) =
          [0x000004A8, 0x00000000, 0x00000662, 0xFFFC8451,
           0x000004A8, 0xFFFFFE6F, 0xFFFFFCC0, 0x00021E4D,
           0x000004A8, 0x00000811, 0x00000000, 0xFFFBACA9].get? (4 * r + 2) ∧
        out.get? (4 * r + 2) =
          [0x000004A8, 0x00000000, 0x00000662, 0xFFFC8451,
           0x000004A8, 0xFFFFFE6F, 0xFFFFFCC0, 0x00021E4D,
           0x000004A8, 0x00000811, 0x00000000, 0xFFFBACA9].get? (4 * r + 1) ∧
        out.get? (4 * r + 3) =
          [0x000004A8, 0x00000000, 0x00000662, 0xFFFC8451,
           0x000004A8, 0xFFFFFE6F, 0xFFFFFCC0, 0x00021E4D,
           0x000004A8, 0x00000811, 0x00000000, 0xFFFBACA9].get? (4 * r + 3)) ∧
      (∀ i, i < 12 → yvu_remap_index i < 12) ∧
      sun8i_csc_yvu_remap out =
        some [0x000004A8, 0x00000000, 0x00000662, 0xFFFC8451,
              0x000004A8, 0xFFFFFE6F, 0xFFFFFCC0, 0x00021E4D,
              0x000004A8, 0x00000811, 0x00000000, 0xFFFBACA9] :=
  ⟨by decide, yvu_remap_swaps_columns _ (by decide)⟩

/-- The lookup `yuv2rgb[range][encoding]` is within the bounds of the range
array and of the encoding array exactly for two ranges and two encodings. -/
theorem yuv2rgb_lookup_isSome (range encoding : Nat) :
    (yuv2rgb_lookup range encoding).isSome = true ↔ range < 2 ∧ encoding < 2 := by
  rcases range with _ | _ | range <;> rcases encoding with _ | _ | encoding <;>
    simp [yuv2rgb_lookup, yuv2rgb]

/-- Every table of `yuv2rgb` has 12 coefficients. -/
theorem yuv2rgb_lookup_length (range encoding : Nat) (table : List Nat)
    (h : yuv2rgb_lookup range encoding = some table) : table.length = 12 := by
  rcases range with _ | _ | range <;> rcases encoding with _ | _ | encoding <;>
    simp [yuv2rgb_lookup, yuv2rgb] at h <;> subst h <;> rfl

/-- C29: in `sun8i_csc_setup`, for the limited or the full range, the lookup
`yuv2rgb[range][encoding]` is within the bounds of the arrays if and only if
the encoding is BT.601 or BT.709, and so for format type YUV or YVU the
function has a defined result exactly for these two encodings; for them it
writes the enable value to the control register and then 12 coefficients from
the first coefficient register (the table for YUV, the remapped table for
YVU) and does nothing else; for format type RGB it writes 0 to the control
register and nothing else. -/
theorem csc_setup_lookup_bounds (M : MixerRegs) (base encoding range : Nat)
    (hrange : range = DRM_COLOR_YCBCR_LIMITED_RANGE ∨ range = DRM_COLOR_YCBCR_FULL_RANGE) :
    ((yuv2rgb_lookup range encoding).isSome = true ↔
      (encoding = DRM_COLOR_YCBCR_BT601 ∨ encoding = DRM_COLOR_YCBCR_BT709)) ∧
    (yuv2rgb_lookup range DRM_COLOR_YCBCR_BT2020 = none) ∧
    (∀ fmt_type, fmt_type = format_type.FORMAT_TYPE_YUV ∨
        fmt_type = format_type.FORMAT_TYPE_YVU →
      ((sun8i_csc_setup M base fmt_type encoding range).isSome = true ↔
        (encoding = DRM_COLOR_YCBCR_BT601 ∨ encoding = DRM_COLOR_YCBCR_BT709))) ∧
    (encoding = DRM_COLOR_YCBCR_BT601 ∨ encoding = DRM_COLOR_YCBCR_BT709 →
      ∃ table yvu_table, yuv2rgb_lookup range encoding = some table ∧
        sun8i_csc_yvu_remap table = some yvu_table ∧
        table.length = 12 ∧ yvu_table.length = 12 ∧
        sun8i_csc_setup M base format_type.FORMAT_TYPE_YUV encoding range =
          some [ csc_event.regmap_write (M.SUN8I_CSC_CTRL base) M.SUN8I_CSC_CTRL_EN,
                 csc_event.regmap_bulk_write (M.SUN8I_CSC_COEFF base 0) table ] ∧
        sun8i_csc_setup M base format_type.FORMAT_TYPE_YVU encoding range =
          some [ csc_event.regmap_write (M.SUN8I_CSC_CTRL base) M.SUN8I_CSC_CTRL_EN,
                 csc_event.regmap_bulk_write (M.SUN8I_CSC_COEFF base 0) yvu_table ]) ∧
    sun8i_csc_setup M base format_type.FORMAT_TYPE_RGB encoding range =
      some [ csc_event.regmap_write (M.SUN8I_CSC_CTRL base) 0 ] := by
  have hr : range < 2 := by
    rcases hrange with h | h <;> subst h <;> decide
  have henc : (encoding = DRM_COLOR_YCBCR_BT601 ∨ encoding = DRM_COLOR_YCBCR_BT709) ↔
      encoding < 2 := by
    simp only [DRM_COLOR_YCBCR_BT601, DRM_COLOR_YCBCR_BT709]
    omega
  have hlook : (yuv2rgb_lookup range encoding).isSome = true ↔
      (encoding = DRM_COLOR_YCBCR_BT601 ∨ encoding = DRM_COLOR_YCBCR_BT709) := by
    rw [yuv2rgb_lookup_isSome, henc]
    exact ⟨fun h => h.2, fun h => ⟨hr, h⟩⟩
  have hsome : encoding = DRM_COLOR_YCBCR_BT601 ∨ encoding = DRM_COLOR_YCBCR_BT709 →
      ∃ table yvu_table, yuv2rgb_lookup range encoding = some table ∧
        sun8i_csc_yvu_remap table = some yvu_table ∧
        table.length = 12 ∧ yvu_table.length = 12 := by
    intro he
    obtain ⟨table, htable⟩ := Option.isSome_iff_exists.mp (hlook.mpr he)
    have hlen := yuv2rgb_lookup_length range encoding table htable
    obtain ⟨out, hout, holen, -⟩ := yvu_remap_columns_aux table hlen
    exact ⟨table, out, htable, hout, hlen, holen⟩
  refine ⟨hlook, ?_, ?_, ?_, rfl⟩
  · rcases hrange with h | h <;> subst h <;> rfl
  · intro fmt_type hfmt
    constructor
    · intro h
      by_contra hne
      have hnone : yuv2rgb_lookup range encoding = none := by
        cases hl : yuv2rgb_lookup range encoding with
        | none => rfl
        | some t => exact absurd (hlook.mp (by simp [hl])) hne
      rcases hfmt with hf | hf <;> subst hf <;> simp [sun8i_csc_setup, hnone] at h
    · intro he
      obtain ⟨table, yvu_table, htable, hyvu, -, -⟩ := hsome he
      rcases hfmt with hf | hf <;> subst hf <;> simp [sun8i_csc_setup, htable, hyvu]
  · intro he
    obtain ⟨table, yvu_table, htable, hyvu, hlen, holen⟩ := hsome he
    refine ⟨table, yvu_table, htable, hyvu, hlen, holen, ?_, ?_⟩
    · simp [sun8i_csc_setup, sun8i_csc_setup_write, htable, List.take_of_length_le, hlen]
    · simp [sun8i_csc_setup, sun8i_csc_setup_write, htable, hyvu, List.take_of_length_le,
        holen]

/-- The theorem `csc_setup_lookup_bounds` at the full range with BT.709: the
lookup is within bounds, the lookup for BT.2020 is not, and an RGB layer
switches the conversion off. -/
theorem csc_setup_lookup_bounds_witness :
    (DRM_COLOR_YCBCR_FULL_RANGE = DRM_COLOR_YCBCR_LIMITED_RANGE ∨
      DRM_COLOR_YCBCR_FULL_RANGE = DRM_COLOR_YCBCR_FULL_RANGE) ∧
    ((yuv2rgb_lookup DRM_COLOR_YCBCR_FULL_RANGE DRM_COLOR_YCBCR_BT709).isSome = true ↔
      (DRM_COLOR_YCBCR_BT709 = DRM_COLOR_YCBCR_BT601 ∨
        DRM_COLOR_YCBCR_BT709 = DRM_COLOR_YCBCR_BT709)) ∧
    yuv2rgb_lookup DRM_COLOR_YCBCR_FULL_RANGE DRM_COLOR_YCBCR_BT2020 = none ∧
    sun8i_csc_setup example_mixer_regs 0x1000 format_type.FORMAT_TYPE_RGB
        DRM_COLOR_YCBCR_BT709 DRM_COLOR_YCBCR_FULL_RANGE =
      some [ csc_event.regmap_write (example_mixer_regs.SUN8I_CSC_CTRL 0x1000) 0 ] :=
  ⟨Or.inr rfl,
   (csc_setup_lookup_bounds example_mixer_regs 0x1000 DRM_COLOR_YCBCR_BT709
      DRM_COLOR_YCBCR_FULL_RANGE (Or.inr rfl)).1,
   (csc_setup_lookup_bounds example_mixer_regs 0x1000 DRM_COLOR_YCBCR_BT709
      DRM_COLOR_YCBCR_FULL_RANGE (Or.inr rfl)).2.1,
   (csc_setup_lookup_bounds example_mixer_regs 0x1000 DRM_COLOR_YCBCR_BT709
      DRM_COLOR_YCBCR_FULL_RANGE (Or.inr rfl)).2.2.2.2⟩

/-- The lookup `yuv2yuv_de3[range][encoding][encoding]` on the diagonal. -/
theorem yuv2yuv_de3_diagonal (range encoding : Nat)
    (hrange : range = DRM_COLOR_YCBCR_LIMITED_RANGE ∨ range = DRM_COLOR_YCBCR_FULL_RANGE)
    (henc : encoding = DRM_COLOR_YCBCR_BT601 ∨ encoding = DRM_COLOR_YCBCR_BT709 ∨
      encoding = DRM_COLOR_YCBCR_BT2020) :
    yuv2yuv_de3_lookup range encoding encoding =
      some (if range = DRM_COLOR_YCBCR_LIMITED_RANGE then
          { ptr := table_ptr.identity_de3, data := identity_de3 }
        else { ptr := table_ptr.yuv_full_to_lim_de3, data := yuv_full_to_lim_de3 }) := by
  rcases hrange with h | h <;> subst h <;> rcases henc with h | h | h <;> subst h <;> rfl

/-- C30: in `sun8i_de3_ccsc_setup`, when the cached state of the layer differs
from the request, for format type YUV, an encoding (BT.601, BT.709 or
BT.2020) equal to the output encoding of the engine, an output format that is
not RGB and an EOTF that is SDR or supported by the sink: with limited range
the selected table is `identity_de3`, and the function disables the CDC and
clears the enable bit of the layer in the blender CSC control register, with
no coefficient written; with full range the selected table is
`yuv_full_to_lim_de3`, and the function disables the CDC, sets the enable bit
and writes the 12 coefficients of that table from the first coefficient
register of the layer.  In both cases the request is stored as the new cached
state. -/
theorem de3_yuv_same_encoding (M : MixerRegs) (engine : sunxi_engine) (state : csc_state)
    (layer encoding range : Nat)
    (hstate : csc_state_cached state engine format_type.FORMAT_TYPE_YUV encoding range = false)
    (hrange : range = DRM_COLOR_YCBCR_LIMITED_RANGE ∨ range = DRM_COLOR_YCBCR_FULL_RANGE)
    (hout : encoding = engine.encoding)
    (henc : encoding = DRM_COLOR_YCBCR_BT601 ∨ encoding = DRM_COLOR_YCBCR_BT709 ∨
      encoding = DRM_COLOR_YCBCR_BT2020)
    (hfmt : is_rgb engine.format = false)
    (heotf : engine.eotf = HDMI_EOTF_TRADITIONAL_GAMMA_SDR ∨
      engine.is_eotf_supported = true) :
    yuv2yuv_de3_lookup range encoding engine.encoding =
      some (if range = DRM_COLOR_YCBCR_LIMITED_RANGE then
          { ptr := table_ptr.identity_de3, data := identity_de3 }
        else { ptr := table_ptr.yuv_full_to_lim_de3, data := yuv_full_to_lim_de3 }) ∧
    yuv_full_to_lim_de3.length = 12 ∧
    sun8i_de3_ccsc_setup M engine state layer format_type.FORMAT_TYPE_YUV encoding range =
      some ({ fmt_type := format_type.FORMAT_TYPE_YUV,
              in_enc := encoding,
              in_range := range,
              out_fmt := engine.format,
              out_enc := engine.encoding,
              eotf := engine.eotf,
              is_eotf_supported := engine.is_eotf_supported },
        csc_event.cdc_disable layer ::
          (if range = DRM_COLOR_YCBCR_LIMITED_RANGE then
            [ csc_event.regmap_update_bits (M.SUN50I_MIXER_BLEND_CSC_CTL M.DE3_BLD_BASE)
                (M.SUN50I_MIXER_BLEND_CSC_CTL_EN layer) 0 ]
          else
            [ csc_event.regmap_update_bits (M.SUN50I_MIXER_BLEND_CSC_CTL M.DE3_BLD_BASE)
                (M.SUN50I_MIXER_BLEND_CSC_CTL_EN layer)
                (M.SUN50I_MIXER_BLEND_CSC_CTL_EN layer),
              csc_event.regmap_bulk_write
                (M.SUN50I_MIXER_BLEND_CSC_COEFF M.DE3_BLD_BASE layer 0)
                yuv_full_to_lim_de3 ])) := by
  have hdiag := yuv2yuv_de3_diagonal range encoding hrange henc
  have hcond : (!(engine.eotf == HDMI_EOTF_TRADITIONAL_GAMMA_SDR) &&
      !engine.is_eotf_supported) = false := by
    rcases heotf with h | h <;> simp [h]
  refine ⟨by rw [← hout]; exact hdiag, rfl, ?_⟩
  unfold sun8i_de3_ccsc_setup
  simp only [hstate, Bool.false_eq_true, if_false, hcond, hfmt, ← hout, hdiag,
    Option.bind_some, reduceCtorEq]
  rcases hrange with h | h <;> subst h <;>
    simp [sun8i_de3_ccsc_write, DRM_COLOR_YCBCR_LIMITED_RANGE, DRM_COLOR_YCBCR_FULL_RANGE,
      yuv_full_to_lim_de3]

/-- The theorem `de3_yuv_same_encoding` at a BT.709 full range layer on an SDR
engine that outputs BT.709, after an RGB layer. -/
theorem de3_yuv_same_encoding_witness :
    csc_state_cached example_csc_state example_engine format_type.FORMAT_TYPE_YUV
      DRM_COLOR_YCBCR_BT709 DRM_COLOR_YCBCR_FULL_RANGE = false ∧
    is_rgb example_engine.format = false ∧
    sun8i_de3_ccsc_setup example_mixer_regs example_engine example_csc_state 1
        format_type.FORMAT_TYPE_YUV DRM_COLOR_YCBCR_BT709 DRM_COLOR_YCBCR_FULL_RANGE =
      some ({ fmt_type := format_type.FORMAT_TYPE_YUV,
              in_enc := DRM_COLOR_YCBCR_BT709,
              in_range := DRM_COLOR_YCBCR_FULL_RANGE,
              out_fmt := example_engine.format,
              out_enc := example_engine.encoding,
              eotf := example_engine.eotf,
              is_eotf_supported := example_engine.is_eotf_supported },
        csc_event.cdc_disable 1 ::
          (if DRM_COLOR_YCBCR_FULL_RANGE = DRM_COLOR_YCBCR_LIMITED_RANGE then
            [ csc_event.regmap_update_bits
                (example_mixer_regs.SUN50I_MIXER_BLEND_CSC_CTL example_mixer_regs.DE3_BLD_BASE)
                (example_mixer_regs.SUN50I_MIXER_BLEND_CSC_CTL_EN 1) 0 ]
          else
            [ csc_event.regmap_update_bits
                (example_mixer_regs.SUN50I_MIXER_BLEND_CSC_CTL example_mixer_regs.DE3_BLD_BASE)
                (example_mixer_regs.SUN50I_MIXER_BLEND_CSC_CTL_EN 1)
                (example_mixer_regs.SUN50I_MIXER_BLEND_CSC_CTL_EN 1),
              csc_event.regmap_bulk_write
                (example_mixer_regs.SUN50I_MIXER_BLEND_CSC_COEFF
                  example_mixer_regs.DE3_BLD_BASE 1 0)
                yuv_full_to_lim_de3 ])) :=
  ⟨by decide, by decide,
   (de3_yuv_same_encoding example_mixer_regs example_engine example_csc_state 1
      DRM_COLOR_YCBCR_BT709 DRM_COLOR_YCBCR_FULL_RANGE (by decide) (Or.inr rfl) rfl
      (Or.inr (Or.inl rfl)) (by decide) (Or.inl rfl)).2.2⟩

end Sun8iCsc
